import Mathlib

/-!
# r3d: DDS header decoder and image composition

A shallow embedding of the DDS loader (`src/details/misc/r3d_dds.c`) and of the
image composition (`src/details/r3d_image.c`) of r3d, and the properties of
them that were checked against the natural-language specification.

Conventions of the embedding

* a byte is a `Fin 256`; the input buffer is a `List Byte`, so that the buffer
  has a length and a read outside of it is visible (`none`);
* `uint32_t` values are natural numbers, every `uint32_t` operation that can
  wrap is followed by `% 2 ^ 32`;
* a `uint32_t` read through a pointer cast takes four bytes, least significant
  first (the byte order of the container format and of the targets of r3d);
* a pointer into the input buffer is a byte offset from `file_data`;
* an output pointer is `none` when it is `NULL` and `some v` when it points to a
  cell that currently holds `v`.
-/

namespace R3D

/-! ## Format enumeration (`r3d_dds.h`) -/

/-- The enumeration `r3d_dds_format_t`, in the order of the header file. -/
inductive r3d_dds_format_t where
  | R3D_DDS_FORMAT_UNKNOWN
  | R3D_DDS_FORMAT_R8G8B8A8_UNORM
  | R3D_DDS_FORMAT_R8G8B8_UNORM
  | R3D_DDS_FORMAT_R8G8_UNORM
  | R3D_DDS_FORMAT_R8_UNORM
  | R3D_DDS_FORMAT_R32G32B32A32_FLOAT
  | R3D_DDS_FORMAT_R32G32B32_FLOAT
  | R3D_DDS_FORMAT_R32G32_FLOAT
  | R3D_DDS_FORMAT_R32_FLOAT
  | R3D_DDS_FORMAT_R16G16B16A16_FLOAT
  | R3D_DDS_FORMAT_R16G16_FLOAT
  | R3D_DDS_FORMAT_R16_FLOAT
  | R3D_DDS_FORMAT_BC1
  | R3D_DDS_FORMAT_BC2
  | R3D_DDS_FORMAT_BC3
  | R3D_DDS_FORMAT_BC4
  | R3D_DDS_FORMAT_BC5
  deriving DecidableEq, Repr

open r3d_dds_format_t

/-- The integer value of an enumerator (`R3D_DDS_FORMAT_UNKNOWN = 0`, then
consecutive). -/
def r3d_dds_format_t.toNat : r3d_dds_format_t → Nat
  | R3D_DDS_FORMAT_UNKNOWN => 0
  | R3D_DDS_FORMAT_R8G8B8A8_UNORM => 1
  | R3D_DDS_FORMAT_R8G8B8_UNORM => 2
  | R3D_DDS_FORMAT_R8G8_UNORM => 3
  | R3D_DDS_FORMAT_R8_UNORM => 4
  | R3D_DDS_FORMAT_R32G32B32A32_FLOAT => 5
  | R3D_DDS_FORMAT_R32G32B32_FLOAT => 6
  | R3D_DDS_FORMAT_R32G32_FLOAT => 7
  | R3D_DDS_FORMAT_R32_FLOAT => 8
  | R3D_DDS_FORMAT_R16G16B16A16_FLOAT => 9
  | R3D_DDS_FORMAT_R16G16_FLOAT => 10
  | R3D_DDS_FORMAT_R16_FLOAT => 11
  | R3D_DDS_FORMAT_BC1 => 12
  | R3D_DDS_FORMAT_BC2 => 13
  | R3D_DDS_FORMAT_BC3 => 14
  | R3D_DDS_FORMAT_BC4 => 15
  | R3D_DDS_FORMAT_BC5 => 16

/-! ## DDS structures and constants -/

/-- The struct `dds_pixelformat_t`: eight `uint32_t` fields, 32 bytes. -/
structure dds_pixelformat_t where
  dwSize : Nat
  dwFlags : Nat
  dwFourCC : Nat
  dwRGBBitCount : Nat
  dwRBitMask : Nat
  dwGBitMask : Nat
  dwBBitMask : Nat
  dwABitMask : Nat
  deriving DecidableEq, Repr

/-- The constant `DDS_MAGIC`, the four characters "DDS ". -/
def DDS_MAGIC : Nat := 0x20534444
/-- The constant `DDS_FOURCC`, a pixel-format flag bit. -/
def DDS_FOURCC : Nat := 0x00000004
/-- The constant `DDS_RGB`, a pixel-format flag bit. -/
def DDS_RGB : Nat := 0x00000040
/-- The constant `FOURCC_DX10`, the four characters "DX10". -/
def FOURCC_DX10 : Nat := 0x30315844

/-- The value of `sizeof(uint32_t)`. -/
def sizeof_uint32_t : Nat := 4
/-- The value of `sizeof(dds_header_t)`: 7 + 11 + 8 + 5 = 31 fields of four
bytes. -/
def sizeof_dds_header_t : Nat := 124
/-- The value of `sizeof(dds_header_dx10_t)`: five fields of four bytes. -/
def sizeof_dds_header_dx10_t : Nat := 20

/-- Byte offset of `dwSize` inside `dds_header_t`. -/
def off_dwSize : Nat := 0
/-- Byte offset of `dwHeight` inside `dds_header_t`. -/
def off_dwHeight : Nat := 8
/-- Byte offset of `dwWidth` inside `dds_header_t`. -/
def off_dwWidth : Nat := 12
/-- Byte offset of `dwPitchOrLinearSize` inside `dds_header_t`. -/
def off_dwPitchOrLinearSize : Nat := 16
/-- Byte offset of the embedded `ddspf` inside `dds_header_t` (after
7 + 11 fields). -/
def off_ddspf : Nat := 72
/-- Byte offset of `dwFourCC` inside `dds_pixelformat_t`. -/
def off_pf_dwFourCC : Nat := 8
/-- Byte offset of `dxgiFormat` inside `dds_header_dx10_t`. -/
def off_dxgiFormat : Nat := 0

/-! ## Reading the buffer -/

/-- One `unsigned char`. -/
abbrev Byte := Fin 256

/-- The `uint32_t` stored at byte offset `off` of the buffer, little-endian;
`none` when one of its four bytes lies outside the buffer. -/
def readU32 (mem : List Byte) (off : Nat) : Option Nat :=
  match mem.drop off with
  | b0 :: b1 :: b2 :: b3 :: _ =>
      some (b0.val + 256 * b1.val + 65536 * b2.val + 16777216 * b3.val)
  | _ => none

/-- The `dds_pixelformat_t` object stored at byte offset `off`; `none` when it
does not lie inside the buffer. -/
def read_dds_pixelformat (mem : List Byte) (off : Nat) : Option dds_pixelformat_t :=
  (readU32 mem off).bind fun dwSize =>
  (readU32 mem (off + 4)).bind fun dwFlags =>
  (readU32 mem (off + 8)).bind fun dwFourCC =>
  (readU32 mem (off + 12)).bind fun dwRGBBitCount =>
  (readU32 mem (off + 16)).bind fun dwRBitMask =>
  (readU32 mem (off + 20)).bind fun dwGBitMask =>
  (readU32 mem (off + 24)).bind fun dwBBitMask =>
  (readU32 mem (off + 28)).bind fun dwABitMask =>
  some ⟨dwSize, dwFlags, dwFourCC, dwRGBBitCount, dwRBitMask, dwGBitMask, dwBBitMask,
    dwABitMask⟩

/-! ## Helper functions -/

/-- The function `get_bytes_per_pixel`. -/
def get_bytes_per_pixel : r3d_dds_format_t → Nat
  | R3D_DDS_FORMAT_R8_UNORM => 1
  | R3D_DDS_FORMAT_R8G8_UNORM => 2
  | R3D_DDS_FORMAT_R8G8B8_UNORM => 3
  | R3D_DDS_FORMAT_R8G8B8A8_UNORM => 4
  | R3D_DDS_FORMAT_R16_FLOAT => 2
  | R3D_DDS_FORMAT_R32_FLOAT => 4
  | R3D_DDS_FORMAT_R16G16_FLOAT => 4
  | R3D_DDS_FORMAT_R32G32_FLOAT => 8
  | R3D_DDS_FORMAT_R16G16B16A16_FLOAT => 8
  | R3D_DDS_FORMAT_R32G32B32_FLOAT => 12
  | R3D_DDS_FORMAT_R32G32B32A32_FLOAT => 16
  | _ => 0

/-- The function `dxgi_to_r3d_format`; the `DXGI_FORMAT_*` constants are written
as their values. -/
def dxgi_to_r3d_format (dxgi_format : Nat) : r3d_dds_format_t :=
  if dxgi_format = 61 then R3D_DDS_FORMAT_R8_UNORM
  else if dxgi_format = 49 then R3D_DDS_FORMAT_R8G8_UNORM
  else if dxgi_format = 28 then R3D_DDS_FORMAT_R8G8B8A8_UNORM
  else if dxgi_format = 54 then R3D_DDS_FORMAT_R16_FLOAT
  else if dxgi_format = 41 then R3D_DDS_FORMAT_R32_FLOAT
  else if dxgi_format = 34 then R3D_DDS_FORMAT_R16G16_FLOAT
  else if dxgi_format = 16 then R3D_DDS_FORMAT_R32G32_FLOAT
  else if dxgi_format = 10 then R3D_DDS_FORMAT_R16G16B16A16_FLOAT
  else if dxgi_format = 6 then R3D_DDS_FORMAT_R32G32B32_FLOAT
  else if dxgi_format = 2 then R3D_DDS_FORMAT_R32G32B32A32_FLOAT
  else if dxgi_format = 71 then R3D_DDS_FORMAT_BC1
  else if dxgi_format = 74 then R3D_DDS_FORMAT_BC2
  else if dxgi_format = 77 then R3D_DDS_FORMAT_BC3
  else if dxgi_format = 80 then R3D_DDS_FORMAT_BC4
  else if dxgi_format = 83 then R3D_DDS_FORMAT_BC5
  else R3D_DDS_FORMAT_UNKNOWN

/-- The first `switch` of `legacy_format_to_r3d`, on the FourCC: `some` format
when a `case` returns, `none` when control leaves the `switch`. -/
def legacy_fourcc_switch (dwFourCC : Nat) : Option r3d_dds_format_t :=
  if dwFourCC = 0x31545844 then some R3D_DDS_FORMAT_BC1
  else if dwFourCC = 0x33545844 then some R3D_DDS_FORMAT_BC2
  else if dwFourCC = 0x35545844 then some R3D_DDS_FORMAT_BC3
  else if dwFourCC = 0x31495441 then some R3D_DDS_FORMAT_BC4
  else if dwFourCC = 0x32495441 then some R3D_DDS_FORMAT_BC5
  else none

/-- The second `switch` of `legacy_format_to_r3d`, on the RGB bit count: `some`
format when a `case` returns, `none` when control leaves the `switch`. -/
def legacy_rgb_switch (pf : dds_pixelformat_t) : Option r3d_dds_format_t :=
  if pf.dwRGBBitCount = 32 then
    (if pf.dwABitMask ≠ 0 then some R3D_DDS_FORMAT_R8G8B8A8_UNORM
     else some R3D_DDS_FORMAT_R8G8B8_UNORM)
  else if pf.dwRGBBitCount = 24 then some R3D_DDS_FORMAT_R8G8B8_UNORM
  else if pf.dwRGBBitCount = 16 then some R3D_DDS_FORMAT_R8G8_UNORM
  else if pf.dwRGBBitCount = 8 then some R3D_DDS_FORMAT_R8_UNORM
  else none

/-- The function `legacy_format_to_r3d`: the FourCC switch when the FourCC flag
is set, then (when that did not return) the bit-count switch when the RGB flag
is set, then `R3D_DDS_FORMAT_UNKNOWN`. -/
def legacy_format_to_r3d (pf : dds_pixelformat_t) : r3d_dds_format_t :=
  match (if pf.dwFlags &&& DDS_FOURCC ≠ 0 then legacy_fourcc_switch pf.dwFourCC else none) with
  | some f => f
  | none =>
    match (if pf.dwFlags &&& DDS_RGB ≠ 0 then legacy_rgb_switch pf else none) with
    | some f => f
    | none => R3D_DDS_FORMAT_UNKNOWN

/-- The function `r3d_format_is_compressed`: the enumerator lies between
`R3D_DDS_FORMAT_BC1` and `R3D_DDS_FORMAT_BC5`. -/
def r3d_format_is_compressed (format : r3d_dds_format_t) : Bool :=
  decide (R3D_DDS_FORMAT_BC1.toNat ≤ format.toNat ∧ format.toNat ≤ R3D_DDS_FORMAT_BC5.toNat)

/-- The block-size `switch` inside `r3d_load_dds_from_memory`; `none` is its
`default: return NULL`. -/
def block_size_switch : r3d_dds_format_t → Option Nat
  | R3D_DDS_FORMAT_BC1 => some 8
  | R3D_DDS_FORMAT_BC2 => some 16
  | R3D_DDS_FORMAT_BC3 => some 16
  | R3D_DDS_FORMAT_BC4 => some 8
  | R3D_DDS_FORMAT_BC5 => some 16
  | _ => none

/-! ## The loader -/

/-- The four output pointers of `r3d_load_dds_from_memory` with the contents of
the cells they point to: `none` is a `NULL` pointer. -/
structure OutParams where
  w : Option Nat
  h : Option Nat
  format : Option r3d_dds_format_t
  data_size : Option Nat
  deriving DecidableEq, Repr

/-- What a call of `r3d_load_dds_from_memory` leaves behind: the returned
pointer (`none` is `NULL`, `some k` is `file_data + k`) and the output cells. -/
structure LoadReturn where
  ptr : Option Nat
  out : OutParams
  deriving DecidableEq, Repr

/-- The "Calculate data size" part of `r3d_load_dds_from_memory` (from
`get_bytes_per_pixel` to the end of the `if`), on the values of `*w`, `*h`,
the detected format and `header->dwPitchOrLinearSize`; `none` is the
`default: return NULL` of the block-size `switch`. -/
def calculated_data_size (w h : Nat) (detected_format : r3d_dds_format_t)
    (dwPitchOrLinearSize : Nat) : Option Nat :=
  let bpp := get_bytes_per_pixel detected_format
  if bpp > 0 then
    some (((w * h) % 2 ^ 32 * bpp) % 2 ^ 32)
  else if dwPitchOrLinearSize > 0 then
    some dwPitchOrLinearSize
  else
    (block_size_switch detected_format).map fun block_size =>
      let blocks_x := ((w + 3) % 2 ^ 32) / 4
      let blocks_y := ((h + 3) % 2 ^ 32) / 4
      ((blocks_x * blocks_y) % 2 ^ 32 * block_size) % 2 ^ 32

/-- The function `r3d_load_dds_from_memory`. The outer `Option` is `none` when
the function reads outside of the buffer (undefined behaviour in C, which
receives no length). The header fields are read one by one at their offsets;
the call `legacy_format_to_r3d(&header->ddspf)` reads the pixel-format
descriptor, which lies inside the primary header. `dwPitchOrLinearSize` is
read before the size is calculated: it lies before the FourCC, which has been
read by then, so this read cannot be the first one to leave the buffer. -/
def r3d_load_dds_from_memory (file_data : Option (List Byte)) (out : OutParams) :
    Option LoadReturn :=
  match file_data with
  | none => some ⟨none, out⟩
  | some mem =>
    if out.w = none ∨ out.h = none ∨ out.format = none then some ⟨none, out⟩ else
    let ptr := 0
    (readU32 mem ptr).bind fun magic =>
    if magic ≠ DDS_MAGIC then some ⟨none, out⟩ else
    let ptr := ptr + sizeof_uint32_t
    let header := ptr
    (readU32 mem (header + off_dwSize)).bind fun dwSize =>
    if dwSize ≠ sizeof_dds_header_t then some ⟨none, out⟩ else
    let ptr := ptr + sizeof_dds_header_t
    (readU32 mem (header + off_dwWidth)).bind fun dwWidth =>
    (readU32 mem (header + off_dwHeight)).bind fun dwHeight =>
    let out := { out with w := some dwWidth, h := some dwHeight }
    (readU32 mem (header + off_ddspf + off_pf_dwFourCC)).bind fun dwFourCC =>
    (if dwFourCC = FOURCC_DX10 then
        (readU32 mem (ptr + off_dxgiFormat)).bind fun dxgiFormat =>
        some (ptr + sizeof_dds_header_dx10_t, dxgi_to_r3d_format dxgiFormat)
      else
        (read_dds_pixelformat mem (header + off_ddspf)).bind fun ddspf =>
        some (ptr, legacy_format_to_r3d ddspf)).bind fun (ptr, detected_format) =>
    let out := { out with format := some detected_format }
    if detected_format = R3D_DDS_FORMAT_UNKNOWN then some ⟨none, out⟩ else
    (readU32 mem (header + off_dwPitchOrLinearSize)).bind fun dwPitchOrLinearSize =>
    match calculated_data_size dwWidth dwHeight detected_format dwPitchOrLinearSize with
    | none => some ⟨none, out⟩
    | some size =>
      some ⟨some ptr, { out with data_size := out.data_size.map fun _ => size }⟩

/-! ## OpenGL format mapping and the texture loader -/

/-- The OpenGL enumerators named in `r3d_dds.c`. They are defined by `glad.h`,
which is not part of the sources, so their values are parameters. -/
structure GLenums where
  GL_R8 : Nat
  GL_RG8 : Nat
  GL_RGB8 : Nat
  GL_RGBA8 : Nat
  GL_R16F : Nat
  GL_R32F : Nat
  GL_RG16F : Nat
  GL_RG32F : Nat
  GL_RGBA16F : Nat
  GL_RGBA32F : Nat
  GL_COMPRESSED_RGBA_S3TC_DXT1_EXT : Nat
  GL_COMPRESSED_RGBA_S3TC_DXT3_EXT : Nat
  GL_COMPRESSED_RGBA_S3TC_DXT5_EXT : Nat
  GL_COMPRESSED_RED_RGTC1 : Nat
  GL_COMPRESSED_RG_RGTC2 : Nat
  GL_RED : Nat
  GL_RG : Nat
  GL_RGB : Nat
  GL_RGBA : Nat
  GL_UNSIGNED_BYTE : Nat
  GL_HALF_FLOAT : Nat
  GL_FLOAT : Nat
  deriving DecidableEq, Repr

/-- The function `r3d_format_to_gl_internal_format`. -/
def r3d_format_to_gl_internal_format (gl : GLenums) : r3d_dds_format_t → Nat
  | R3D_DDS_FORMAT_R8_UNORM => gl.GL_R8
  | R3D_DDS_FORMAT_R8G8_UNORM => gl.GL_RG8
  | R3D_DDS_FORMAT_R8G8B8_UNORM => gl.GL_RGB8
  | R3D_DDS_FORMAT_R8G8B8A8_UNORM => gl.GL_RGBA8
  | R3D_DDS_FORMAT_R16_FLOAT => gl.GL_R16F
  | R3D_DDS_FORMAT_R32_FLOAT => gl.GL_R32F
  | R3D_DDS_FORMAT_R16G16_FLOAT => gl.GL_RG16F
  | R3D_DDS_FORMAT_R32G32_FLOAT => gl.GL_RG32F
  | R3D_DDS_FORMAT_R16G16B16A16_FLOAT => gl.GL_RGBA16F
  | R3D_DDS_FORMAT_R32G32B32A32_FLOAT => gl.GL_RGBA32F
  | R3D_DDS_FORMAT_BC1 => gl.GL_COMPRESSED_RGBA_S3TC_DXT1_EXT
  | R3D_DDS_FORMAT_BC2 => gl.GL_COMPRESSED_RGBA_S3TC_DXT3_EXT
  | R3D_DDS_FORMAT_BC3 => gl.GL_COMPRESSED_RGBA_S3TC_DXT5_EXT
  | R3D_DDS_FORMAT_BC4 => gl.GL_COMPRESSED_RED_RGTC1
  | R3D_DDS_FORMAT_BC5 => gl.GL_COMPRESSED_RG_RGTC2
  | _ => 0

/-- The function `r3d_format_to_gl_format`. -/
def r3d_format_to_gl_format (gl : GLenums) : r3d_dds_format_t → Nat
  | R3D_DDS_FORMAT_R8_UNORM => gl.GL_RED
  | R3D_DDS_FORMAT_R16_FLOAT => gl.GL_RED
  | R3D_DDS_FORMAT_R32_FLOAT => gl.GL_RED
  | R3D_DDS_FORMAT_R8G8_UNORM => gl.GL_RG
  | R3D_DDS_FORMAT_R16G16_FLOAT => gl.GL_RG
  | R3D_DDS_FORMAT_R32G32_FLOAT => gl.GL_RG
  | R3D_DDS_FORMAT_R8G8B8_UNORM => gl.GL_RGB
  | R3D_DDS_FORMAT_R32G32B32_FLOAT => gl.GL_RGB
  | R3D_DDS_FORMAT_R8G8B8A8_UNORM => gl.GL_RGBA
  | R3D_DDS_FORMAT_R16G16B16A16_FLOAT => gl.GL_RGBA
  | R3D_DDS_FORMAT_R32G32B32A32_FLOAT => gl.GL_RGBA
  | _ => 0

/-- The function `r3d_format_to_gl_type`. -/
def r3d_format_to_gl_type (gl : GLenums) : r3d_dds_format_t → Nat
  | R3D_DDS_FORMAT_R8_UNORM => gl.GL_UNSIGNED_BYTE
  | R3D_DDS_FORMAT_R8G8_UNORM => gl.GL_UNSIGNED_BYTE
  | R3D_DDS_FORMAT_R8G8B8_UNORM => gl.GL_UNSIGNED_BYTE
  | R3D_DDS_FORMAT_R8G8B8A8_UNORM => gl.GL_UNSIGNED_BYTE
  | R3D_DDS_FORMAT_R16_FLOAT => gl.GL_HALF_FLOAT
  | R3D_DDS_FORMAT_R16G16_FLOAT => gl.GL_HALF_FLOAT
  | R3D_DDS_FORMAT_R16G16B16A16_FLOAT => gl.GL_HALF_FLOAT
  | R3D_DDS_FORMAT_R32_FLOAT => gl.GL_FLOAT
  | R3D_DDS_FORMAT_R32G32_FLOAT => gl.GL_FLOAT
  | R3D_DDS_FORMAT_R32G32B32_FLOAT => gl.GL_FLOAT
  | R3D_DDS_FORMAT_R32G32B32A32_FLOAT => gl.GL_FLOAT
  | _ => 0

/-- What a call of `r3d_load_dds_texture_from_memory` does: the branch it
leaves through, with the arguments of the upload call it makes. -/
inductive TextureLoad where
  /-- `r3d_load_dds_from_memory` returned `NULL`: `return 0` before any GL call. -/
  | decode_failed
  /-- One of the mapped enumerators is 0: `glDeleteTextures`, `return 0`. -/
  | unsupported_format
  /-- The call `glCompressedTexImage2D(.., internal_format, *w, *h, 0, data_size,
  pixel_data)`, then `return texture_id`. -/
  | compressed_upload (internal_format w h data_size pixel_data : Nat)
  /-- The call `glTexImage2D(.., internal_format, *w, *h, 0, gl_format, gl_type,
  pixel_data)`, then `return texture_id`. -/
  | uncompressed_upload (internal_format w h gl_format gl_type pixel_data : Nat)
  deriving DecidableEq, Repr

/-- The function `r3d_load_dds_texture_from_memory`. The locals `format` and
`data_size` are not initialised: their contents before the call are the
parameters `format0` and `data_size0`. The outer `Option` is `none` when the
decoder reads outside of the buffer. -/
def r3d_load_dds_texture_from_memory (gl : GLenums) (file_data : Option (List Byte))
    (w h : Option Nat) (format0 : r3d_dds_format_t) (data_size0 : Nat) : Option TextureLoad :=
  (r3d_load_dds_from_memory file_data ⟨w, h, some format0, some data_size0⟩).bind fun ret =>
  match ret.ptr, ret.out.w, ret.out.h, ret.out.format, ret.out.data_size with
  | some pixel_data, some w, some h, some format, some data_size =>
    if r3d_format_is_compressed format then
      let internal_format := r3d_format_to_gl_internal_format gl format
      if internal_format = 0 then some .unsupported_format
      else some (.compressed_upload internal_format w h data_size pixel_data)
    else
      let internal_format := r3d_format_to_gl_internal_format gl format
      let gl_format := r3d_format_to_gl_format gl format
      let gl_type := r3d_format_to_gl_type gl format
      if internal_format = 0 ∨ gl_format = 0 ∨ gl_type = 0 then some .unsupported_format
      else some (.uncompressed_upload internal_format w h gl_format gl_type pixel_data)
  | _, _, _, _, _ => some .decode_failed

/-! ## Image composition (`src/details/r3d_image.c`)

Conventions of this part

* an `int` is an integer; an `int` operation whose exact result does not fit in
  32 bits is undefined behaviour in C and makes the whole call `none`;
* a store outside of the allocated block makes the whole call `none` too;
* `RL_MALLOC`, `GetPixelDataSize`, `GetPixelColor` and
  `PIXELFORMAT_UNCOMPRESSED_R8G8B8` belong to raylib, which is not part of the
  sources: they are parameters, collected in `Raylib`. -/

/-- The raylib struct `Color`: four `unsigned char`. -/
structure Color where
  r : Byte
  g : Byte
  b : Byte
  a : Byte
  deriving DecidableEq, Repr

/-- The channel of a colour that is stored at byte `i` of an output pixel:
`r`, `g`, `b` for 0, 1, 2. -/
def Color.chan (c : Color) (i : Fin 3) : Byte :=
  match i with
  | 0 => c.r
  | 1 => c.g
  | 2 => c.b

/-- The raylib struct `Image`; `data` is `none` for a `NULL` pointer, and
otherwise the bytes it points to. -/
structure Image where
  data : Option (List Byte)
  width : Int
  height : Int
  mipmaps : Int
  format : Int
  deriving DecidableEq, Repr

/-- What `r3d_compose_images_rgb` uses of raylib. `malloc_ok n` tells whether
`RL_MALLOC(n)` returns a block, `malloc_init` gives the bytes an allocated
block holds before it is written; `GetPixelColor data off format` is the call
`GetPixelColor(((uint8_t*)data) + off, format)`. -/
structure Raylib where
  malloc_ok : Int → Bool
  malloc_init : Nat → Byte
  GetPixelDataSize : Int → Int → Int → Int
  GetPixelColor : Option (List Byte) → Int → Int → Color
  PIXELFORMAT_UNCOMPRESSED_R8G8B8 : Int

/-- The call `RL_MALLOC(n)`: `none` is `NULL`, otherwise a block of `n`
bytes. -/
def RL_MALLOC (rl : Raylib) (n : Int) : Option (List Byte) :=
  if rl.malloc_ok n then some ((List.range n.toNat).map rl.malloc_init) else none

/-- The value `INT_MIN` of a 32-bit `int`. -/
def INT_MIN : Int := -2147483648
/-- The value `INT_MAX` of a 32-bit `int`. -/
def INT_MAX : Int := 2147483647

/-- The result of an `int` operation whose exact value is `z`: `none` when it
does not fit. -/
def int_result (z : Int) : Option Int :=
  if INT_MIN ≤ z ∧ z ≤ INT_MAX then some z else none

/-- The expression `v << 16` on `int`: defined for a non-negative `v` whose
product with 65536 fits. -/
def shl16 (v : Int) : Option Int :=
  if 0 ≤ v then int_result (v * 65536) else none

/-- The expression `v >> 16` on `int` (arithmetic shift: rounds down). -/
def shr16 (v : Int) : Int := v / 65536

/-- The store `pixels[i] = v`. -/
def store (pixels : List Byte) (i : Int) (v : Byte) : Option (List Byte) :=
  if 0 ≤ i ∧ i < pixels.length then some (pixels.set i.toNat v) else none

/-- The loop `for (int i = start; i < start + count; i++) body`, passing the
state along; `none` as soon as one iteration is `none`. -/
def for_from {σ : Type} (body : Int → σ → Option σ) : Nat → Nat → σ → Option σ
  | _, 0, s => some s
  | start, count + 1, s => (body start s).bind (for_from body (start + 1) count)

/-- The loop `for (int i = 0; i < n; i++) body`. -/
def for_loop {σ : Type} (n : Int) (body : Int → σ → Option σ) (s : σ) : Option σ :=
  for_from body 0 n.toNat s

/-- The image `{ 0 }`. -/
def Image.zero : Image := ⟨none, 0, 0, 0, 0⟩

/-- One iteration of the "Determine dimensions" loop. -/
def dims_step (wh : Int × Int) (source : Option Image) : Int × Int :=
  match source with
  | some s =>
    (if wh.1 < s.width then s.width else wh.1, if wh.2 < s.height then s.height else wh.2)
  | none => wh

/-- The "Determine dimensions" loop: `(w, h)` after `i = 0, 1, 2`. -/
def compose_dims (sources : Fin 3 → Option Image) : Int × Int :=
  dims_step (dims_step (dims_step (0, 0) (sources 0)) (sources 1)) (sources 2)

/-- One iteration of the "Calculate scales" loop: `(scaleX[i], scaleY[i])`. -/
def compose_scale (w h : Int) (source : Option Image) : Option (Int × Int) :=
  match source with
  | some s =>
    if s.width > 0 ∧ s.height > 0 then
      (shl16 s.width).bind fun sw =>
      (shl16 s.height).bind fun sh =>
      some (Int.tdiv sw w, Int.tdiv sh h)
    else some (0, 0)
  | none => some (0, 0)

/-- One entry of the "Calculate bytes per pixels" initialiser. -/
def compose_bpp (rl : Raylib) (source : Option Image) : Int :=
  match source with
  | some s => rl.GetPixelDataSize 1 1 s.format
  | none => 0

/-- The two lines of `SAMPLE_R`, `SAMPLE_G` and `SAMPLE_B` that compute one
source coordinate: `(d * scale) >> 16`, replaced by `dim - 1` when it is
`>= dim`. -/
def sample_coord (d scale dim : Int) : Option Int :=
  (int_result (d * scale)).bind fun p =>
  if shr16 p ≥ dim then int_result (dim - 1) else some (shr16 p)

/-- The byte offset `bpp * (srcY * width + srcX)` of the sampled pixel. -/
def sample_offset (bpp srcX srcY width : Int) : Option Int :=
  (int_result (srcY * width)).bind fun a =>
  (int_result (a + srcX)).bind fun b =>
  int_result (bpp * b)

/-- The colour `src` read by `SAMPLE_R`, `SAMPLE_G` and `SAMPLE_B` from the
source of their channel; `none` also when that source is `NULL`. -/
def sample (rl : Raylib) (source : Option Image) (scale : Int × Int) (bpp x y : Int) :
    Option Color :=
  match source with
  | none => none
  | some s =>
    (sample_coord x scale.1 s.width).bind fun srcX =>
    (sample_coord y scale.2 s.height).bind fun srcY =>
    (sample_offset bpp srcX srcY s.width).bind fun off =>
    some (rl.GetPixelColor s.data off s.format)

/-- The values the macros of one call refer to. -/
structure SampleEnv where
  rl : Raylib
  sources : Fin 3 → Option Image
  scale : Fin 3 → Int × Int
  bpp : Fin 3 → Int

/-- The macro `SAMPLE_R`, as a function of `x`, `y` and `color`. -/
def SAMPLE_R (e : SampleEnv) (x y : Int) (color : Color) : Option Color :=
  (sample e.rl (e.sources 0) (e.scale 0) (e.bpp 0) x y).map fun src => { color with r := src.r }

/-- The macro `SAMPLE_G`. -/
def SAMPLE_G (e : SampleEnv) (x y : Int) (color : Color) : Option Color :=
  (sample e.rl (e.sources 1) (e.scale 1) (e.bpp 1) x y).map fun src => { color with g := src.g }

/-- The macro `SAMPLE_B`. -/
def SAMPLE_B (e : SampleEnv) (x y : Int) (color : Color) : Option Color :=
  (sample e.rl (e.sources 2) (e.scale 2) (e.bpp 2) x y).map fun src => { color with b := src.b }

/-- The macro `NOOP`. -/
def NOOP (_x _y : Int) (color : Color) : Option Color := some color

/-- The first two lines of the body of the inner loop of `SAMPLE_TEMPLATE`:
`Color color = defaultColor; R_CODE; G_CODE; B_CODE;`. -/
def template_color (R_CODE G_CODE B_CODE : Int → Int → Color → Option Color)
    (defaultColor : Color) (x y : Int) : Option Color :=
  (R_CODE x y defaultColor).bind fun color =>
  (G_CODE x y color).bind fun color =>
  B_CODE x y color

/-- The body of the inner loop of `SAMPLE_TEMPLATE`. -/
def template_body (R_CODE G_CODE B_CODE : Int → Int → Color → Option Color)
    (defaultColor : Color) (w y x : Int) (pixels : List Byte) : Option (List Byte) :=
  (template_color R_CODE G_CODE B_CODE defaultColor x y).bind fun color =>
  (int_result (y * w)).bind fun yw =>
  (int_result (yw + x)).bind fun ywx =>
  (int_result (3 * ywx)).bind fun offset =>
  (int_result (offset + 0)).bind fun o0 =>
  (store pixels o0 color.r).bind fun pixels =>
  (int_result (offset + 1)).bind fun o1 =>
  (store pixels o1 color.g).bind fun pixels =>
  (int_result (offset + 2)).bind fun o2 =>
  store pixels o2 color.b

/-- The macro `SAMPLE_TEMPLATE(R_CODE, G_CODE, B_CODE)`: the two nested loops
over the output pixels. -/
def SAMPLE_TEMPLATE (R_CODE G_CODE B_CODE : Int → Int → Color → Option Color)
    (defaultColor : Color) (w h : Int) (pixels : List Byte) : Option (List Byte) :=
  for_loop h (fun y => for_loop w (template_body R_CODE G_CODE B_CODE defaultColor w y)) pixels

/-- The value of `mask`. -/
def compose_mask (sources : Fin 3 → Option Image) : Nat :=
  (if (sources 0).isSome then 1 else 0) ||| (if (sources 1).isSome then 2 else 0) |||
    (if (sources 2).isSome then 4 else 0)

/-- The `switch (mask)`. -/
def compose_switch (e : SampleEnv) (mask : Nat) (defaultColor : Color) (w h : Int)
    (pixels : List Byte) : Option (List Byte) :=
  match mask with
  | 0 => some pixels
  | 1 => SAMPLE_TEMPLATE (SAMPLE_R e) NOOP NOOP defaultColor w h pixels
  | 2 => SAMPLE_TEMPLATE NOOP (SAMPLE_G e) NOOP defaultColor w h pixels
  | 3 => SAMPLE_TEMPLATE (SAMPLE_R e) (SAMPLE_G e) NOOP defaultColor w h pixels
  | 4 => SAMPLE_TEMPLATE NOOP NOOP (SAMPLE_B e) defaultColor w h pixels
  | 5 => SAMPLE_TEMPLATE (SAMPLE_R e) NOOP (SAMPLE_B e) defaultColor w h pixels
  | 6 => SAMPLE_TEMPLATE NOOP (SAMPLE_G e) (SAMPLE_B e) defaultColor w h pixels
  | 7 => SAMPLE_TEMPLATE (SAMPLE_R e) (SAMPLE_G e) (SAMPLE_B e) defaultColor w h pixels
  | _ => some pixels

/-- The function `r3d_compose_images_rgb`. The outer `Option` is `none` when
the call has undefined behaviour (an `int` overflow or a store outside of the
block). -/
def r3d_compose_images_rgb (rl : Raylib) (sources : Fin 3 → Option Image)
    (defaultColor : Color) : Option Image :=
  let image := Image.zero
  let w := (compose_dims sources).1
  let h := (compose_dims sources).2
  if w = 0 ∨ h = 0 then some image else
  (int_result (3 * w)).bind fun w3 =>
  (int_result (w3 * h)).bind fun size =>
  match RL_MALLOC rl size with
  | none => some image
  | some pixels =>
    (compose_scale w h (sources 0)).bind fun scale0 =>
    (compose_scale w h (sources 1)).bind fun scale1 =>
    (compose_scale w h (sources 2)).bind fun scale2 =>
    let e : SampleEnv :=
      { rl := rl, sources := sources, scale := ![scale0, scale1, scale2],
        bpp := fun i => compose_bpp rl (sources i) }
    (compose_switch e (compose_mask sources) defaultColor w h pixels).bind fun pixels =>
    some { data := some pixels, width := w, height := h,
           format := rl.PIXELFORMAT_UNCOMPRESSED_R8G8B8, mipmaps := 1 }

/-! ## Sample buffers

Concrete files for the examples: the container layout is the magic, the
`dds_header_t` fields in declaration order, an optional `dds_header_dx10_t`
and the payload. -/

/-- The four bytes of a `uint32_t` value, least significant byte first. -/
def u32le (v : Nat) : List Byte :=
  [Fin.ofNat v, Fin.ofNat (v / 256), Fin.ofNat (v / 65536), Fin.ofNat (v / 16777216)]

/-- A file image: the magic, a `dds_header_t` with the given `dwSize`,
`dwHeight`, `dwWidth`, `dwPitchOrLinearSize` and `ddspf` (every other field
zero), followed by `rest`. -/
def dds_file (dwSize dwHeight dwWidth dwPitchOrLinearSize : Nat) (ddspf : dds_pixelformat_t)
    (rest : List Byte) : List Byte :=
  u32le DDS_MAGIC ++ u32le dwSize ++ u32le 0 ++ u32le dwHeight ++ u32le dwWidth ++
    u32le dwPitchOrLinearSize ++ u32le 0 ++ u32le 0 ++ List.replicate 44 0 ++
    u32le ddspf.dwSize ++ u32le ddspf.dwFlags ++ u32le ddspf.dwFourCC ++
    u32le ddspf.dwRGBBitCount ++ u32le ddspf.dwRBitMask ++ u32le ddspf.dwGBitMask ++
    u32le ddspf.dwBBitMask ++ u32le ddspf.dwABitMask ++ List.replicate 20 0 ++ rest

/-- The 124 bytes of the primary header of `dds_file` (without the magic). -/
def dds_header_bytes (dwSize dwHeight dwWidth dwPitchOrLinearSize : Nat)
    (ddspf : dds_pixelformat_t) : List Byte :=
  (dds_file dwSize dwHeight dwWidth dwPitchOrLinearSize ddspf []).drop 4

/-- Output cells that are all present and hold zero / `R3D_DDS_FORMAT_UNKNOWN`. -/
def out_zero : OutParams := ⟨some 0, some 0, some R3D_DDS_FORMAT_UNKNOWN, some 0⟩

/-! ## Sample images

Concrete inputs for the examples of the image composition. -/

/-- A sample raylib: every allocation succeeds and the block starts zeroed,
every pixel takes one byte and is read as 8-bit grayscale (the three colour
channels are the byte at the pointer, alpha is 255), and
`PIXELFORMAT_UNCOMPRESSED_R8G8B8` is 4. -/
def rl_gray : Raylib where
  malloc_ok := fun _ => true
  malloc_init := fun _ => 0
  GetPixelDataSize := fun width height _ => width * height
  GetPixelColor := fun data off _ =>
    match data with
    | some l => ⟨l.getD off.toNat 0, l.getD off.toNat 0, l.getD off.toNat 0, 255⟩
    | none => ⟨0, 0, 0, 0⟩
  PIXELFORMAT_UNCOMPRESSED_R8G8B8 := 4

/-- The sample raylib with an allocator that always returns `NULL`. -/
def rl_nomem : Raylib := { rl_gray with malloc_ok := fun _ => false }

/-- A grayscale image (`format = 1`) of the given size with the given bytes. -/
def gray_image (width height : Int) (bytes : List Byte) : Image :=
  ⟨some bytes, width, height, 1, 1⟩

/-! ## Reading: basic facts -/

theorem readU32_isSome_iff (mem : List Byte) (k : Nat) :
    (readU32 mem k).isSome ↔ k + 4 ≤ mem.length := by
  unfold readU32
  have hl := List.length_drop k mem
  rcases h : mem.drop k with _ | ⟨b0, _ | ⟨b1, _ | ⟨b2, _ | ⟨b3, t⟩⟩⟩⟩ <;>
    simp [h] at hl ⊢ <;> omega

theorem readU32_length_of_eq_some {mem : List Byte} {k v : Nat} (h : readU32 mem k = some v) :
    k + 4 ≤ mem.length :=
  (readU32_isSome_iff mem k).1 (by simp [h])

theorem readU32_exists_of_le (mem : List Byte) (k : Nat) (h : k + 4 ≤ mem.length) :
    ∃ v, readU32 mem k = some v :=
  Option.isSome_iff_exists.1 ((readU32_isSome_iff mem k).2 h)

theorem readU32_append_right (a b : List Byte) (k : Nat) :
    readU32 (a ++ b) (a.length + k) = readU32 b k := by
  unfold readU32
  rw [List.drop_append]

theorem readU32_append_left (a b : List Byte) (k : Nat) (h : k + 4 ≤ a.length) :
    readU32 (a ++ b) k = readU32 a k := by
  unfold readU32
  have hl := List.length_drop k a
  rw [List.drop_append_of_le_length (by omega)]
  rcases h' : a.drop k with _ | ⟨b0, _ | ⟨b1, _ | ⟨b2, _ | ⟨b3, t⟩⟩⟩⟩ <;>
    simp [h'] at hl ⊢ <;> omega

theorem readU32_lt {mem : List Byte} {k v : Nat} (h : readU32 mem k = some v) : v < 2 ^ 32 := by
  unfold readU32 at h
  rcases h' : mem.drop k with _ | ⟨b0, _ | ⟨b1, _ | ⟨b2, _ | ⟨b3, t⟩⟩⟩⟩ <;>
    simp [h'] at h
  have := b0.isLt; have := b1.isLt; have := b2.isLt; have := b3.isLt
  omega

/-- The magic is read from the first four bytes only. -/
theorem readU32_zero_take (mem : List Byte) : readU32 (mem.take 4) 0 = readU32 mem 0 := by
  rcases mem with _ | ⟨b0, _ | ⟨b1, _ | ⟨b2, _ | ⟨b3, t⟩⟩⟩⟩ <;> simp [readU32]

/-! ## The loader: forward and backward characterisation -/

/-- The outcome of the loader once the magic, the size field, the dimensions
and the FourCC have been read. -/
theorem load_of_header {mem : List Byte} {out : OutParams} {W H cc : Nat}
    (hw : out.w ≠ none) (hh : out.h ≠ none) (hf : out.format ≠ none)
    (hmagic : readU32 mem 0 = some DDS_MAGIC) (hsize : readU32 mem 4 = some 124)
    (hW : readU32 mem 16 = some W) (hH : readU32 mem 12 = some H)
    (hcc : readU32 mem 84 = some cc) :
    r3d_load_dds_from_memory (some mem) out =
      ((if cc = FOURCC_DX10 then
          (readU32 mem 128).bind fun dxgiFormat => some (148, dxgi_to_r3d_format dxgiFormat)
        else
          (read_dds_pixelformat mem 76).bind fun ddspf =>
            some (128, legacy_format_to_r3d ddspf)).bind fun p =>
        if p.2 = R3D_DDS_FORMAT_UNKNOWN then
          some ⟨none, ⟨some W, some H, some p.2, out.data_size⟩⟩
        else
          (readU32 mem 20).bind fun pitch =>
            match calculated_data_size W H p.2 pitch with
            | none => some ⟨none, ⟨some W, some H, some p.2, out.data_size⟩⟩
            | some size =>
              some ⟨some p.1,
                ⟨some W, some H, some p.2, out.data_size.map fun _ => size⟩⟩) := by
  unfold r3d_load_dds_from_memory
  simp only [sizeof_uint32_t, off_dwSize, sizeof_dds_header_t, off_dwWidth, off_dwHeight,
    off_ddspf, off_pf_dwFourCC, off_dxgiFormat, sizeof_dds_header_dx10_t,
    off_dwPitchOrLinearSize, Nat.zero_add, Nat.add_zero, Nat.reduceAdd]
  simp only [hw, hh, hf, or_self, if_false]
  simp only [hmagic, hsize, hW, hH, hcc, Option.some_bind, ne_eq, not_true_eq_false, if_false]

/-- Everything a successful call has read and written. -/
theorem load_success_inv {mem : List Byte} {out : OutParams} {r : LoadReturn} {k : Nat}
    (h : r3d_load_dds_from_memory (some mem) out = some r) (hk : r.ptr = some k) :
    ∃ W H cc fmt pitch size,
      readU32 mem 0 = some DDS_MAGIC ∧ readU32 mem 4 = some 124 ∧
      readU32 mem 16 = some W ∧ readU32 mem 12 = some H ∧ readU32 mem 84 = some cc ∧
      readU32 mem 20 = some pitch ∧ fmt ≠ R3D_DDS_FORMAT_UNKNOWN ∧
      calculated_data_size W H fmt pitch = some size ∧
      ((cc = FOURCC_DX10 ∧ k = 148 ∧
          ∃ dxgiFormat, readU32 mem 128 = some dxgiFormat ∧
            fmt = dxgi_to_r3d_format dxgiFormat) ∨
        (cc ≠ FOURCC_DX10 ∧ k = 128 ∧
          ∃ ddspf, read_dds_pixelformat mem 76 = some ddspf ∧
            fmt = legacy_format_to_r3d ddspf)) ∧
      r.out = ⟨some W, some H, some fmt, out.data_size.map fun _ => size⟩ := by
  unfold r3d_load_dds_from_memory at h
  simp only [sizeof_uint32_t, off_dwSize, sizeof_dds_header_t, off_dwWidth, off_dwHeight,
    off_ddspf, off_pf_dwFourCC, off_dxgiFormat, sizeof_dds_header_dx10_t,
    off_dwPitchOrLinearSize, Nat.zero_add, Nat.add_zero, Nat.reduceAdd] at h
  have bad : ∀ o : OutParams, some (LoadReturn.mk none o) = some r → False := by
    intro o ho
    rw [← Option.some.inj ho] at hk
    exact Option.noConfusion hk
  by_cases hnull : out.w = none ∨ out.h = none ∨ out.format = none
  · rw [if_pos hnull] at h; exact (bad _ h).elim
  rw [if_neg hnull] at h
  cases hm : readU32 mem 0 with
  | none => rw [hm] at h; exact Option.noConfusion h
  | some magic =>
  rw [hm, Option.some_bind] at h
  by_cases hmag : magic ≠ DDS_MAGIC
  · rw [if_pos hmag] at h; exact (bad _ h).elim
  rw [if_neg hmag] at h
  cases hs : readU32 mem 4 with
  | none => rw [hs] at h; exact Option.noConfusion h
  | some dwSize =>
  rw [hs, Option.some_bind] at h
  by_cases hsz : dwSize ≠ 124
  · rw [if_pos hsz] at h; exact (bad _ h).elim
  rw [if_neg hsz] at h
  cases hW : readU32 mem 16 with
  | none => rw [hW] at h; exact Option.noConfusion h
  | some W =>
  rw [hW, Option.some_bind] at h
  cases hH : readU32 mem 12 with
  | none => rw [hH] at h; exact Option.noConfusion h
  | some H =>
  rw [hH, Option.some_bind] at h
  cases hcc : readU32 mem 84 with
  | none => rw [hcc] at h; exact Option.noConfusion h
  | some cc =>
  rw [hcc, Option.some_bind] at h
  -- the format resolution, whichever path it takes
  generalize hres : (if cc = FOURCC_DX10 then
      (readU32 mem 128).bind fun a => some (148, dxgi_to_r3d_format a)
    else (read_dds_pixelformat mem 76).bind fun a => some (128, legacy_format_to_r3d a)) = res
    at h
  rcases res with _ | ⟨p, fmt⟩
  · exact Option.noConfusion h
  rw [Option.some_bind] at h
  by_cases hunk : fmt = R3D_DDS_FORMAT_UNKNOWN
  · rw [if_pos hunk] at h; exact (bad _ h).elim
  rw [if_neg hunk] at h
  cases hp : readU32 mem 20 with
  | none => rw [hp] at h; exact Option.noConfusion h
  | some pitch =>
  rw [hp, Option.some_bind] at h
  cases hcalc : calculated_data_size W H fmt pitch with
  | none => simp only [hcalc] at h; exact (bad _ h).elim
  | some size =>
  simp only [hcalc] at h
  have hr := Option.some.inj h
  subst hr
  simp only [Option.some.injEq] at hk
  subst hk
  refine ⟨W, H, cc, fmt, pitch, size, ?_, ?_, rfl, rfl, rfl, rfl, hunk, hcalc, ?_, rfl⟩
  · rw [not_not.1 hmag]
  · rw [not_not.1 hsz]
  · by_cases hdx : cc = FOURCC_DX10
    · left
      rw [if_pos hdx] at hres
      cases hd : readU32 mem 128 with
      | none => rw [hd] at hres; exact Option.noConfusion hres
      | some d =>
        rw [hd, Option.some_bind] at hres
        have := Option.some.inj hres
        simp only [Prod.mk.injEq] at this
        exact ⟨hdx, this.1.symm, d, rfl, this.2.symm⟩
    · right
      rw [if_neg hdx] at hres
      cases hd : read_dds_pixelformat mem 76 with
      | none => rw [hd] at hres; exact Option.noConfusion hres
      | some d =>
        rw [hd, Option.some_bind] at hres
        have := Option.some.inj hres
        simp only [Prod.mk.injEq] at this
        exact ⟨hdx, this.1.symm, d, rfl, this.2.symm⟩

/-! ## Payload length -/

/-- For a format with a bytes-per-pixel value the length is the `uint32_t`
product, that is the product modulo `2 ^ 32`. -/
theorem calculated_data_size_linear (w h pitch : Nat) (fmt : r3d_dds_format_t)
    (hbpp : 0 < get_bytes_per_pixel fmt) :
    calculated_data_size w h fmt pitch = some ((w * h * get_bytes_per_pixel fmt) % 2 ^ 32) := by
  unfold calculated_data_size
  simp only [gt_iff_lt, hbpp, if_true, Nat.mod_mul_mod]

theorem read_dds_pixelformat_of_fields {mem : List Byte} {off a b c d e f g h : Nat}
    (h0 : readU32 mem off = some a) (h1 : readU32 mem (off + 4) = some b)
    (h2 : readU32 mem (off + 8) = some c) (h3 : readU32 mem (off + 12) = some d)
    (h4 : readU32 mem (off + 16) = some e) (h5 : readU32 mem (off + 20) = some f)
    (h6 : readU32 mem (off + 24) = some g) (h7 : readU32 mem (off + 28) = some h) :
    read_dds_pixelformat mem off = some ⟨a, b, c, d, e, f, g, h⟩ := by
  unfold read_dds_pixelformat
  simp only [h0, h1, h2, h3, h4, h5, h6, h7, Option.some_bind]

/-- The descriptor can be read as soon as its 32 bytes lie inside the buffer,
and its fields are the eight words at its offsets. -/
theorem read_dds_pixelformat_of_le (mem : List Byte) (off : Nat) (hlen : off + 32 ≤ mem.length) :
    ∃ pf, read_dds_pixelformat mem off = some pf ∧
      readU32 mem (off + 4) = some pf.dwFlags ∧ readU32 mem (off + 8) = some pf.dwFourCC ∧
      readU32 mem (off + 12) = some pf.dwRGBBitCount ∧
      readU32 mem (off + 28) = some pf.dwABitMask := by
  obtain ⟨a, h0⟩ := readU32_exists_of_le mem off (by omega)
  obtain ⟨b, h1⟩ := readU32_exists_of_le mem (off + 4) (by omega)
  obtain ⟨c, h2⟩ := readU32_exists_of_le mem (off + 8) (by omega)
  obtain ⟨d, h3⟩ := readU32_exists_of_le mem (off + 12) (by omega)
  obtain ⟨e, h4⟩ := readU32_exists_of_le mem (off + 16) (by omega)
  obtain ⟨f, h5⟩ := readU32_exists_of_le mem (off + 20) (by omega)
  obtain ⟨g, h6⟩ := readU32_exists_of_le mem (off + 24) (by omega)
  obtain ⟨h, h7⟩ := readU32_exists_of_le mem (off + 28) (by omega)
  exact ⟨_, read_dds_pixelformat_of_fields h0 h1 h2 h3 h4 h5 h6 h7, h1, h2, h3, h7⟩

/-- A successful decode through the legacy path. -/
theorem load_legacy_ok {mem : List Byte} {out : OutParams} {W H cc pitch size : Nat}
    {pf : dds_pixelformat_t}
    (hw : out.w ≠ none) (hh : out.h ≠ none) (hf : out.format ≠ none)
    (hmagic : readU32 mem 0 = some DDS_MAGIC) (hsize : readU32 mem 4 = some 124)
    (hW : readU32 mem 16 = some W) (hH : readU32 mem 12 = some H)
    (hcc : readU32 mem 84 = some cc) (hndx : cc ≠ FOURCC_DX10)
    (hpf : read_dds_pixelformat mem 76 = some pf)
    (hfmt : legacy_format_to_r3d pf ≠ R3D_DDS_FORMAT_UNKNOWN)
    (hpitch : readU32 mem 20 = some pitch)
    (hcalc : calculated_data_size W H (legacy_format_to_r3d pf) pitch = some size) :
    r3d_load_dds_from_memory (some mem) out =
      some ⟨some 128, ⟨some W, some H, some (legacy_format_to_r3d pf),
        out.data_size.map fun _ => size⟩⟩ := by
  rw [load_of_header hw hh hf hmagic hsize hW hH hcc, if_neg hndx, hpf, Option.some_bind,
    Option.some_bind]
  simp only [if_neg hfmt, hpitch, Option.some_bind, hcalc]

/-- A successful decode through the DX10 path. -/
theorem load_dx10_ok {mem : List Byte} {out : OutParams} {W H pitch size dxgiFormat : Nat}
    (hw : out.w ≠ none) (hh : out.h ≠ none) (hf : out.format ≠ none)
    (hmagic : readU32 mem 0 = some DDS_MAGIC) (hsize : readU32 mem 4 = some 124)
    (hW : readU32 mem 16 = some W) (hH : readU32 mem 12 = some H)
    (hcc : readU32 mem 84 = some FOURCC_DX10)
    (hdx : readU32 mem 128 = some dxgiFormat)
    (hfmt : dxgi_to_r3d_format dxgiFormat ≠ R3D_DDS_FORMAT_UNKNOWN)
    (hpitch : readU32 mem 20 = some pitch)
    (hcalc : calculated_data_size W H (dxgi_to_r3d_format dxgiFormat) pitch = some size) :
    r3d_load_dds_from_memory (some mem) out =
      some ⟨some 148, ⟨some W, some H, some (dxgi_to_r3d_format dxgiFormat),
        out.data_size.map fun _ => size⟩⟩ := by
  rw [load_of_header hw hh hf hmagic hsize hW hH hcc, if_pos rfl, hdx, Option.some_bind,
    Option.some_bind]
  simp only [if_neg hfmt, hpitch, Option.some_bind, hcalc]

/-- A header whose format resolves to `R3D_DDS_FORMAT_UNKNOWN` through the DX10
path: `NULL` is returned after `*w`, `*h` and `*format` have been written. -/
theorem load_dx10_unknown {mem : List Byte} {out : OutParams} {W H dxgiFormat : Nat}
    (hw : out.w ≠ none) (hh : out.h ≠ none) (hf : out.format ≠ none)
    (hmagic : readU32 mem 0 = some DDS_MAGIC) (hsize : readU32 mem 4 = some 124)
    (hW : readU32 mem 16 = some W) (hH : readU32 mem 12 = some H)
    (hcc : readU32 mem 84 = some FOURCC_DX10)
    (hdx : readU32 mem 128 = some dxgiFormat)
    (hfmt : dxgi_to_r3d_format dxgiFormat = R3D_DDS_FORMAT_UNKNOWN) :
    r3d_load_dds_from_memory (some mem) out =
      some ⟨none, ⟨some W, some H, some R3D_DDS_FORMAT_UNKNOWN, out.data_size⟩⟩ := by
  rw [load_of_header hw hh hf hmagic hsize hW hH hcc, if_pos rfl, hdx, Option.some_bind,
    Option.some_bind]
  simp only [hfmt, if_true]

/-! ## Format resolution: basic facts -/

/-- The block-size switch has a case for every format without a
bytes-per-pixel value, apart from `R3D_DDS_FORMAT_UNKNOWN`. -/
theorem block_size_switch_isSome (fmt : r3d_dds_format_t)
    (hfmt : fmt ≠ R3D_DDS_FORMAT_UNKNOWN) (hbpp : ¬ get_bytes_per_pixel fmt > 0) :
    ∃ b, block_size_switch fmt = some b := by
  cases fmt <;> simp_all [get_bytes_per_pixel, block_size_switch]

/-- The "Calculate data size" part never takes its `return NULL` for a
resolved format. -/
theorem calculated_data_size_isSome (w h pitch : Nat) (fmt : r3d_dds_format_t)
    (hfmt : fmt ≠ R3D_DDS_FORMAT_UNKNOWN) :
    ∃ size, calculated_data_size w h fmt pitch = some size := by
  by_cases hbpp : get_bytes_per_pixel fmt > 0
  · exact ⟨_, calculated_data_size_linear w h pitch fmt hbpp⟩
  · obtain ⟨b, hb⟩ := block_size_switch_isSome fmt hfmt hbpp
    unfold calculated_data_size
    by_cases hp : pitch > 0
    · exact ⟨pitch, by simp only [if_neg hbpp, if_pos hp]⟩
    · simp only [if_neg hbpp, if_neg hp, hb, Option.map_some']
      exact ⟨_, rfl⟩

/-- The function `dxgi_to_r3d_format` is the lookup in its fifteen-entry
table, with `R3D_DDS_FORMAT_UNKNOWN` for every other code. -/
theorem dxgi_to_r3d_format_table (code : Nat) :
    dxgi_to_r3d_format code =
      (List.lookup code
        [(61, R3D_DDS_FORMAT_R8_UNORM), (49, R3D_DDS_FORMAT_R8G8_UNORM),
         (28, R3D_DDS_FORMAT_R8G8B8A8_UNORM), (54, R3D_DDS_FORMAT_R16_FLOAT),
         (41, R3D_DDS_FORMAT_R32_FLOAT), (34, R3D_DDS_FORMAT_R16G16_FLOAT),
         (16, R3D_DDS_FORMAT_R32G32_FLOAT), (10, R3D_DDS_FORMAT_R16G16B16A16_FLOAT),
         (6, R3D_DDS_FORMAT_R32G32B32_FLOAT), (2, R3D_DDS_FORMAT_R32G32B32A32_FLOAT),
         (71, R3D_DDS_FORMAT_BC1), (74, R3D_DDS_FORMAT_BC2), (77, R3D_DDS_FORMAT_BC3),
         (80, R3D_DDS_FORMAT_BC4), (83, R3D_DDS_FORMAT_BC5)]).getD
        R3D_DDS_FORMAT_UNKNOWN := by
  by_cases h61 : code = 61
  · subst h61; rfl
  by_cases h49 : code = 49
  · subst h49; rfl
  by_cases h28 : code = 28
  · subst h28; rfl
  by_cases h54 : code = 54
  · subst h54; rfl
  by_cases h41 : code = 41
  · subst h41; rfl
  by_cases h34 : code = 34
  · subst h34; rfl
  by_cases h16 : code = 16
  · subst h16; rfl
  by_cases h10 : code = 10
  · subst h10; rfl
  by_cases h6 : code = 6
  · subst h6; rfl
  by_cases h2 : code = 2
  · subst h2; rfl
  by_cases h71 : code = 71
  · subst h71; rfl
  by_cases h74 : code = 74
  · subst h74; rfl
  by_cases h77 : code = 77
  · subst h77; rfl
  by_cases h80 : code = 80
  · subst h80; rfl
  by_cases h83 : code = 83
  · subst h83; rfl
  unfold dxgi_to_r3d_format
  rw [if_neg h61, if_neg h49, if_neg h28, if_neg h54, if_neg h41, if_neg h34, if_neg h16,
    if_neg h10, if_neg h6, if_neg h2, if_neg h71, if_neg h74, if_neg h77, if_neg h80, if_neg h83]
  simp only [List.lookup, beq_eq_false_iff_ne.2 h61, beq_eq_false_iff_ne.2 h49,
    beq_eq_false_iff_ne.2 h28, beq_eq_false_iff_ne.2 h54, beq_eq_false_iff_ne.2 h41,
    beq_eq_false_iff_ne.2 h34, beq_eq_false_iff_ne.2 h16, beq_eq_false_iff_ne.2 h10,
    beq_eq_false_iff_ne.2 h6, beq_eq_false_iff_ne.2 h2, beq_eq_false_iff_ne.2 h71,
    beq_eq_false_iff_ne.2 h74, beq_eq_false_iff_ne.2 h77, beq_eq_false_iff_ne.2 h80,
    beq_eq_false_iff_ne.2 h83]
  rfl

/-! ## Block-compressed formats: basic facts -/

/-- The compressed formats are BC1 .. BC5; they have no bytes-per-pixel value
and the block-size switch gives 8 for BC1 and BC4 and 16 for the others. -/
theorem compressed_cases (fmt : r3d_dds_format_t) (hc : r3d_format_is_compressed fmt = true) :
    get_bytes_per_pixel fmt = 0 ∧
    block_size_switch fmt =
      some (if fmt = R3D_DDS_FORMAT_BC1 ∨ fmt = R3D_DDS_FORMAT_BC4 then 8 else 16) := by
  cases fmt <;> first
    | exact ⟨rfl, rfl⟩
    | exact absurd hc (by decide)

/-- The quotient `(w + 3) / 4` is the ceiling of `w / 4`. -/
theorem ceil_div_four (w : Nat) : ⌈(w : ℚ) / 4⌉₊ = (w + 3) / 4 := by
  by_cases h0 : (w + 3) / 4 = 0
  · have hw : w = 0 := by omega
    subst hw
    simp
  · rw [Nat.ceil_eq_iff h0]
    constructor
    · rw [lt_div_iff₀ (by norm_num)]
      have h1 : ((w + 3) / 4 - 1) * 4 < w := by omega
      exact_mod_cast h1
    · rw [div_le_iff₀ (by norm_num)]
      have h2 : w ≤ (w + 3) / 4 * 4 := by omega
      exact_mod_cast h2

/-- The `uint32_t` block computation is exact when the exact value fits. -/
theorem block_size_exact (W H bs : Nat) (hW : W < 2 ^ 32) (hH : H < 2 ^ 32) (hbs : 8 ≤ bs)
    (hfit : (W + 3) / 4 * ((H + 3) / 4) * bs < 2 ^ 32) :
    (((W + 3) % 2 ^ 32 / 4 * ((H + 3) % 2 ^ 32 / 4)) % 2 ^ 32 * bs) % 2 ^ 32 =
      (W + 3) / 4 * ((H + 3) / 4) * bs := by
  have hxy : (W + 3) / 4 * ((H + 3) / 4) * 8 ≤ (W + 3) / 4 * ((H + 3) / 4) * bs :=
    Nat.mul_le_mul_left _ hbs
  by_cases hX : (W + 3) / 4 = 0
  · have : W = 0 := by omega
    subst this
    simp
  by_cases hY : (H + 3) / 4 = 0
  · have : H = 0 := by omega
    subst this
    simp
  have hX1 : 1 ≤ (W + 3) / 4 := Nat.one_le_iff_ne_zero.2 hX
  have hY1 : 1 ≤ (H + 3) / 4 := Nat.one_le_iff_ne_zero.2 hY
  have hXle : (W + 3) / 4 * 1 ≤ (W + 3) / 4 * ((H + 3) / 4) := Nat.mul_le_mul_left _ hY1
  have hYle : 1 * ((H + 3) / 4) ≤ (W + 3) / 4 * ((H + 3) / 4) := Nat.mul_le_mul_right _ hX1
  have hWs : W + 3 < 2 ^ 32 := by omega
  have hHs : H + 3 < 2 ^ 32 := by omega
  rw [Nat.mod_eq_of_lt hWs, Nat.mod_eq_of_lt hHs,
    Nat.mod_eq_of_lt (a := (W + 3) / 4 * ((H + 3) / 4)) (by omega), Nat.mod_eq_of_lt hfit]

/-! ## Truncated buffers and failing calls: basic facts -/

/-- A read that ends inside the first `n` bytes does not see the bytes after
them. -/
theorem readU32_take (mem : List Byte) (n off : Nat) (h : off + 4 ≤ n) :
    readU32 (mem.take n) off = readU32 mem off := by
  unfold readU32
  rw [List.drop_take]
  have hn : 4 ≤ n - off := by omega
  generalize mem.drop off = l
  generalize n - off = m at hn
  rcases l with _ | ⟨b0, _ | ⟨b1, _ | ⟨b2, _ | ⟨b3, t⟩⟩⟩⟩ <;>
    rcases m with _ | _ | _ | _ | m <;> simp at hn ⊢

theorem read_dds_pixelformat_take (mem : List Byte) (n off : Nat) (h : off + 32 ≤ n) :
    read_dds_pixelformat (mem.take n) off = read_dds_pixelformat mem off := by
  unfold read_dds_pixelformat
  rw [readU32_take mem n off (by omega), readU32_take mem n (off + 4) (by omega),
    readU32_take mem n (off + 8) (by omega), readU32_take mem n (off + 12) (by omega),
    readU32_take mem n (off + 16) (by omega), readU32_take mem n (off + 20) (by omega),
    readU32_take mem n (off + 24) (by omega), readU32_take mem n (off + 28) (by omega)]

/-- Everything a call that returns `NULL` has read and written. -/
theorem load_failure_inv {mem : List Byte} {out : OutParams} {r : LoadReturn}
    (h : r3d_load_dds_from_memory (some mem) out = some r) (hk : r.ptr = none) :
    (r.out = out ∧ (out.w = none ∨ out.h = none ∨ out.format = none ∨
        readU32 mem 0 ≠ some DDS_MAGIC ∨ readU32 mem 4 ≠ some 124)) ∨
    (∃ W H, readU32 mem 0 = some DDS_MAGIC ∧ readU32 mem 4 = some 124 ∧
      readU32 mem 16 = some W ∧ readU32 mem 12 = some H ∧
      r.out = ⟨some W, some H, some R3D_DDS_FORMAT_UNKNOWN, out.data_size⟩) := by
  unfold r3d_load_dds_from_memory at h
  simp only [sizeof_uint32_t, off_dwSize, sizeof_dds_header_t, off_dwWidth, off_dwHeight,
    off_ddspf, off_pf_dwFourCC, off_dxgiFormat, sizeof_dds_header_dx10_t,
    off_dwPitchOrLinearSize, Nat.zero_add, Nat.add_zero, Nat.reduceAdd] at h
  by_cases hnull : out.w = none ∨ out.h = none ∨ out.format = none
  · rw [if_pos hnull] at h
    rw [← Option.some.inj h]
    refine Or.inl ⟨rfl, ?_⟩
    rcases hnull with h1 | h1 | h1
    · exact Or.inl h1
    · exact Or.inr (Or.inl h1)
    · exact Or.inr (Or.inr (Or.inl h1))
  rw [if_neg hnull] at h
  cases hm : readU32 mem 0 with
  | none => rw [hm] at h; exact Option.noConfusion h
  | some magic =>
  rw [hm, Option.some_bind] at h
  by_cases hmag : magic ≠ DDS_MAGIC
  · rw [if_pos hmag] at h
    rw [← Option.some.inj h]
    exact Or.inl ⟨rfl, Or.inr (Or.inr (Or.inr (Or.inl
      (fun e => hmag (Option.some.inj e)))))⟩
  rw [if_neg hmag] at h
  cases hs : readU32 mem 4 with
  | none => rw [hs] at h; exact Option.noConfusion h
  | some dwSize =>
  rw [hs, Option.some_bind] at h
  by_cases hsz : dwSize ≠ 124
  · rw [if_pos hsz] at h
    rw [← Option.some.inj h]
    exact Or.inl ⟨rfl, Or.inr (Or.inr (Or.inr (Or.inr
      (fun e => hsz (Option.some.inj e)))))⟩
  rw [if_neg hsz] at h
  cases hW : readU32 mem 16 with
  | none => rw [hW] at h; exact Option.noConfusion h
  | some W =>
  rw [hW, Option.some_bind] at h
  cases hH : readU32 mem 12 with
  | none => rw [hH] at h; exact Option.noConfusion h
  | some H =>
  rw [hH, Option.some_bind] at h
  cases hcc : readU32 mem 84 with
  | none => rw [hcc] at h; exact Option.noConfusion h
  | some cc =>
  rw [hcc, Option.some_bind] at h
  generalize (if cc = FOURCC_DX10 then
      (readU32 mem 128).bind fun a => some (148, dxgi_to_r3d_format a)
    else (read_dds_pixelformat mem 76).bind fun a => some (128, legacy_format_to_r3d a)) = res
    at h
  rcases res with _ | ⟨p, fmt⟩
  · exact Option.noConfusion h
  rw [Option.some_bind] at h
  right
  refine ⟨W, H, by rw [not_not.1 hmag], by rw [not_not.1 hsz], rfl, rfl, ?_⟩
  by_cases hunk : fmt = R3D_DDS_FORMAT_UNKNOWN
  · rw [if_pos hunk] at h
    rw [← Option.some.inj h]
    simp only [hunk]
  rw [if_neg hunk] at h
  cases hp : readU32 mem 20 with
  | none => rw [hp] at h; exact Option.noConfusion h
  | some pitch =>
  rw [hp, Option.some_bind] at h
  obtain ⟨size, hcalc⟩ := calculated_data_size_isSome W H pitch fmt hunk
  simp only [hcalc] at h
  rw [← Option.some.inj h] at hk
  exact Option.noConfusion hk

/-- A `NULL` output pointer makes the call return `NULL` at once. -/
theorem load_null_out (file_data : Option (List Byte)) (out : OutParams)
    (hnull : out.w = none ∨ out.h = none ∨ out.format = none) :
    r3d_load_dds_from_memory file_data out = some ⟨none, out⟩ := by
  cases file_data with
  | none => rfl
  | some mem =>
    unfold r3d_load_dds_from_memory
    simp only [if_pos hnull]

/-! ## Image composition: arithmetic and loops -/

theorem int_result_eq_some {z v : Int} (h : int_result z = some v) :
    v = z ∧ -2147483648 ≤ z ∧ z ≤ 2147483647 := by
  unfold int_result INT_MIN INT_MAX at h
  by_cases hr : -2147483648 ≤ z ∧ z ≤ 2147483647
  · rw [if_pos hr] at h
    exact ⟨(Option.some.inj h).symm, hr⟩
  · rw [if_neg hr] at h
    exact Option.noConfusion h

theorem int_result_of_range {z : Int} (h1 : -2147483648 ≤ z) (h2 : z ≤ 2147483647) :
    int_result z = some z := by
  unfold int_result INT_MIN INT_MAX
  rw [if_pos ⟨h1, h2⟩]

theorem store_eq_some {pixels pixels2 : List Byte} {i : Int} {v : Byte}
    (h : store pixels i v = some pixels2) :
    0 ≤ i ∧ i < pixels.length ∧ pixels2 = pixels.set i.toNat v := by
  unfold store at h
  by_cases hr : 0 ≤ i ∧ i < pixels.length
  · rw [if_pos hr] at h
    exact ⟨hr.1, hr.2, (Option.some.inj h).symm⟩
  · rw [if_neg hr] at h
    exact Option.noConfusion h

theorem store_of_lt (pixels : List Byte) (n : Nat) (v : Byte) (h : n < pixels.length) :
    store pixels (n : Int) v = some (pixels.set n v) := by
  unfold store
  rw [if_pos ⟨Int.ofNat_nonneg n, by exact_mod_cast h⟩, Int.toNat_ofNat]

/-- Partial correctness of a counted loop: an invariant that every successful
iteration preserves holds after a successful loop. -/
theorem for_from_partial {σ : Type} (body : Int → σ → Option σ) (P : Nat → σ → Prop) :
    ∀ (count start : Nat) (s s2 : σ), P start s →
      (∀ j t t2, start ≤ j → j < start + count → P j t → body j t = some t2 →
        P (j + 1) t2) →
      for_from body start count s = some s2 → P (start + count) s2 := by
  intro count
  induction count with
  | zero =>
    intro start s s2 h0 _ hrun
    unfold for_from at hrun
    rw [← Option.some.inj hrun]
    exact h0
  | succ k ih =>
    intro start s s2 h0 hstep hrun
    unfold for_from at hrun
    cases hb : body start s with
    | none => rw [hb] at hrun; exact Option.noConfusion hrun
    | some t =>
      rw [hb, Option.some_bind] at hrun
      have h1 := hstep start s t (Nat.le_refl _) (by omega) h0 hb
      have := ih (start + 1) t s2 h1
        (fun j u u2 hj1 hj2 => hstep j u u2 (by omega) (by omega)) hrun
      rw [show start + (k + 1) = start + 1 + k by omega]
      exact this

/-- Total correctness of a counted loop: when every iteration from a state
that satisfies the invariant succeeds and preserves it, the loop succeeds. -/
theorem for_from_total {σ : Type} (body : Int → σ → Option σ) (P : Nat → σ → Prop) :
    ∀ (count start : Nat) (s : σ), P start s →
      (∀ j t, start ≤ j → j < start + count → P j t →
        ∃ t2, body j t = some t2 ∧ P (j + 1) t2) →
      ∃ s2, for_from body start count s = some s2 ∧ P (start + count) s2 := by
  intro count
  induction count with
  | zero =>
    intro start s h0 _
    exact ⟨s, rfl, h0⟩
  | succ k ih =>
    intro start s h0 hstep
    obtain ⟨t, hb, h1⟩ := hstep start s (Nat.le_refl _) (by omega) h0
    obtain ⟨s2, hrun, h2⟩ := ih (start + 1) t h1
      (fun j u hj1 hj2 => hstep j u (by omega) (by omega))
    refine ⟨s2, ?_, ?_⟩
    · unfold for_from
      rw [hb, Option.some_bind]
      exact hrun
    · rw [show start + (k + 1) = start + 1 + k by omega]
      exact h2

/-- What one successful iteration of the inner loop has computed and
stored. -/
theorem template_body_inv {R G B : Int → Int → Color → Option Color} {dc : Color}
    {wn yn xn : Nat} {px px2 : List Byte}
    (h : template_body R G B dc wn yn xn px = some px2) :
    ∃ color, template_color R G B dc xn yn = some color ∧
      3 * (yn * wn + xn) + 2 < px.length ∧
      3 * ((yn : Int) * wn + xn) + 2 ≤ 2147483647 ∧
      px2 = ((px.set (3 * (yn * wn + xn)) color.r).set (3 * (yn * wn + xn) + 1) color.g).set
        (3 * (yn * wn + xn) + 2) color.b := by
  unfold template_body at h
  simp only [Option.bind_eq_some] at h
  obtain ⟨color, hc, yw, h1, ywx, h2, off, h3, o0, h4, p1, h5, o1, h6, p2, h7, o2, h8, h9⟩ := h
  obtain ⟨e1, -, -⟩ := int_result_eq_some h1
  obtain ⟨e2, -, -⟩ := int_result_eq_some h2
  obtain ⟨e3, -, -⟩ := int_result_eq_some h3
  obtain ⟨e4, -, -⟩ := int_result_eq_some h4
  obtain ⟨e6, -, -⟩ := int_result_eq_some h6
  obtain ⟨e8, -, r8⟩ := int_result_eq_some h8
  obtain ⟨-, -, s5⟩ := store_eq_some h5
  obtain ⟨-, -, s7⟩ := store_eq_some h7
  obtain ⟨-, b9, s9⟩ := store_eq_some h9
  have hN : (3 * ((yn : Int) * wn + xn)) = ((3 * (yn * wn + xn) : Nat) : Int) := by push_cast; ring
  have ho0 : o0 = ((3 * (yn * wn + xn) : Nat) : Int) := by rw [e4, e3, e2, e1, ← hN]; ring
  have ho1 : o1 = ((3 * (yn * wn + xn) + 1 : Nat) : Int) := by
    rw [e6, e3, e2, e1]; push_cast; ring
  have ho2 : o2 = ((3 * (yn * wn + xn) + 2 : Nat) : Int) := by
    rw [e8, e3, e2, e1]; push_cast; ring
  refine ⟨color, hc, ?_, ?_, ?_⟩
  · rw [ho2, s7, s5] at b9
    simp only [List.length_set] at b9
    exact_mod_cast b9
  · rw [e3, e2, e1] at r8
    exact r8
  · rw [s9, s7, s5, ho0, ho1, ho2]
    simp only [Int.toNat_ofNat]

/-- One successful iteration of the inner loop extends the part of the block
that holds the computed colours by one pixel. -/
theorem template_body_step {R G B : Int → Int → Color → Option Color} {dc : Color}
    {wn yn xn len : Nat} {px px2 : List Byte} (hx : xn < wn)
    (hinv : px.length = len ∧ ∀ m < yn * wn + xn, ∃ c,
      template_color R G B dc ((m % wn : Nat) : Int) ((m / wn : Nat) : Int) = some c ∧
      px[3 * m]? = some c.r ∧ px[3 * m + 1]? = some c.g ∧ px[3 * m + 2]? = some c.b)
    (h : template_body R G B dc wn yn xn px = some px2) :
    px2.length = len ∧ ∀ m < yn * wn + (xn + 1), ∃ c,
      template_color R G B dc ((m % wn : Nat) : Int) ((m / wn : Nat) : Int) = some c ∧
      px2[3 * m]? = some c.r ∧ px2[3 * m + 1]? = some c.g ∧ px2[3 * m + 2]? = some c.b := by
  obtain ⟨color, hc, hlt, -, hpx2⟩ := template_body_inv h
  obtain ⟨hlen, hold⟩ := hinv
  subst hpx2
  refine ⟨by simp only [List.length_set]; exact hlen, fun m hm => ?_⟩
  by_cases hmn : m < yn * wn + xn
  · obtain ⟨c, h1, h2, h3, h4⟩ := hold m hmn
    refine ⟨c, h1, ?_, ?_, ?_⟩
    · rw [List.getElem?_set_ne (by omega), List.getElem?_set_ne (by omega),
        List.getElem?_set_ne (by omega)]
      exact h2
    · rw [List.getElem?_set_ne (by omega), List.getElem?_set_ne (by omega),
        List.getElem?_set_ne (by omega)]
      exact h3
    · rw [List.getElem?_set_ne (by omega), List.getElem?_set_ne (by omega),
        List.getElem?_set_ne (by omega)]
      exact h4
  · have hm2 : m = yn * wn + xn := by omega
    subst hm2
    have hmod : (yn * wn + xn) % wn = xn := by
      rw [Nat.add_comm, Nat.add_mul_mod_self_right, Nat.mod_eq_of_lt hx]
    have hdiv : (yn * wn + xn) / wn = yn := by
      rw [Nat.add_comm, Nat.add_mul_div_right _ _ (by omega), Nat.div_eq_of_lt hx, Nat.zero_add]
    rw [hmod, hdiv]
    refine ⟨color, hc, ?_, ?_, ?_⟩
    · rw [List.getElem?_set_ne (by omega), List.getElem?_set_ne (by omega),
        List.getElem?_set_eq_of_lt _ (by omega)]
    · rw [List.getElem?_set_ne (by omega), List.getElem?_set_eq_of_lt _
        (by simp only [List.length_set]; omega)]
    · rw [List.getElem?_set_eq_of_lt _ (by simp only [List.length_set]; omega)]

/-- What a successful run of the two loops of `SAMPLE_TEMPLATE` leaves in the
block: the block keeps its length and pixel `(x, y)` holds the three channels
of the colour computed for it. -/
theorem SAMPLE_TEMPLATE_inv {R G B : Int → Int → Color → Option Color} {dc : Color}
    {wn hn : Nat} {px px2 : List Byte}
    (h : SAMPLE_TEMPLATE R G B dc wn hn px = some px2) :
    px2.length = px.length ∧ ∀ x y, x < wn → y < hn → ∃ c,
      template_color R G B dc x y = some c ∧
      px2[3 * (y * wn + x)]? = some c.r ∧ px2[3 * (y * wn + x) + 1]? = some c.g ∧
      px2[3 * (y * wn + x) + 2]? = some c.b := by
  unfold SAMPLE_TEMPLATE for_loop at h
  simp only [Int.toNat_ofNat] at h
  have key := for_from_partial
    (fun y => for_from (template_body R G B dc wn y) 0 wn)
    (fun y p => p.length = px.length ∧ ∀ m < y * wn, ∃ c,
      template_color R G B dc ((m % wn : Nat) : Int) ((m / wn : Nat) : Int) = some c ∧
      p[3 * m]? = some c.r ∧ p[3 * m + 1]? = some c.g ∧ p[3 * m + 2]? = some c.b)
    hn 0 px px2 ⟨rfl, fun m hm => absurd hm (by omega)⟩
    (fun j t t2 _ _ hP hrun => by
      have inner := for_from_partial (template_body R G B dc wn j)
        (fun x p => p.length = px.length ∧ ∀ m < j * wn + x, ∃ c,
          template_color R G B dc ((m % wn : Nat) : Int) ((m / wn : Nat) : Int) = some c ∧
          p[3 * m]? = some c.r ∧ p[3 * m + 1]? = some c.g ∧ p[3 * m + 2]? = some c.b)
        wn 0 t t2 hP
        (fun x u u2 _ hx hQ hbody => template_body_step (by omega) hQ hbody) hrun
      have e : (j + 1) * wn = j * wn + (0 + wn) := by rw [Nat.add_mul]; omega
      beta_reduce at inner ⊢
      rw [e]
      exact inner) h
  beta_reduce at key
  rw [Nat.zero_add] at key
  obtain ⟨hlen, hall⟩ := key
  refine ⟨hlen, fun x y hx hy => ?_⟩
  have hlt : y * wn + x < hn * wn := by
    have : (y + 1) * wn ≤ hn * wn := Nat.mul_le_mul_right _ hy
    rw [Nat.add_mul] at this
    omega
  obtain ⟨c, h1, h2⟩ := hall (y * wn + x) hlt
  have hmod : (y * wn + x) % wn = x := by
    rw [Nat.add_comm, Nat.add_mul_mod_self_right, Nat.mod_eq_of_lt hx]
  have hdiv : (y * wn + x) / wn = y := by
    rw [Nat.add_comm, Nat.add_mul_div_right _ _ (by omega), Nat.div_eq_of_lt hx, Nat.zero_add]
  rw [hmod, hdiv] at h1
  exact ⟨c, h1, h2⟩

/-- The `switch (mask)` selects, for each channel, the sampling macro when the
source of the channel is present and `NOOP` when it is `NULL`; with no source
at all it runs no loop. -/
theorem compose_switch_eq (e : SampleEnv) (dc : Color) (w h : Int) (px : List Byte) :
    compose_switch e (compose_mask e.sources) dc w h px =
      if (e.sources 0).isSome ∨ (e.sources 1).isSome ∨ (e.sources 2).isSome then
        SAMPLE_TEMPLATE (if (e.sources 0).isSome then SAMPLE_R e else NOOP)
          (if (e.sources 1).isSome then SAMPLE_G e else NOOP)
          (if (e.sources 2).isSome then SAMPLE_B e else NOOP) dc w h px
      else some px := by
  cases h0 : e.sources 0 <;> cases h1 : e.sources 1 <;> cases h2 : e.sources 2 <;>
    simp only [compose_mask, h0, h1, h2, Option.isSome_some, Option.isSome_none, if_true,
      if_false, or_self, or_true, true_or, Bool.false_eq_true] <;> rfl

theorem code_R_spec (e : SampleEnv) (x y : Int) (col c1 : Color)
    (h : (if (e.sources 0).isSome then SAMPLE_R e else NOOP) x y col = some c1) :
    c1.g = col.g ∧ c1.b = col.b ∧ (e.sources 0 = none → c1.r = col.r) ∧
    (e.sources 0 ≠ none →
      ∃ src, sample e.rl (e.sources 0) (e.scale 0) (e.bpp 0) x y = some src ∧
        c1.r = src.r) := by
  cases h0 : e.sources 0 with
  | none =>
    simp only [h0, Option.isSome_none, Bool.false_eq_true, if_false, NOOP] at h
    rw [← Option.some.inj h]
    exact ⟨rfl, rfl, fun _ => rfl, fun hn => absurd rfl hn⟩
  | some s =>
    simp only [h0, Option.isSome_some, if_true, SAMPLE_R, Option.map_eq_some'] at h
    obtain ⟨src, hs, hc⟩ := h
    rw [← hc]
    exact ⟨rfl, rfl, fun hn => Option.noConfusion hn, fun _ => ⟨src, hs, rfl⟩⟩

theorem code_G_spec (e : SampleEnv) (x y : Int) (col c1 : Color)
    (h : (if (e.sources 1).isSome then SAMPLE_G e else NOOP) x y col = some c1) :
    c1.r = col.r ∧ c1.b = col.b ∧ (e.sources 1 = none → c1.g = col.g) ∧
    (e.sources 1 ≠ none →
      ∃ src, sample e.rl (e.sources 1) (e.scale 1) (e.bpp 1) x y = some src ∧
        c1.g = src.g) := by
  cases h0 : e.sources 1 with
  | none =>
    simp only [h0, Option.isSome_none, Bool.false_eq_true, if_false, NOOP] at h
    rw [← Option.some.inj h]
    exact ⟨rfl, rfl, fun _ => rfl, fun hn => absurd rfl hn⟩
  | some s =>
    simp only [h0, Option.isSome_some, if_true, SAMPLE_G, Option.map_eq_some'] at h
    obtain ⟨src, hs, hc⟩ := h
    rw [← hc]
    exact ⟨rfl, rfl, fun hn => Option.noConfusion hn, fun _ => ⟨src, hs, rfl⟩⟩

theorem code_B_spec (e : SampleEnv) (x y : Int) (col c1 : Color)
    (h : (if (e.sources 2).isSome then SAMPLE_B e else NOOP) x y col = some c1) :
    c1.r = col.r ∧ c1.g = col.g ∧ (e.sources 2 = none → c1.b = col.b) ∧
    (e.sources 2 ≠ none →
      ∃ src, sample e.rl (e.sources 2) (e.scale 2) (e.bpp 2) x y = some src ∧
        c1.b = src.b) := by
  cases h0 : e.sources 2 with
  | none =>
    simp only [h0, Option.isSome_none, Bool.false_eq_true, if_false, NOOP] at h
    rw [← Option.some.inj h]
    exact ⟨rfl, rfl, fun _ => rfl, fun hn => absurd rfl hn⟩
  | some s =>
    simp only [h0, Option.isSome_some, if_true, SAMPLE_B, Option.map_eq_some'] at h
    obtain ⟨src, hs, hc⟩ := h
    rw [← hc]
    exact ⟨rfl, rfl, fun hn => Option.noConfusion hn, fun _ => ⟨src, hs, rfl⟩⟩

/-- The colour computed for a pixel, channel by channel: the default colour for
a `NULL` source, the sampled colour of the source otherwise. -/
theorem template_color_chan (e : SampleEnv) (dc c : Color) (x y : Int)
    (h : template_color (if (e.sources 0).isSome then SAMPLE_R e else NOOP)
      (if (e.sources 1).isSome then SAMPLE_G e else NOOP)
      (if (e.sources 2).isSome then SAMPLE_B e else NOOP) dc x y = some c) (i : Fin 3) :
    (e.sources i = none → c.chan i = dc.chan i) ∧
    (e.sources i ≠ none →
      ∃ src, sample e.rl (e.sources i) (e.scale i) (e.bpp i) x y = some src ∧
        c.chan i = src.chan i) := by
  unfold template_color at h
  simp only [Option.bind_eq_some] at h
  obtain ⟨c1, hR, c2, hG, hB⟩ := h
  obtain ⟨r1, r2, r3, r4⟩ := code_R_spec e x y dc c1 hR
  obtain ⟨g1, g2, g3, g4⟩ := code_G_spec e x y c1 c2 hG
  obtain ⟨b1, b2, b3, b4⟩ := code_B_spec e x y c2 c hB
  fin_cases i
  · refine ⟨fun hn => ?_, fun hn => ?_⟩
    · show c.r = dc.r
      rw [b1, g1, r3 hn]
    · obtain ⟨src, hs, hc⟩ := r4 hn
      exact ⟨src, hs, show c.r = src.r by rw [b1, g1, hc]⟩
  · refine ⟨fun hn => ?_, fun hn => ?_⟩
    · show c.g = dc.g
      rw [b2, g3 hn, r1]
    · obtain ⟨src, hs, hc⟩ := g4 hn
      exact ⟨src, hs, show c.g = src.g by rw [b2, hc]⟩
  · refine ⟨fun hn => ?_, fun hn => ?_⟩
    · show c.b = dc.b
      rw [b3 hn, g2, r2]
    · obtain ⟨src, hs, hc⟩ := b4 hn
      exact ⟨src, hs, show c.b = src.b by rw [hc]⟩

theorem dims_step_nonneg (wh : Int × Int) (source : Option Image)
    (h : 0 ≤ wh.1 ∧ 0 ≤ wh.2) :
    0 ≤ (dims_step wh source).1 ∧ 0 ≤ (dims_step wh source).2 := by
  unfold dims_step
  cases source with
  | none => exact h
  | some s =>
    simp only
    constructor
    · split <;> omega
    · split <;> omega

/-- The dimensions `w` and `h` are never negative. -/
theorem compose_dims_nonneg (sources : Fin 3 → Option Image) :
    0 ≤ (compose_dims sources).1 ∧ 0 ≤ (compose_dims sources).2 := by
  unfold compose_dims
  exact dims_step_nonneg _ _
    (dims_step_nonneg _ _ (dims_step_nonneg _ _ ⟨le_refl _, le_refl _⟩))

/-- Without any source the dimensions are `0 x 0`. -/
theorem compose_dims_of_none (sources : Fin 3 → Option Image)
    (h : ∀ i, sources i = none) : compose_dims sources = (0, 0) := by
  unfold compose_dims
  rw [h 0, h 1, h 2]
  rfl

theorem RL_MALLOC_eq_some {rl : Raylib} {n : Int} {px : List Byte}
    (h : RL_MALLOC rl n = some px) : rl.malloc_ok n = true ∧ px.length = n.toNat := by
  unfold RL_MALLOC at h
  by_cases hok : rl.malloc_ok n = true
  · rw [if_pos hok] at h
    rw [← Option.some.inj h]
    exact ⟨hok, by simp⟩
  · rw [if_neg hok] at h
    exact Option.noConfusion h

/-- Everything a call that returns an image with pixel data has computed. -/
theorem compose_inv {rl : Raylib} {sources : Fin 3 → Option Image} {dc : Color}
    {img : Image} {px : List Byte}
    (h : r3d_compose_images_rgb rl sources dc = some img) (hd : img.data = some px) :
    ∃ (wn hn : Nat) (scale : Fin 3 → Int × Int),
      0 < wn ∧ 0 < hn ∧ compose_dims sources = ((wn : Int), (hn : Int)) ∧
      img = ⟨some px, wn, hn, 1, rl.PIXELFORMAT_UNCOMPRESSED_R8G8B8⟩ ∧
      px.length = 3 * wn * hn ∧ (3 * wn * hn : Int) ≤ 2147483647 ∧
      rl.malloc_ok (3 * wn * hn : Int) = true ∧
      (∃ i, sources i ≠ none) ∧
      (∀ i, compose_scale wn hn (sources i) = some (scale i)) ∧
      ∀ x y, x < wn → y < hn → ∀ i : Fin 3,
        (sources i = none → px[3 * (y * wn + x) + i.val]? = some (dc.chan i)) ∧
        (sources i ≠ none →
          ∃ src, sample rl (sources i) (scale i) (compose_bpp rl (sources i)) x y = some src ∧
            px[3 * (y * wn + x) + i.val]? = some (src.chan i)) := by
  obtain ⟨hw0, hh0⟩ := compose_dims_nonneg sources
  obtain ⟨wn, hwn⟩ := Int.eq_ofNat_of_zero_le hw0
  obtain ⟨hn, hhn⟩ := Int.eq_ofNat_of_zero_le hh0
  unfold r3d_compose_images_rgb at h
  simp only [hwn, hhn] at h
  by_cases hz : (wn : Int) = 0 ∨ (hn : Int) = 0
  · rw [if_pos hz] at h
    rw [← Option.some.inj h] at hd
    exact Option.noConfusion hd
  rw [if_neg hz] at h
  simp only [Option.bind_eq_some] at h
  obtain ⟨w3, h3, size, hsize, hrest⟩ := h
  obtain ⟨e3, -, -⟩ := int_result_eq_some h3
  obtain ⟨esz, -, rsz⟩ := int_result_eq_some hsize
  cases hm : RL_MALLOC rl size with
  | none =>
    rw [hm] at hrest
    rw [← Option.some.inj hrest] at hd
    exact Option.noConfusion hd
  | some blk =>
  rw [hm] at hrest
  simp only [Option.bind_eq_some] at hrest
  obtain ⟨s0, hs0, s1, hs1, s2, hs2, px2, hsw, himg⟩ := hrest
  obtain ⟨hok, hblk⟩ := RL_MALLOC_eq_some hm
  have hsz : size = ((3 * wn * hn : Nat) : Int) := by rw [esz, e3]; push_cast; ring
  have himg2 := Option.some.inj himg
  rw [← himg2] at hd
  have hpx : px2 = px := Option.some.inj hd
  subst hpx
  have hwpos : 0 < wn := by omega
  have hhpos : 0 < hn := by omega
  have hex : ∃ i, sources i ≠ none := by
    by_contra hall
    push_neg at hall
    have := compose_dims_of_none sources hall
    have h1 : (compose_dims sources).1 = 0 := by rw [this]
    omega
  rw [compose_switch_eq] at hsw
  have hany : (sources 0).isSome = true ∨ (sources 1).isSome = true ∨
      (sources 2).isSome = true := by
    obtain ⟨i, hi⟩ := hex
    have hsome := Option.ne_none_iff_isSome.1 hi
    fin_cases i
    · exact Or.inl hsome
    · exact Or.inr (Or.inl hsome)
    · exact Or.inr (Or.inr hsome)
  simp only at hsw
  rw [if_pos hany] at hsw
  obtain ⟨hlen, hpix⟩ := SAMPLE_TEMPLATE_inv hsw
  refine ⟨wn, hn, ![s0, s1, s2], hwpos, hhpos, ?_, ?_, ?_, ?_, ?_, hex, ?_, ?_⟩
  · rw [← hwn, ← hhn]
  · rw [← himg2]
  · rw [hlen, hblk, hsz, Int.toNat_ofNat]
  · rw [e3] at rsz
    exact rsz
  · rw [hsz] at hok
    exact_mod_cast hok
  · intro i
    fin_cases i
    · exact hs0
    · exact hs1
    · exact hs2
  · intro x y hx hy i
    obtain ⟨c, hc, hr, hg, hb⟩ := hpix x y hx hy
    have hchan := template_color_chan
      { rl := rl, sources := sources, scale := ![s0, s1, s2],
        bpp := fun i => compose_bpp rl (sources i) } dc c x y hc i
    have hbyte : px2[3 * (y * wn + x) + i.val]? = some (c.chan i) := by
      fin_cases i
      · exact hr
      · exact hg
      · exact hb
    refine ⟨fun hn => ?_, fun hn => ?_⟩
    · rw [hbyte, hchan.1 hn]
    · obtain ⟨src, hs, hcs⟩ := hchan.2 hn
      exact ⟨src, hs, by rw [hbyte, hcs]⟩

/-! ## Image composition: sampling -/

/-- A computed source coordinate is the smaller of `(d * scale) >> 16` and
`dim - 1`. -/
theorem sample_coord_inv {d scale dim s : Int} (h : sample_coord d scale dim = some s) :
    s = min ((d * scale) / 65536) (dim - 1) ∧
      -2147483648 ≤ d * scale ∧ d * scale ≤ 2147483647 := by
  unfold sample_coord at h
  simp only [Option.bind_eq_some] at h
  obtain ⟨p, hp, hs⟩ := h
  obtain ⟨ep, r1, r2⟩ := int_result_eq_some hp
  subst ep
  refine ⟨?_, r1, r2⟩
  unfold shr16 at hs
  by_cases hge : d * scale / 65536 ≥ dim
  · rw [if_pos hge] at hs
    obtain ⟨es, -, -⟩ := int_result_eq_some hs
    rw [es]
    omega
  · rw [if_neg hge] at hs
    rw [← Option.some.inj hs]
    omega

/-- What a successful sampling of a source has computed. -/
theorem sample_inv {rl : Raylib} {s : Image} {scale : Int × Int} {bpp x y : Int} {src : Color}
    (h : sample rl (some s) scale bpp x y = some src) :
    ∃ srcX srcY, sample_coord x scale.1 s.width = some srcX ∧
      sample_coord y scale.2 s.height = some srcY ∧
      sample_offset bpp srcX srcY s.width = some (bpp * (srcY * s.width + srcX)) ∧
      src = rl.GetPixelColor s.data (bpp * (srcY * s.width + srcX)) s.format := by
  unfold sample at h
  simp only [Option.bind_eq_some] at h
  obtain ⟨srcX, hX, srcY, hY, off, hoff, hsrc⟩ := h
  have hoff2 := hoff
  unfold sample_offset at hoff2
  simp only [Option.bind_eq_some] at hoff2
  obtain ⟨a, ha, b, hb, hc⟩ := hoff2
  obtain ⟨ea, -, -⟩ := int_result_eq_some ha
  obtain ⟨eb, -, -⟩ := int_result_eq_some hb
  obtain ⟨ec, -, -⟩ := int_result_eq_some hc
  have e : off = bpp * (srcY * s.width + srcX) := by rw [ec, eb, ea]
  subst e
  exact ⟨srcX, srcY, hX, hY, hoff, (Option.some.inj hsrc).symm⟩

/-- The scale factors of a source with positive dimensions. -/
theorem compose_scale_inv {w h : Int} {s : Image} {scale : Int × Int}
    (hw : 0 < w) (hh : 0 < h) (hpos : 0 < s.width ∧ 0 < s.height)
    (hs : compose_scale w h (some s) = some scale) :
    scale = (s.width * 65536 / w, s.height * 65536 / h) ∧
      s.width * 65536 ≤ 2147483647 ∧ s.height * 65536 ≤ 2147483647 := by
  unfold compose_scale at hs
  simp only [gt_iff_lt, hpos, and_self, if_true, Option.bind_eq_some] at hs
  obtain ⟨sw, hsw, sh, hsh, he⟩ := hs
  unfold shl16 at hsw hsh
  rw [if_pos (by omega)] at hsw hsh
  obtain ⟨e1, -, r1⟩ := int_result_eq_some hsw
  obtain ⟨e2, -, r2⟩ := int_result_eq_some hsh
  subst e1 e2
  rw [Int.tdiv_eq_ediv (by omega) (by omega), Int.tdiv_eq_ediv (by omega) (by omega)] at he
  exact ⟨(Option.some.inj he).symm, r1, r2⟩

/-! ## Image composition: calls without undefined behaviour -/

/-- For a source dimension between 1 and 32767 the coordinate computation does
not overflow and gives a coordinate between 0 and `dim - 1`. -/
theorem sample_coord_total (d w dim : Int) (hd0 : 0 ≤ d) (hdw : d < w)
    (hdim1 : 1 ≤ dim) (hdim2 : dim ≤ 32767) :
    ∃ v, sample_coord d (dim * 65536 / w) dim = some v ∧ 0 ≤ v ∧ v ≤ dim - 1 := by
  have hw : 0 < w := by omega
  have hs0 : 0 ≤ dim * 65536 / w := Int.ediv_nonneg (by omega) (by omega)
  have hsw : dim * 65536 / w * w ≤ dim * 65536 := Int.ediv_mul_le _ (by omega)
  have hp0 : 0 ≤ d * (dim * 65536 / w) := Int.mul_nonneg hd0 hs0
  have hp1 : d * (dim * 65536 / w) ≤ dim * 65536 / w * w := by
    rw [Int.mul_comm]
    exact Int.mul_le_mul_of_nonneg_left (by omega) hs0
  have hq0 : 0 ≤ d * (dim * 65536 / w) / 65536 := Int.ediv_nonneg hp0 (by omega)
  unfold sample_coord
  rw [int_result_of_range (by omega) (by omega), Option.some_bind]
  unfold shr16
  by_cases hge : d * (dim * 65536 / w) / 65536 ≥ dim
  · rw [if_pos hge, int_result_of_range (by omega) (by omega)]
    exact ⟨_, rfl, by omega, le_refl _⟩
  · rw [if_neg hge]
    exact ⟨_, rfl, hq0, by omega⟩

/-- For coordinates inside a source of at most 32767 x 32767 pixels whose data
size fits in an `int`, the byte offset of the sampled pixel does not
overflow. -/
theorem sample_offset_total (bpp srcX srcY ws hs : Int) (hX0 : 0 ≤ srcX) (hX1 : srcX ≤ ws - 1)
    (hY0 : 0 ≤ srcY) (hY1 : srcY ≤ hs - 1) (hbpp : 0 ≤ bpp)
    (hfit : bpp * (ws * hs) ≤ 2147483647) (hws : ws ≤ 32767) (hhs : hs ≤ 32767) :
    ∃ off, sample_offset bpp srcX srcY ws = some off := by
  have hws0 : 0 ≤ ws := by omega
  have h1 : 0 ≤ srcY * ws := Int.mul_nonneg hY0 hws0
  have h2 : srcY * ws ≤ (hs - 1) * ws := Int.mul_le_mul_of_nonneg_right hY1 hws0
  have h3 : (hs - 1) * ws = ws * hs - ws := by ring
  have h4 : ws * hs ≤ 32767 * 32767 := by
    have : ws * hs ≤ 32767 * hs := Int.mul_le_mul_of_nonneg_right hws (by omega)
    omega
  have h5 : bpp * (srcY * ws + srcX) ≤ bpp * (ws * hs) :=
    Int.mul_le_mul_of_nonneg_left (by omega) hbpp
  have h6 : 0 ≤ bpp * (srcY * ws + srcX) := Int.mul_nonneg hbpp (by omega)
  unfold sample_offset
  rw [int_result_of_range (by omega) (by omega), Option.some_bind,
    int_result_of_range (by omega) (by omega), Option.some_bind,
    int_result_of_range (by omega) (by omega)]
  exact ⟨_, rfl⟩

/-- The scale factors of a source whose dimensions lie between 1 and 32767. -/
theorem compose_scale_total (w h : Int) (s : Image) (hw : 0 < w) (hh : 0 < h)
    (hs : 1 ≤ s.width ∧ s.width ≤ 32767 ∧ 1 ≤ s.height ∧ s.height ≤ 32767) :
    compose_scale w h (some s) = some (s.width * 65536 / w, s.height * 65536 / h) := by
  unfold compose_scale
  have hpos : s.width > 0 ∧ s.height > 0 := ⟨by omega, by omega⟩
  simp only [hpos, and_self, if_true]
  unfold shl16
  rw [if_pos (by omega), if_pos (by omega), int_result_of_range (by omega) (by omega),
    int_result_of_range (by omega) (by omega), Option.some_bind, Option.some_bind,
    Int.tdiv_eq_ediv (by omega) (by omega), Int.tdiv_eq_ediv (by omega) (by omega)]

/-- Sampling a source without overflow. -/
theorem sample_total (rl : Raylib) (s : Image) (w h bpp x y : Int)
    (hx0 : 0 ≤ x) (hxw : x < w) (hy0 : 0 ≤ y) (hyh : y < h)
    (hs : 1 ≤ s.width ∧ s.width ≤ 32767 ∧ 1 ≤ s.height ∧ s.height ≤ 32767)
    (hbpp : 0 ≤ bpp) (hfit : bpp * (s.width * s.height) ≤ 2147483647) :
    ∃ src, sample rl (some s) (s.width * 65536 / w, s.height * 65536 / h) bpp x y =
      some src := by
  obtain ⟨srcX, hX, hX0, hX1⟩ := sample_coord_total x w s.width hx0 hxw hs.1 hs.2.1
  obtain ⟨srcY, hY, hY0, hY1⟩ := sample_coord_total y h s.height hy0 hyh hs.2.2.1 hs.2.2.2
  obtain ⟨off, hoff⟩ := sample_offset_total bpp srcX srcY s.width s.height hX0 hX1 hY0 hY1
    hbpp hfit hs.2.1 hs.2.2.2
  unfold sample
  simp only [hX, hY, hoff, Option.some_bind]
  exact ⟨_, rfl⟩

/-- The colour of a pixel is computed as soon as every present source can be
sampled at that pixel. -/
theorem template_color_total (e : SampleEnv) (dc : Color) (x y : Int)
    (hsamp : ∀ i s, e.sources i = some s →
      ∃ src, sample e.rl (some s) (e.scale i) (e.bpp i) x y = some src) :
    ∃ c, template_color (if (e.sources 0).isSome then SAMPLE_R e else NOOP)
      (if (e.sources 1).isSome then SAMPLE_G e else NOOP)
      (if (e.sources 2).isSome then SAMPLE_B e else NOOP) dc x y = some c := by
  have hR : ∀ col, ∃ c,
      (if (e.sources 0).isSome then SAMPLE_R e else NOOP) x y col = some c := by
    intro col
    cases h0 : e.sources 0 with
    | none => exact ⟨col, by simp only [Option.isSome_none, Bool.false_eq_true, if_false, NOOP]⟩
    | some s =>
      obtain ⟨src, hsrc⟩ := hsamp 0 s h0
      exact ⟨{ col with r := src.r },
        by simp only [Option.isSome_some, if_true, SAMPLE_R, h0, hsrc, Option.map_some']⟩
  have hG : ∀ col, ∃ c,
      (if (e.sources 1).isSome then SAMPLE_G e else NOOP) x y col = some c := by
    intro col
    cases h0 : e.sources 1 with
    | none => exact ⟨col, by simp only [Option.isSome_none, Bool.false_eq_true, if_false, NOOP]⟩
    | some s =>
      obtain ⟨src, hsrc⟩ := hsamp 1 s h0
      exact ⟨{ col with g := src.g },
        by simp only [Option.isSome_some, if_true, SAMPLE_G, h0, hsrc, Option.map_some']⟩
  have hB : ∀ col, ∃ c,
      (if (e.sources 2).isSome then SAMPLE_B e else NOOP) x y col = some c := by
    intro col
    cases h0 : e.sources 2 with
    | none => exact ⟨col, by simp only [Option.isSome_none, Bool.false_eq_true, if_false, NOOP]⟩
    | some s =>
      obtain ⟨src, hsrc⟩ := hsamp 2 s h0
      exact ⟨{ col with b := src.b },
        by simp only [Option.isSome_some, if_true, SAMPLE_B, h0, hsrc, Option.map_some']⟩
  obtain ⟨c1, h1⟩ := hR dc
  obtain ⟨c2, h2⟩ := hG c1
  obtain ⟨c3, h3⟩ := hB c2
  exact ⟨c3, by unfold template_color; rw [h1, Option.some_bind, h2, Option.some_bind, h3]⟩

/-- One iteration of the inner loop succeeds when the colour of the pixel is
computed, the pixel lies inside the image and the block has `3 * w * h` bytes,
a number that fits in an `int`. -/
theorem template_body_total {R G B : Int → Int → Color → Option Color} {dc c : Color}
    {wn hn yn xn : Nat} {px : List Byte} (hx : xn < wn) (hy : yn < hn)
    (hlen : px.length = 3 * wn * hn) (hfit : (3 * wn * hn : Int) ≤ 2147483647)
    (hc : template_color R G B dc xn yn = some c) :
    ∃ px2, template_body R G B dc wn yn xn px = some px2 ∧ px2.length = 3 * wn * hn := by
  have hN : yn * wn + xn < wn * hn := by
    have : (yn + 1) * wn ≤ hn * wn := Nat.mul_le_mul_right _ hy
    rw [Nat.add_mul, Nat.mul_comm hn wn] at this
    omega
  have hfitN : 3 * wn * hn ≤ 2147483647 := by exact_mod_cast hfit
  have hassoc : 3 * wn * hn = 3 * (wn * hn) := Nat.mul_assoc _ _ _
  have e1 : ((yn : Int) * wn) = ((yn * wn : Nat) : Int) := by push_cast; rfl
  have e2 : (((yn * wn : Nat) : Int) + xn) = ((yn * wn + xn : Nat) : Int) := by push_cast; rfl
  have e3 : (3 * ((yn * wn + xn : Nat) : Int)) = ((3 * (yn * wn + xn) : Nat) : Int) := by
    push_cast; rfl
  have e4 : (((3 * (yn * wn + xn) : Nat) : Int) + 0) = ((3 * (yn * wn + xn) : Nat) : Int) := by
    omega
  have e5 : (((3 * (yn * wn + xn) : Nat) : Int) + 1) = ((3 * (yn * wn + xn) + 1 : Nat) : Int) := by
    push_cast; rfl
  have e6 : (((3 * (yn * wn + xn) : Nat) : Int) + 2) = ((3 * (yn * wn + xn) + 2 : Nat) : Int) := by
    push_cast; rfl
  unfold template_body
  rw [hc, Option.some_bind, e1, int_result_of_range (by omega) (by omega), Option.some_bind,
    e2, int_result_of_range (by omega) (by omega), Option.some_bind,
    e3, int_result_of_range (by omega) (by omega), Option.some_bind,
    e4, int_result_of_range (by omega) (by omega), Option.some_bind,
    store_of_lt _ _ _ (by omega), Option.some_bind,
    e5, int_result_of_range (by omega) (by omega), Option.some_bind,
    store_of_lt _ _ _ (by simp only [List.length_set]; omega), Option.some_bind,
    e6, int_result_of_range (by omega) (by omega), Option.some_bind,
    store_of_lt _ _ _ (by simp only [List.length_set]; omega)]
  exact ⟨_, rfl, by simp only [List.length_set]; exact hlen⟩

/-- The two loops of `SAMPLE_TEMPLATE` run to their end when the colour of
every pixel is computed and the block has `3 * w * h` bytes, a number that
fits in an `int`. -/
theorem SAMPLE_TEMPLATE_total {R G B : Int → Int → Color → Option Color} {dc : Color}
    {wn hn : Nat} {px : List Byte}
    (hlen : px.length = 3 * wn * hn) (hfit : (3 * wn * hn : Int) ≤ 2147483647)
    (hcol : ∀ x y : Nat, x < wn → y < hn → ∃ c, template_color R G B dc x y = some c) :
    ∃ px2, SAMPLE_TEMPLATE R G B dc wn hn px = some px2 ∧ px2.length = 3 * wn * hn := by
  unfold SAMPLE_TEMPLATE for_loop
  simp only [Int.toNat_ofNat]
  have key := for_from_total
    (fun y => for_from (template_body R G B dc wn y) 0 wn)
    (fun _ p => p.length = 3 * wn * hn) hn 0 px hlen
    (fun j t _ hj hP => by
      have inner := for_from_total (template_body R G B dc wn j)
        (fun _ p => p.length = 3 * wn * hn) wn 0 t hP
        (fun x u _ hx hQ => by
          obtain ⟨c, hc⟩ := hcol x j (by omega) (by omega)
          exact template_body_total (by omega) (by omega) hQ hfit hc)
      exact inner)
  exact key

theorem dims_step_spec (wh : Int × Int) (source : Option Image) :
    wh.1 ≤ (dims_step wh source).1 ∧ wh.2 ≤ (dims_step wh source).2 ∧
    (∀ s, source = some s →
      s.width ≤ (dims_step wh source).1 ∧ s.height ≤ (dims_step wh source).2) ∧
    ((dims_step wh source).1 = wh.1 ∨
      ∃ s, source = some s ∧ s.width = (dims_step wh source).1) ∧
    ((dims_step wh source).2 = wh.2 ∨
      ∃ s, source = some s ∧ s.height = (dims_step wh source).2) := by
  cases source with
  | none =>
    exact ⟨le_refl _, le_refl _, fun s hs => Option.noConfusion hs, Or.inl rfl, Or.inl rfl⟩
  | some s =>
    unfold dims_step
    simp only
    refine ⟨?_, ?_, ?_, ?_, ?_⟩
    · split <;> omega
    · split <;> omega
    · intro s2 hs2
      have e : s = s2 := Option.some.inj hs2
      subst e
      constructor
      · split <;> omega
      · split <;> omega
    · by_cases hlt : wh.1 < s.width
      · exact Or.inr ⟨s, rfl, by rw [if_pos hlt]⟩
      · exact Or.inl (by rw [if_neg hlt])
    · by_cases hlt : wh.2 < s.height
      · exact Or.inr ⟨s, rfl, by rw [if_pos hlt]⟩
      · exact Or.inl (by rw [if_neg hlt])

/-- The dimensions `w` and `h` are the largest width and the largest height of
the present sources (0 when that is not positive). -/
theorem compose_dims_max (sources : Fin 3 → Option Image) :
    (∀ i s, sources i = some s →
      s.width ≤ (compose_dims sources).1 ∧ s.height ≤ (compose_dims sources).2) ∧
    ((compose_dims sources).1 = 0 ∨
      ∃ i s, sources i = some s ∧ s.width = (compose_dims sources).1) ∧
    ((compose_dims sources).2 = 0 ∨
      ∃ i s, sources i = some s ∧ s.height = (compose_dims sources).2) := by
  unfold compose_dims
  obtain ⟨a1, a2, a3, a4, a5⟩ := dims_step_spec (0, 0) (sources 0)
  obtain ⟨b1, b2, b3, b4, b5⟩ := dims_step_spec (dims_step (0, 0) (sources 0)) (sources 1)
  obtain ⟨c1, c2, c3, c4, c5⟩ :=
    dims_step_spec (dims_step (dims_step (0, 0) (sources 0)) (sources 1)) (sources 2)
  refine ⟨fun i s hs => ?_, ?_, ?_⟩
  · fin_cases i
    · have := a3 s hs
      exact ⟨by omega, by omega⟩
    · have := b3 s hs
      exact ⟨by omega, by omega⟩
    · exact c3 s hs
  · rcases c4 with c4 | ⟨s, hs, e⟩
    · rcases b4 with b4 | ⟨s, hs, e⟩
      · rcases a4 with a4 | ⟨s, hs, e⟩
        · exact Or.inl (by rw [c4, b4, a4])
        · exact Or.inr ⟨0, s, hs, by rw [c4, b4, e]⟩
      · exact Or.inr ⟨1, s, hs, by rw [c4, e]⟩
    · exact Or.inr ⟨2, s, hs, e⟩
  · rcases c5 with c5 | ⟨s, hs, e⟩
    · rcases b5 with b5 | ⟨s, hs, e⟩
      · rcases a5 with a5 | ⟨s, hs, e⟩
        · exact Or.inl (by rw [c5, b5, a5])
        · exact Or.inr ⟨0, s, hs, by rw [c5, b5, e]⟩
      · exact Or.inr ⟨1, s, hs, by rw [c5, e]⟩
    · exact Or.inr ⟨2, s, hs, e⟩

/-- The loops of a call run to their end when the present sources have
dimensions between 1 and 32767, data sizes that fit in an `int` and the scale
factors of the "Calculate scales" loop, and the block has `3 * w * h` bytes, a
number that fits in an `int`. -/
theorem compose_loops_total (e : SampleEnv) (dc : Color) (wn hn : Nat) (px : List Byte)
    (hlen : px.length = 3 * wn * hn) (hfit : (3 * wn * hn : Int) ≤ 2147483647)
    (hdim : ∀ i s, e.sources i = some s →
      1 ≤ s.width ∧ s.width ≤ 32767 ∧ 1 ≤ s.height ∧ s.height ≤ 32767)
    (hbpp : ∀ i s, e.sources i = some s →
      0 ≤ e.bpp i ∧ e.bpp i * (s.width * s.height) ≤ 2147483647)
    (hscale : ∀ i s, e.sources i = some s →
      e.scale i = (s.width * 65536 / wn, s.height * 65536 / hn)) :
    ∃ px2, SAMPLE_TEMPLATE (if (e.sources 0).isSome then SAMPLE_R e else NOOP)
        (if (e.sources 1).isSome then SAMPLE_G e else NOOP)
        (if (e.sources 2).isSome then SAMPLE_B e else NOOP) dc wn hn px = some px2 ∧
      px2.length = 3 * wn * hn :=
  SAMPLE_TEMPLATE_total hlen hfit (fun x y hx hy =>
    template_color_total e dc x y (fun i s hsi => by
      rw [hscale i s hsi]
      exact sample_total e.rl s wn hn _ x y (by omega) (by omega) (by omega) (by omega)
        (hdim i s hsi) (hbpp i s hsi).1 (hbpp i s hsi).2))

/-- The "Calculate scales" loop does not overflow for sources with dimensions
between 1 and 32767. -/
theorem compose_scale_total_opt (w h : Int) (source : Option Image) (hw : 0 < w) (hh : 0 < h)
    (hdim : ∀ s, source = some s →
      1 ≤ s.width ∧ s.width ≤ 32767 ∧ 1 ≤ s.height ∧ s.height ≤ 32767) :
    ∃ v, compose_scale w h source = some v ∧
      ∀ s, source = some s → v = (s.width * 65536 / w, s.height * 65536 / h) := by
  cases hs : source with
  | none => exact ⟨(0, 0), rfl, fun s hs2 => Option.noConfusion hs2⟩
  | some s =>
    refine ⟨_, compose_scale_total w h s hw hh (hdim s hs), fun s2 hs2 => ?_⟩
    rw [Option.some.inj hs2]

/-- A call without undefined behaviour and with a successful allocation: at
least one source is present, the dimensions of the present sources lie
between 1 and 32767, their data sizes and the size of the output fit in an
`int`. The call returns an image with `3 * w * h` bytes of pixel data. -/
theorem compose_total (rl : Raylib) (sources : Fin 3 → Option Image) (dc : Color)
    (hpres : ∃ i, sources i ≠ none)
    (hdim : ∀ i s, sources i = some s →
      1 ≤ s.width ∧ s.width ≤ 32767 ∧ 1 ≤ s.height ∧ s.height ≤ 32767)
    (hbpp : ∀ i s, sources i = some s → 0 ≤ rl.GetPixelDataSize 1 1 s.format ∧
      rl.GetPixelDataSize 1 1 s.format * (s.width * s.height) ≤ 2147483647)
    (hfit : 3 * (compose_dims sources).1 * (compose_dims sources).2 ≤ 2147483647)
    (hmalloc : rl.malloc_ok (3 * (compose_dims sources).1 * (compose_dims sources).2) = true) :
    ∃ px, r3d_compose_images_rgb rl sources dc =
        some ⟨some px, (compose_dims sources).1, (compose_dims sources).2, 1,
          rl.PIXELFORMAT_UNCOMPRESSED_R8G8B8⟩ ∧
      (px.length : Int) = 3 * (compose_dims sources).1 * (compose_dims sources).2 := by
  obtain ⟨hmax, -, -⟩ := compose_dims_max sources
  obtain ⟨i0, hi0⟩ := hpres
  obtain ⟨s0, hs0⟩ := Option.ne_none_iff_exists'.1 hi0
  have hw1 : 1 ≤ (compose_dims sources).1 := by
    have := (hmax i0 s0 hs0).1
    have := (hdim i0 s0 hs0).1
    omega
  have hh1 : 1 ≤ (compose_dims sources).2 := by
    have := (hmax i0 s0 hs0).2
    have := (hdim i0 s0 hs0).2.2.1
    omega
  obtain ⟨wn, hwn⟩ := Int.eq_ofNat_of_zero_le (show 0 ≤ (compose_dims sources).1 by omega)
  obtain ⟨hn, hhn⟩ := Int.eq_ofNat_of_zero_le (show 0 ≤ (compose_dims sources).2 by omega)
  simp only [hwn, hhn] at hfit hmalloc hw1 hh1 ⊢
  have hhle : (3 : Int) * wn ≤ 3 * wn * hn := by
    have := Int.mul_le_mul_of_nonneg_left hh1 (show (0 : Int) ≤ 3 * wn by omega)
    omega
  have hsz : (3 * (wn : Int) * hn).toNat = 3 * wn * hn := by
    rw [show (3 * (wn : Int) * hn) = ((3 * wn * hn : Nat) : Int) by push_cast; rfl,
      Int.toNat_ofNat]
  have hblk : RL_MALLOC rl (3 * (wn : Int) * hn) =
      some ((List.range (3 * wn * hn)).map rl.malloc_init) := by
    unfold RL_MALLOC
    rw [if_pos hmalloc, hsz]
  obtain ⟨v0, hv0, hv0s⟩ := compose_scale_total_opt wn hn (sources 0) (by omega) (by omega)
    (hdim 0)
  obtain ⟨v1, hv1, hv1s⟩ := compose_scale_total_opt wn hn (sources 1) (by omega) (by omega)
    (hdim 1)
  obtain ⟨v2, hv2, hv2s⟩ := compose_scale_total_opt wn hn (sources 2) (by omega) (by omega)
    (hdim 2)
  have hany : (sources 0).isSome = true ∨ (sources 1).isSome = true ∨
      (sources 2).isSome = true := by
    have hsome := Option.ne_none_iff_isSome.1 hi0
    fin_cases i0
    · exact Or.inl hsome
    · exact Or.inr (Or.inl hsome)
    · exact Or.inr (Or.inr hsome)
  obtain ⟨px2, hrun, hlen⟩ := compose_loops_total
    { rl := rl, sources := sources, scale := ![v0, v1, v2],
      bpp := fun i => compose_bpp rl (sources i) } dc wn hn
    ((List.range (3 * wn * hn)).map rl.malloc_init) (by simp) hfit hdim
    (fun i s hsi => by
      have hsi2 : sources i = some s := hsi
      have hbe : compose_bpp rl (sources i) = rl.GetPixelDataSize 1 1 s.format := by
        rw [hsi2]; rfl
      simp only [hbe]
      exact hbpp i s hsi2)
    (fun i s hsi => by
      fin_cases i
      · exact hv0s s hsi
      · exact hv1s s hsi
      · exact hv2s s hsi)
  refine ⟨px2, ?_, by rw [hlen]; push_cast; rfl⟩
  unfold r3d_compose_images_rgb
  simp only [hwn, hhn]
  rw [if_neg (by omega), int_result_of_range (by omega) (by omega), Option.some_bind,
    int_result_of_range (by omega) (by omega), Option.some_bind, hblk]
  simp only [hv0, hv1, hv2, Option.some_bind]
  rw [compose_switch_eq]
  simp only at hrun ⊢
  rw [if_pos hany, hrun]
  rfl

/-! ## The loader: the format decides -/

/-- A header whose format resolves to `R3D_DDS_FORMAT_UNKNOWN` through the
legacy path: `NULL` is returned after `*w`, `*h` and `*format` have been
written. -/
theorem load_legacy_unknown {mem : List Byte} {out : OutParams} {W H cc : Nat}
    {pf : dds_pixelformat_t}
    (hw : out.w ≠ none) (hh : out.h ≠ none) (hf : out.format ≠ none)
    (hmagic : readU32 mem 0 = some DDS_MAGIC) (hsize : readU32 mem 4 = some 124)
    (hW : readU32 mem 16 = some W) (hH : readU32 mem 12 = some H)
    (hcc : readU32 mem 84 = some cc) (hndx : cc ≠ FOURCC_DX10)
    (hpf : read_dds_pixelformat mem 76 = some pf)
    (hfmt : legacy_format_to_r3d pf = R3D_DDS_FORMAT_UNKNOWN) :
    r3d_load_dds_from_memory (some mem) out =
      some ⟨none, ⟨some W, some H, some R3D_DDS_FORMAT_UNKNOWN, out.data_size⟩⟩ := by
  rw [load_of_header hw hh hf hmagic hsize hW hH hcc, if_neg hndx, hpf, Option.some_bind,
    Option.some_bind]
  simp only [hfmt, if_true]

/-- Once the magic and the size field are right and the format has been
resolved (from the DXGI code when the FourCC is "DX10", from the pixel-format
descriptor otherwise), the outcome depends on the format alone: `NULL` for
`R3D_DDS_FORMAT_UNKNOWN`, the pointer behind the headers for every other
format. -/
theorem load_of_resolved {mem : List Byte} {out : OutParams} {cc : Nat} {fmt : r3d_dds_format_t}
    (hw : out.w ≠ none) (hh : out.h ≠ none) (hf : out.format ≠ none)
    (hmagic : readU32 mem 0 = some DDS_MAGIC) (hsize : readU32 mem 4 = some 124)
    (hcc : readU32 mem 84 = some cc)
    (hres : (if cc = FOURCC_DX10 then (readU32 mem 128).map dxgi_to_r3d_format
      else (read_dds_pixelformat mem 76).map legacy_format_to_r3d) = some fmt) :
    ∃ r, r3d_load_dds_from_memory (some mem) out = some r ∧ r.out.format = some fmt ∧
      (fmt = R3D_DDS_FORMAT_UNKNOWN → r.ptr = none) ∧
      (fmt ≠ R3D_DDS_FORMAT_UNKNOWN →
        r.ptr = some (if cc = FOURCC_DX10 then 148 else 128)) := by
  have hlen := readU32_length_of_eq_some hcc
  obtain ⟨W, hW⟩ := readU32_exists_of_le mem 16 (by omega)
  obtain ⟨H, hH⟩ := readU32_exists_of_le mem 12 (by omega)
  obtain ⟨pitch, hpitch⟩ := readU32_exists_of_le mem 20 (by omega)
  by_cases hdx : cc = FOURCC_DX10
  · rw [if_pos hdx, Option.map_eq_some'] at hres
    obtain ⟨code, hcode, hfmt⟩ := hres
    subst hdx hfmt
    by_cases hunk : dxgi_to_r3d_format code = R3D_DDS_FORMAT_UNKNOWN
    · exact ⟨_, load_dx10_unknown hw hh hf hmagic hsize hW hH hcc hcode hunk, by rw [hunk],
        fun _ => rfl, fun h => absurd hunk h⟩
    · obtain ⟨size, hcalc⟩ := calculated_data_size_isSome W H pitch _ hunk
      exact ⟨_, load_dx10_ok hw hh hf hmagic hsize hW hH hcc hcode hunk hpitch hcalc, rfl,
        fun h => absurd h hunk, fun _ => by rw [if_pos rfl]⟩
  · rw [if_neg hdx, Option.map_eq_some'] at hres
    obtain ⟨pf, hpf, hfmt⟩ := hres
    subst hfmt
    by_cases hunk : legacy_format_to_r3d pf = R3D_DDS_FORMAT_UNKNOWN
    · exact ⟨_, load_legacy_unknown hw hh hf hmagic hsize hW hH hcc hdx hpf hunk, by rw [hunk],
        fun _ => rfl, fun h => absurd hunk h⟩
    · obtain ⟨size, hcalc⟩ := calculated_data_size_isSome W H pitch _ hunk
      exact ⟨_, load_legacy_ok hw hh hf hmagic hsize hW hH hcc hdx hpf hunk hpitch hcalc, rfl,
        fun h => absurd h hunk, fun _ => by rw [if_neg hdx]⟩

/-! ## Image composition: the empty image -/

/-- With a zero width or a zero height the call returns `{ 0 }` at once. -/
theorem compose_zero_dims (rl : Raylib) (sources : Fin 3 → Option Image) (dc : Color)
    (hz : (compose_dims sources).1 = 0 ∨ (compose_dims sources).2 = 0) :
    r3d_compose_images_rgb rl sources dc = some Image.zero := by
  unfold r3d_compose_images_rgb
  simp only
  rw [if_pos hz]

/-- When `RL_MALLOC` returns `NULL` for an output whose size fits in an `int`,
the call returns `{ 0 }`. -/
theorem compose_malloc_null (rl : Raylib) (sources : Fin 3 → Option Image) (dc : Color)
    (hfit : 3 * (compose_dims sources).1 * (compose_dims sources).2 ≤ 2147483647)
    (hmalloc : rl.malloc_ok (3 * (compose_dims sources).1 * (compose_dims sources).2) = false) :
    r3d_compose_images_rgb rl sources dc = some Image.zero := by
  by_cases hz : (compose_dims sources).1 = 0 ∨ (compose_dims sources).2 = 0
  · exact compose_zero_dims rl sources dc hz
  obtain ⟨hw0, hh0⟩ := compose_dims_nonneg sources
  have hh1 : 1 ≤ (compose_dims sources).2 := by omega
  have hle : 3 * (compose_dims sources).1 ≤
      3 * (compose_dims sources).1 * (compose_dims sources).2 := by
    have := Int.mul_le_mul_of_nonneg_left hh1
      (show (0 : Int) ≤ 3 * (compose_dims sources).1 by omega)
    omega
  have hnn : 0 ≤ 3 * (compose_dims sources).1 * (compose_dims sources).2 :=
    Int.mul_nonneg (by omega) hh0
  have hnull : RL_MALLOC rl (3 * (compose_dims sources).1 * (compose_dims sources).2) =
      none := by
    unfold RL_MALLOC
    rw [hmalloc]
    rfl
  unfold r3d_compose_images_rgb
  simp only
  rw [if_neg hz, int_result_of_range (by omega) (by omega), Option.some_bind,
    int_result_of_range (by omega) (by omega), Option.some_bind, hnull]

/-- A call is free of undefined behaviour, whether the allocation succeeds or
not, when the present sources have dimensions between 1 and 32767 and their
data sizes and the size of the output fit in an `int`. -/
theorem compose_defined (rl : Raylib) (sources : Fin 3 → Option Image) (dc : Color)
    (hdim : ∀ i s, sources i = some s →
      1 ≤ s.width ∧ s.width ≤ 32767 ∧ 1 ≤ s.height ∧ s.height ≤ 32767)
    (hbpp : ∀ i s, sources i = some s → 0 ≤ rl.GetPixelDataSize 1 1 s.format ∧
      rl.GetPixelDataSize 1 1 s.format * (s.width * s.height) ≤ 2147483647)
    (hfit : 3 * (compose_dims sources).1 * (compose_dims sources).2 ≤ 2147483647) :
    ∃ img, r3d_compose_images_rgb rl sources dc = some img := by
  by_cases hpres : ∃ i, sources i ≠ none
  · cases hok : rl.malloc_ok (3 * (compose_dims sources).1 * (compose_dims sources).2) with
    | false => exact ⟨_, compose_malloc_null rl sources dc hfit hok⟩
    | true =>
      obtain ⟨px, hpx, -⟩ := compose_total rl sources dc hpres hdim hbpp hfit hok
      exact ⟨_, hpx⟩
  · push_neg at hpres
    refine ⟨_, compose_zero_dims rl sources dc (Or.inl ?_)⟩
    rw [compose_dims_of_none sources hpres]

/-! ## Image composition: accuracy of the fixed-point coordinates -/

/-- For an output of at most 32767 pixels, the fixed-point coordinate
`(d * ((dim << 16) / w)) >> 16` is `d * dim / w` rounded down, or one less, and
the latter is at most `dim - 1`. -/
theorem fixed_point_accuracy (d w dim : Int) (hd0 : 0 ≤ d) (hdw : d < w)
    (hdim1 : 1 ≤ dim) (hw : w ≤ 32767) :
    d * dim / w - 1 ≤ d * (dim * 65536 / w) / 65536 ∧
      d * (dim * 65536 / w) / 65536 ≤ d * dim / w ∧ d * dim / w ≤ dim - 1 := by
  have hw0 : 0 < w := by omega
  have hs0 : 0 ≤ dim * 65536 / w := Int.ediv_nonneg (by omega) (by omega)
  have hs1 : dim * 65536 / w * w ≤ dim * 65536 := Int.ediv_mul_le _ (by omega)
  have hs2 : dim * 65536 < (dim * 65536 / w + 1) * w := Int.lt_ediv_add_one_mul_self _ hw0
  have hq1 : d * (dim * 65536 / w) / 65536 * 65536 ≤ d * (dim * 65536 / w) :=
    Int.ediv_mul_le _ (by decide)
  have hq2 : d * (dim * 65536 / w) < (d * (dim * 65536 / w) / 65536 + 1) * 65536 :=
    Int.lt_ediv_add_one_mul_self _ (by decide)
  have he1 : d * dim / w * w ≤ d * dim := Int.ediv_mul_le _ (by omega)
  have he2 : d * dim < (d * dim / w + 1) * w := Int.lt_ediv_add_one_mul_self _ hw0
  have hx1 : d * (dim * 65536 / w * w) ≤ d * (dim * 65536) :=
    Int.mul_le_mul_of_nonneg_left hs1 hd0
  have hx2 : d * (dim * 65536) ≤ d * ((dim * 65536 / w + 1) * w) :=
    Int.mul_le_mul_of_nonneg_left (le_of_lt hs2) hd0
  have hx3 : d * dim < w * dim := Int.mul_lt_mul_of_pos_right hdw (by omega)
  have hx4 : d * w ≤ 32767 * w := Int.mul_le_mul_of_nonneg_right (by omega) (by omega)
  refine ⟨?_, ?_, ?_⟩
  · by_contra hlt
    have h1 : d * (dim * 65536 / w) / 65536 + 2 ≤ d * dim / w := by omega
    have h2 : (d * (dim * 65536 / w) / 65536 + 2) * w ≤ d * dim / w * w :=
      Int.mul_le_mul_of_nonneg_right h1 (by omega)
    have h3 : (d * (dim * 65536 / w) / 65536 + 1) * 65536 * w ≤
        d * (dim * 65536 / w) * w + 65536 * w := by nlinarith
    nlinarith
  · by_contra hlt
    have h1 : d * dim / w + 1 ≤ d * (dim * 65536 / w) / 65536 := by omega
    have h2 : (d * dim / w + 1) * w ≤ d * (dim * 65536 / w) / 65536 * w :=
      Int.mul_le_mul_of_nonneg_right h1 (by omega)
    nlinarith
  · by_contra hlt
    have h1 : dim ≤ d * dim / w := by omega
    have h2 : dim * w ≤ d * dim / w * w := Int.mul_le_mul_of_nonneg_right h1 (by omega)
    nlinarith

/-! ## Image composition: the byte of a present channel -/

/-- In an image with pixel data that a call returns, the byte of channel `c` of
a pixel is channel `c` of the colour decoded at the fixed-point coordinates,
for every source of channel `c` that is present with positive dimensions. -/
theorem compose_present_byte {rl : Raylib} {sources : Fin 3 → Option Image}
    {dc : Color} {img : Image} {px : List Byte}
    (h : r3d_compose_images_rgb rl sources dc = some img)
    (hd : img.data = some px) (x y : Nat) (hx : (x : Int) < img.width)
    (hy : (y : Int) < img.height) (c : Fin 3) (s : Image) (hc : sources c = some s)
    (hpos : 0 < s.width ∧ 0 < s.height) :
    px[3 * (y * img.width.toNat + x) + c.val]? =
      some ((rl.GetPixelColor s.data
        (rl.GetPixelDataSize 1 1 s.format *
          (min ((y : Int) * (s.height * 65536 / img.height) / 65536) (s.height - 1) * s.width +
            min ((x : Int) * (s.width * 65536 / img.width) / 65536) (s.width - 1)))
        s.format).chan c) := by
  obtain ⟨wn, hn, scale, hwn, hhn, -, himg, -, -, -, -, hscale, hpix⟩ := compose_inv h hd
  subst himg
  simp only [Int.toNat_ofNat] at hx hy ⊢
  obtain ⟨src, hsrc, hbyte⟩ :=
    (hpix x y (by exact_mod_cast hx) (by exact_mod_cast hy) c).2 (by rw [hc]; simp)
  rw [hc] at hsrc
  have hsc := hscale c
  rw [hc] at hsc
  obtain ⟨esc, -, -⟩ :=
    compose_scale_inv (by exact_mod_cast hwn) (by exact_mod_cast hhn) hpos hsc
  obtain ⟨srcX, srcY, hX, hY, -, hcol⟩ := sample_inv hsrc
  obtain ⟨eX, -, -⟩ := sample_coord_inv hX
  obtain ⟨eY, -, -⟩ := sample_coord_inv hY
  rw [esc] at eX eY
  simp only at eX eY
  rw [hbyte, hcol, eX, eY]
  rfl

/-! ## Container validation -/

/-- C2: a buffer whose first four bytes, read as a little-endian `uint32_t`,
are not `DDS_MAGIC` makes `r3d_load_dds_from_memory` return `NULL` (leaving the
output cells as they were), and every buffer with the same first four bytes,
the four-byte buffer included, has the same outcome: nothing after the magic is
read. -/
theorem load_invalid_magic (mem : List Byte) (out : OutParams) (magic : Nat)
    (hread : readU32 mem 0 = some magic) (hbad : magic ≠ DDS_MAGIC) :
    r3d_load_dds_from_memory (some mem) out = some ⟨none, out⟩ ∧
    ∀ mem2 : List Byte, mem2.take 4 = mem.take 4 →
      r3d_load_dds_from_memory (some mem2) out = r3d_load_dds_from_memory (some mem) out := by
  have key : ∀ m : List Byte, readU32 m 0 = some magic →
      r3d_load_dds_from_memory (some m) out = some ⟨none, out⟩ := by
    intro m hm
    unfold r3d_load_dds_from_memory
    simp [hm, hbad]
  refine ⟨key mem hread, fun mem2 h2 => ?_⟩
  rw [key mem hread]
  apply key
  rw [← readU32_zero_take, h2, readU32_zero_take, hread]

/-- C2, instance: the four bytes "DDT " alone. -/
theorem load_invalid_magic_witness :
    r3d_load_dds_from_memory (some [0x44, 0x44, 0x54, 0x20]) out_zero =
      some ⟨none, out_zero⟩ ∧
    ∀ mem2 : List Byte, mem2.take 4 = [0x44, 0x44, 0x54, 0x20] →
      r3d_load_dds_from_memory (some mem2) out_zero =
        r3d_load_dds_from_memory (some [0x44, 0x44, 0x54, 0x20]) out_zero :=
  load_invalid_magic [0x44, 0x44, 0x54, 0x20] out_zero 0x20544444 (by decide) (by decide)

/-- C3: a buffer that starts with `DDS_MAGIC` and whose header size field (the
`uint32_t` at byte offset 4) is not 124 makes `r3d_load_dds_from_memory` return
`NULL`, whatever else the buffer holds. -/
theorem load_bad_header_size (mem : List Byte) (out : OutParams) (dwSize : Nat)
    (hmagic : readU32 mem 0 = some DDS_MAGIC) (hsize : readU32 mem 4 = some dwSize)
    (hbad : dwSize ≠ 124) :
    r3d_load_dds_from_memory (some mem) out = some ⟨none, out⟩ := by
  unfold r3d_load_dds_from_memory
  simp [hmagic, sizeof_uint32_t, off_dwSize, hsize, sizeof_dds_header_t, hbad]

/-- C3, instance: an otherwise well-formed RGBA8 file whose size field is 120. -/
theorem load_bad_header_size_witness :
    r3d_load_dds_from_memory
      (some (dds_file 120 2 2 0 ⟨32, 0x41, 0, 32, 0xff, 0xff00, 0xff0000, 0xff000000⟩
        (List.replicate 16 0))) out_zero = some ⟨none, out_zero⟩ :=
  load_bad_header_size _ out_zero 120 (by decide) (by decide) (by decide)

/-! ## Round trip -/

/-- C1: round trip for legacy RGBA8. A buffer made of the DDS magic, a 124-byte
primary header (size field 124, width `W`, height `H`, pixel-format flags with
the RGB bit set and the FourCC bit clear, a FourCC other than "DX10", bit count
32, non-zero alpha mask) and a payload `P` of `W * H * 4 < 2 ^ 32` bytes is
decoded to format `R3D_DDS_FORMAT_R8G8B8A8_UNORM`, width `W`, height `H`,
`data_size = W * H * 4`, and the `data_size` bytes at the returned pointer are
`P`. -/
theorem load_legacy_rgba8_roundtrip (W H : Nat) (hdr P : List Byte) (out : OutParams)
    (flags fourCC amask : Nat)
    (hw : out.w ≠ none) (hh : out.h ≠ none) (hf : out.format ≠ none)
    (hlen : hdr.length = 124)
    (hsize : readU32 hdr 0 = some 124)
    (hH : readU32 hdr 8 = some H) (hW : readU32 hdr 12 = some W)
    (hflags : readU32 hdr 76 = some flags)
    (hnofourcc : flags &&& 0x4 = 0) (hrgb : flags &&& 0x40 ≠ 0)
    (hcc : readU32 hdr 80 = some fourCC) (hnodx10 : fourCC ≠ 0x30315844)
    (hbits : readU32 hdr 84 = some 32)
    (hamask : readU32 hdr 100 = some amask) (halpha : amask ≠ 0)
    (hfit : W * H * 4 < 2 ^ 32) (hP : P.length = W * H * 4) :
    r3d_load_dds_from_memory (some ([0x44, 0x44, 0x53, 0x20] ++ hdr ++ P)) out =
      some ⟨some 128, ⟨some W, some H, some R3D_DDS_FORMAT_R8G8B8A8_UNORM,
        out.data_size.map fun _ => W * H * 4⟩⟩ ∧
    (([0x44, 0x44, 0x53, 0x20] ++ hdr ++ P).drop 128).take (W * H * 4) = P := by
  have rd : ∀ k, k + 4 ≤ 124 →
      readU32 ([0x44, 0x44, 0x53, 0x20] ++ hdr ++ P) (4 + k) = readU32 hdr k := by
    intro k hk
    rw [List.append_assoc]
    rw [show (4 : Nat) = ([0x44, 0x44, 0x53, 0x20] : List Byte).length from rfl,
      readU32_append_right, readU32_append_left _ _ _ (by omega)]
  have hmagic : readU32 ([0x44, 0x44, 0x53, 0x20] ++ hdr ++ P) 0 = some DDS_MAGIC := by
    rw [List.append_assoc, readU32_append_left _ _ _ (by simp)]
    decide
  obtain ⟨pf, hpf, hpf1, hpf2, hpf3, hpf7⟩ :=
    read_dds_pixelformat_of_le ([0x44, 0x44, 0x53, 0x20] ++ hdr ++ P) 76
      (by simp [hlen]; omega)
  rw [rd 76 (by omega), hflags] at hpf1
  rw [rd 80 (by omega), hcc] at hpf2
  rw [rd 84 (by omega), hbits] at hpf3
  rw [rd 100 (by omega), hamask] at hpf7
  obtain ⟨pitch, hpitch⟩ :=
    readU32_exists_of_le ([0x44, 0x44, 0x53, 0x20] ++ hdr ++ P) 20 (by simp [hlen]; omega)
  have hfmt : legacy_format_to_r3d pf = R3D_DDS_FORMAT_R8G8B8A8_UNORM := by
    have e1 := Option.some.inj hpf1
    have e3 := Option.some.inj hpf3
    have e7 := Option.some.inj hpf7
    unfold legacy_format_to_r3d legacy_rgb_switch
    rw [← e1, ← e3, ← e7]
    simp [DDS_FOURCC, DDS_RGB, hnofourcc, hrgb, halpha]
  constructor
  · have hcalc : calculated_data_size W H (legacy_format_to_r3d pf) pitch = some (W * H * 4) := by
      rw [hfmt, calculated_data_size_linear _ _ _ _ (by decide)]
      simp only [get_bytes_per_pixel, Nat.mod_eq_of_lt hfit]
    rw [load_legacy_ok hw hh hf hmagic ((rd 0 (by omega)).trans hsize)
      ((rd 12 (by omega)).trans hW) ((rd 8 (by omega)).trans hH)
      ((rd 80 (by omega)).trans hcc) (by simpa [FOURCC_DX10] using hnodx10) hpf
      (by rw [hfmt]; decide) hpitch hcalc, hfmt]
  · rw [List.drop_append_of_le_length (by simp [hlen]),
      List.drop_of_length_le (by simp [hlen]), List.nil_append, ← hP, List.take_length]


/-- C1, instance: a 2 x 1 image with the payload bytes 1 .. 8. -/
theorem load_legacy_rgba8_roundtrip_witness :
    r3d_load_dds_from_memory
        (some ([0x44, 0x44, 0x53, 0x20] ++
          dds_header_bytes 124 1 2 0 ⟨32, 0x41, 0, 32, 0xff, 0xff00, 0xff0000, 0xff000000⟩ ++
          [1, 2, 3, 4, 5, 6, 7, 8])) out_zero =
      some ⟨some 128, ⟨some 2, some 1, some R3D_DDS_FORMAT_R8G8B8A8_UNORM, some 8⟩⟩ ∧
    (([0x44, 0x44, 0x53, 0x20] ++
        dds_header_bytes 124 1 2 0 ⟨32, 0x41, 0, 32, 0xff, 0xff00, 0xff0000, 0xff000000⟩ ++
        [1, 2, 3, 4, 5, 6, 7, 8]).drop 128).take 8 = [1, 2, 3, 4, 5, 6, 7, 8] :=
  load_legacy_rgba8_roundtrip 2 1
    (dds_header_bytes 124 1 2 0 ⟨32, 0x41, 0, 32, 0xff, 0xff00, 0xff0000, 0xff000000⟩)
    [1, 2, 3, 4, 5, 6, 7, 8] out_zero 0x41 0 0xff000000
    (by decide) (by decide) (by decide) (by decide) (by decide) (by decide) (by decide)
    (by decide) (by decide) (by decide) (by decide) (by decide) (by decide) (by decide)
    (by decide) (by decide) (by decide)

/-! ## Format resolution -/

/-- C4: extended (DX10) path. For a header with the magic, size field 124 and
FourCC "DX10", the format written to `*format` is the entry of the DXGI code
(the `uint32_t` at offset 128) in the fifteen-entry table and nothing else of the
buffer matters; for a code outside the table it is `R3D_DDS_FORMAT_UNKNOWN` and
the call returns `NULL`, for a code inside it the call succeeds. -/
theorem load_dx10_format (mem : List Byte) (out : OutParams) (code : Nat)
    (hw : out.w ≠ none) (hh : out.h ≠ none) (hf : out.format ≠ none)
    (hmagic : readU32 mem 0 = some 0x20534444) (hsize : readU32 mem 4 = some 124)
    (hcc : readU32 mem 84 = some 0x30315844) (hcode : readU32 mem 128 = some code) :
    ∃ r fmt, r3d_load_dds_from_memory (some mem) out = some r ∧
      fmt = (List.lookup code
        [(61, R3D_DDS_FORMAT_R8_UNORM), (49, R3D_DDS_FORMAT_R8G8_UNORM),
         (28, R3D_DDS_FORMAT_R8G8B8A8_UNORM), (54, R3D_DDS_FORMAT_R16_FLOAT),
         (41, R3D_DDS_FORMAT_R32_FLOAT), (34, R3D_DDS_FORMAT_R16G16_FLOAT),
         (16, R3D_DDS_FORMAT_R32G32_FLOAT), (10, R3D_DDS_FORMAT_R16G16B16A16_FLOAT),
         (6, R3D_DDS_FORMAT_R32G32B32_FLOAT), (2, R3D_DDS_FORMAT_R32G32B32A32_FLOAT),
         (71, R3D_DDS_FORMAT_BC1), (74, R3D_DDS_FORMAT_BC2), (77, R3D_DDS_FORMAT_BC3),
         (80, R3D_DDS_FORMAT_BC4), (83, R3D_DDS_FORMAT_BC5)]).getD
        R3D_DDS_FORMAT_UNKNOWN ∧
      r.out.format = some fmt ∧
      (fmt = R3D_DDS_FORMAT_UNKNOWN → r.ptr = none) ∧
      (fmt ≠ R3D_DDS_FORMAT_UNKNOWN → r.ptr = some 148) := by
  have hlen := readU32_length_of_eq_some hcode
  obtain ⟨W, hW⟩ := readU32_exists_of_le mem 16 (by omega)
  obtain ⟨H, hH⟩ := readU32_exists_of_le mem 12 (by omega)
  obtain ⟨pitch, hpitch⟩ := readU32_exists_of_le mem 20 (by omega)
  rw [← dxgi_to_r3d_format_table]
  by_cases hunk : dxgi_to_r3d_format code = R3D_DDS_FORMAT_UNKNOWN
  · exact ⟨_, _, load_dx10_unknown hw hh hf hmagic hsize hW hH hcc hcode hunk, rfl, by rw [hunk],
      fun _ => rfl, fun h => absurd hunk h⟩
  · obtain ⟨size, hcalc⟩ := calculated_data_size_isSome W H pitch _ hunk
    exact ⟨_, _, load_dx10_ok hw hh hf hmagic hsize hW hH hcc hcode hunk hpitch hcalc, rfl, rfl,
      fun h => absurd h hunk, fun _ => rfl⟩

/-- C4, instance: a DX10 file with DXGI code 77 (BC3), 10 x 10. -/
theorem load_dx10_format_witness :
    ∃ r fmt, r3d_load_dds_from_memory
        (some (dds_file 124 10 10 0 ⟨32, 0x4, 0x30315844, 0, 0, 0, 0, 0⟩
          (u32le 77 ++ List.replicate 160 0))) out_zero = some r ∧
      fmt = (List.lookup 77
        [(61, R3D_DDS_FORMAT_R8_UNORM), (49, R3D_DDS_FORMAT_R8G8_UNORM),
         (28, R3D_DDS_FORMAT_R8G8B8A8_UNORM), (54, R3D_DDS_FORMAT_R16_FLOAT),
         (41, R3D_DDS_FORMAT_R32_FLOAT), (34, R3D_DDS_FORMAT_R16G16_FLOAT),
         (16, R3D_DDS_FORMAT_R32G32_FLOAT), (10, R3D_DDS_FORMAT_R16G16B16A16_FLOAT),
         (6, R3D_DDS_FORMAT_R32G32B32_FLOAT), (2, R3D_DDS_FORMAT_R32G32B32A32_FLOAT),
         (71, R3D_DDS_FORMAT_BC1), (74, R3D_DDS_FORMAT_BC2), (77, R3D_DDS_FORMAT_BC3),
         (80, R3D_DDS_FORMAT_BC4), (83, R3D_DDS_FORMAT_BC5)]).getD
        R3D_DDS_FORMAT_UNKNOWN ∧
      r.out.format = some fmt ∧
      (fmt = R3D_DDS_FORMAT_UNKNOWN → r.ptr = none) ∧
      (fmt ≠ R3D_DDS_FORMAT_UNKNOWN → r.ptr = some 148) :=
  load_dx10_format _ out_zero 77 (by decide) (by decide) (by decide) (by decide) (by decide)
    (by decide) (by decide)

/-- C5: legacy compressed path. When the FourCC flag (0x4) of the pixel-format
descriptor is set, `legacy_format_to_r3d` returns BC1 for "DXT1", BC2 for
"DXT3", BC3 for "DXT5", BC4 for "ATI1" and BC5 for "ATI2", whatever the other
fields of the descriptor are. -/
theorem legacy_fourcc_formats (pf : dds_pixelformat_t) (hflag : pf.dwFlags &&& 0x4 ≠ 0) :
    (pf.dwFourCC = 0x31545844 → legacy_format_to_r3d pf = R3D_DDS_FORMAT_BC1) ∧
    (pf.dwFourCC = 0x33545844 → legacy_format_to_r3d pf = R3D_DDS_FORMAT_BC2) ∧
    (pf.dwFourCC = 0x35545844 → legacy_format_to_r3d pf = R3D_DDS_FORMAT_BC3) ∧
    (pf.dwFourCC = 0x31495441 → legacy_format_to_r3d pf = R3D_DDS_FORMAT_BC4) ∧
    (pf.dwFourCC = 0x32495441 → legacy_format_to_r3d pf = R3D_DDS_FORMAT_BC5) := by
  have hflag2 : pf.dwFlags &&& DDS_FOURCC ≠ 0 := hflag
  unfold legacy_format_to_r3d
  rw [if_pos hflag2]
  refine ⟨?_, ?_, ?_, ?_, ?_⟩ <;> intro h <;> rw [h] <;> rfl

/-- C5, instance: flags 0x45 (FourCC, RGB and alpha bits), FourCC "DXT5", bit
count 32 and masks set. -/
theorem legacy_fourcc_formats_witness :
    legacy_format_to_r3d ⟨32, 0x45, 0x35545844, 32, 0xff, 0xff00, 0xff0000, 0xff000000⟩ =
      R3D_DDS_FORMAT_BC3 :=
  (legacy_fourcc_formats ⟨32, 0x45, 0x35545844, 32, 0xff, 0xff00, 0xff0000, 0xff000000⟩
    (by decide)).2.2.1 rfl

/-- C6: legacy linear path. With the FourCC flag clear and the RGB flag (0x40)
set, `legacy_format_to_r3d` selects by bit count: 32 with a non-zero alpha mask
gives RGBA8, 32 with a zero alpha mask gives RGB8, 24 gives RGB8, 16 gives RG8,
8 gives R8 and every other bit count gives `R3D_DDS_FORMAT_UNKNOWN`; the 32-bit
case without alpha and the 24-bit case give the same format, three bytes per
pixel, and the same payload length, the `uint32_t` value of
`width * height * 3`. -/
theorem legacy_linear_formats (pf : dds_pixelformat_t)
    (hnofourcc : pf.dwFlags &&& 0x4 = 0) (hrgb : pf.dwFlags &&& 0x40 ≠ 0) :
    (pf.dwRGBBitCount = 32 → pf.dwABitMask ≠ 0 →
      legacy_format_to_r3d pf = R3D_DDS_FORMAT_R8G8B8A8_UNORM) ∧
    (pf.dwRGBBitCount = 32 → pf.dwABitMask = 0 →
      legacy_format_to_r3d pf = R3D_DDS_FORMAT_R8G8B8_UNORM) ∧
    (pf.dwRGBBitCount = 24 → legacy_format_to_r3d pf = R3D_DDS_FORMAT_R8G8B8_UNORM) ∧
    (pf.dwRGBBitCount = 16 → legacy_format_to_r3d pf = R3D_DDS_FORMAT_R8G8_UNORM) ∧
    (pf.dwRGBBitCount = 8 → legacy_format_to_r3d pf = R3D_DDS_FORMAT_R8_UNORM) ∧
    (pf.dwRGBBitCount ∉ [32, 24, 16, 8] →
      legacy_format_to_r3d pf = R3D_DDS_FORMAT_UNKNOWN) ∧
    ((pf.dwRGBBitCount = 32 ∧ pf.dwABitMask = 0) ∨ pf.dwRGBBitCount = 24 →
      get_bytes_per_pixel (legacy_format_to_r3d pf) = 3 ∧
      ∀ w h pitch, calculated_data_size w h (legacy_format_to_r3d pf) pitch =
        some ((w * h * 3) % 2 ^ 32)) := by
  have h1 : ¬ (pf.dwFlags &&& DDS_FOURCC ≠ 0) := not_not.2 hnofourcc
  have h2 : pf.dwFlags &&& DDS_RGB ≠ 0 := hrgb
  have key : legacy_format_to_r3d pf =
      match legacy_rgb_switch pf with
      | some f => f
      | none => R3D_DDS_FORMAT_UNKNOWN := by
    unfold legacy_format_to_r3d
    rw [if_neg h1, if_pos h2]
  have c32n : pf.dwRGBBitCount = 32 → pf.dwABitMask = 0 →
      legacy_format_to_r3d pf = R3D_DDS_FORMAT_R8G8B8_UNORM := by
    intro hb ha
    rw [key]; unfold legacy_rgb_switch
    rw [if_pos hb, if_neg (not_not.2 ha)]
  have c24 : pf.dwRGBBitCount = 24 →
      legacy_format_to_r3d pf = R3D_DDS_FORMAT_R8G8B8_UNORM := by
    intro hb
    rw [key]; unfold legacy_rgb_switch
    rw [hb]; rfl
  refine ⟨?_, c32n, c24, ?_, ?_, ?_, ?_⟩
  · intro hb ha
    rw [key]; unfold legacy_rgb_switch
    rw [if_pos hb, if_pos ha]
  · intro hb
    rw [key]; unfold legacy_rgb_switch
    rw [hb]; rfl
  · intro hb
    rw [key]; unfold legacy_rgb_switch
    rw [hb]; rfl
  · intro hb
    simp only [List.mem_cons, List.mem_singleton, List.not_mem_nil, or_false, not_or] at hb
    rw [key]; unfold legacy_rgb_switch
    rw [if_neg hb.1, if_neg hb.2.1, if_neg hb.2.2.1, if_neg hb.2.2.2]
  · intro hb
    have hfmt : legacy_format_to_r3d pf = R3D_DDS_FORMAT_R8G8B8_UNORM := by
      rcases hb with ⟨hb, ha⟩ | hb
      · exact c32n hb ha
      · exact c24 hb
    rw [hfmt]
    exact ⟨rfl, fun w h pitch => calculated_data_size_linear w h pitch _ (by decide)⟩

/-- C6, instance: flags 0x40, bit count 32, alpha mask 0 (a padded 32-bit RGB
layout): the format is RGB8. -/
theorem legacy_linear_formats_witness :
    legacy_format_to_r3d ⟨32, 0x40, 0, 32, 0xff, 0xff00, 0xff0000, 0⟩ =
      R3D_DDS_FORMAT_R8G8B8_UNORM :=
  (legacy_linear_formats ⟨32, 0x40, 0, 32, 0xff, 0xff00, 0xff0000, 0⟩
    (by decide) (by decide)).2.1 rfl rfl

/-! ## Payload length and payload offset -/

/-- C7, as stated, fails: a 65536 x 65536 RGBA8 header is decoded successfully
with `data_size = 0`, not `65536 * 65536 * 4`. -/
theorem load_linear_data_size_counterexample :
    r3d_load_dds_from_memory
        (some (dds_file 124 65536 65536 0
          ⟨32, 0x41, 0, 32, 0xff, 0xff00, 0xff0000, 0xff000000⟩ [])) out_zero =
      some ⟨some 128,
        ⟨some 65536, some 65536, some R3D_DDS_FORMAT_R8G8B8A8_UNORM, some 0⟩⟩ ∧
    get_bytes_per_pixel R3D_DDS_FORMAT_R8G8B8A8_UNORM = 4 ∧
    (0 : Nat) ≠ 65536 * 65536 * 4 := by
  decide

/-- C7, amended: after a successful decode to a format with a bytes-per-pixel
value `bpp` (one of 1, 2, 3, 4, 8, 12, 16), `*data_size` is
`width * height * bpp` reduced modulo `2 ^ 32`, where width and height are the
header fields written to `*w` and `*h`; it is `width * height * bpp` itself
whenever that product is below `2 ^ 32`. -/
theorem load_linear_data_size (mem : List Byte) (out : OutParams) (r : LoadReturn)
    (k d0 : Nat) (fmt : r3d_dds_format_t)
    (h : r3d_load_dds_from_memory (some mem) out = some r) (hk : r.ptr = some k)
    (hfmt : r.out.format = some fmt) (hbpp : 0 < get_bytes_per_pixel fmt)
    (hd : out.data_size = some d0) :
    ∃ W H, readU32 mem 16 = some W ∧ readU32 mem 12 = some H ∧
      r.out.w = some W ∧ r.out.h = some H ∧
      get_bytes_per_pixel fmt ∈ [1, 2, 3, 4, 8, 12, 16] ∧
      r.out.data_size = some ((W * H * get_bytes_per_pixel fmt) % 2 ^ 32) ∧
      (W * H * get_bytes_per_pixel fmt < 2 ^ 32 →
        r.out.data_size = some (W * H * get_bytes_per_pixel fmt)) := by
  obtain ⟨W, H, cc, fmt2, pitch, size, -, -, hW, hH, -, -, -, hcalc, -, hout⟩ :=
    load_success_inv h hk
  rw [hout] at hfmt ⊢
  have hf2 : fmt2 = fmt := Option.some.inj hfmt
  subst hf2
  rw [calculated_data_size_linear _ _ _ _ hbpp] at hcalc
  have hsz := Option.some.inj hcalc
  have hds : Option.map (fun _ => size) out.data_size =
      some ((W * H * get_bytes_per_pixel fmt2) % 2 ^ 32) := by
    rw [hd, ← hsz]; rfl
  refine ⟨W, H, hW, hH, rfl, rfl, ?_, hds, fun hlt => ?_⟩
  · cases fmt2 <;> first
      | exact absurd hbpp (by decide)
      | decide
  · rw [hds, Nat.mod_eq_of_lt hlt]

/-- C7, instance: a 3 x 2 RGBA8 file, `data_size = 24`. -/
theorem load_linear_data_size_witness :
    ∃ W H,
      readU32 (dds_file 124 2 3 0 ⟨32, 0x41, 0, 32, 0xff, 0xff00, 0xff0000, 0xff000000⟩
        (List.replicate 24 7)) 16 = some W ∧
      readU32 (dds_file 124 2 3 0 ⟨32, 0x41, 0, 32, 0xff, 0xff00, 0xff0000, 0xff000000⟩
        (List.replicate 24 7)) 12 = some H ∧
      some 3 = some W ∧ some 2 = some H ∧
      get_bytes_per_pixel R3D_DDS_FORMAT_R8G8B8A8_UNORM ∈ [1, 2, 3, 4, 8, 12, 16] ∧
      some 24 = some ((W * H * get_bytes_per_pixel R3D_DDS_FORMAT_R8G8B8A8_UNORM) % 2 ^ 32) ∧
      (W * H * get_bytes_per_pixel R3D_DDS_FORMAT_R8G8B8A8_UNORM < 2 ^ 32 →
        some 24 = some (W * H * get_bytes_per_pixel R3D_DDS_FORMAT_R8G8B8A8_UNORM)) :=
  load_linear_data_size
    (dds_file 124 2 3 0 ⟨32, 0x41, 0, 32, 0xff, 0xff00, 0xff0000, 0xff000000⟩
      (List.replicate 24 7))
    out_zero ⟨some 128, ⟨some 3, some 2, some R3D_DDS_FORMAT_R8G8B8A8_UNORM, some 24⟩⟩
    128 0 R3D_DDS_FORMAT_R8G8B8A8_UNORM (by decide) rfl rfl (by decide) rfl

/-- C8: prefer-declared-size rule. After a successful decode to a
block-compressed format (BC1 .. BC5, through either path), when the
pitch-or-linear-size field (the `uint32_t` at offset 20) is `L > 0`,
`*data_size` is `L`, whatever the width and the height are. -/
theorem load_compressed_declared_size (mem : List Byte) (out : OutParams) (r : LoadReturn)
    (k d0 L : Nat) (fmt : r3d_dds_format_t)
    (h : r3d_load_dds_from_memory (some mem) out = some r) (hk : r.ptr = some k)
    (hfmt : r.out.format = some fmt) (hc : r3d_format_is_compressed fmt = true)
    (hL : readU32 mem 20 = some L) (hpos : 0 < L) (hd : out.data_size = some d0) :
    r.out.data_size = some L := by
  obtain ⟨W, H, cc, fmt2, pitch, size, -, -, -, -, -, hpitch, -, hcalc, -, hout⟩ :=
    load_success_inv h hk
  rw [hout] at hfmt ⊢
  have hf2 : fmt2 = fmt := Option.some.inj hfmt
  subst hf2
  have hp : pitch = L := Option.some.inj (hpitch.symm.trans hL)
  subst hp
  unfold calculated_data_size at hcalc
  simp only [(compressed_cases fmt2 hc).1, gt_iff_lt, Nat.lt_irrefl, if_false, hpos,
    if_true] at hcalc
  rw [hd, ← Option.some.inj hcalc]; rfl

/-- C8, instance: a 100 x 100 legacy "DXT1" file that declares 32 bytes. -/
theorem load_compressed_declared_size_witness :
    r3d_load_dds_from_memory
        (some (dds_file 124 100 100 32 ⟨32, 0x4, 0x31545844, 0, 0, 0, 0, 0⟩
          (List.replicate 32 0))) out_zero =
      some ⟨some 128, ⟨some 100, some 100, some R3D_DDS_FORMAT_BC1, some 32⟩⟩ ∧
    (LoadReturn.mk (some 128)
      ⟨some 100, some 100, some R3D_DDS_FORMAT_BC1, some 32⟩).out.data_size = some 32 :=
  ⟨by decide,
   load_compressed_declared_size
    (dds_file 124 100 100 32 ⟨32, 0x4, 0x31545844, 0, 0, 0, 0, 0⟩ (List.replicate 32 0))
    out_zero ⟨some 128, ⟨some 100, some 100, some R3D_DDS_FORMAT_BC1, some 32⟩⟩
    128 0 32 R3D_DDS_FORMAT_BC1 (by decide) rfl rfl (by decide) (by decide) (by decide) rfl⟩

/-- C9: computed block size. After a successful decode to a block-compressed
format with pitch-or-linear-size 0, when
`ceil(width / 4) * ceil(height / 4) * blockSize < 2 ^ 32` (blockSize 8 for BC1
and BC4, 16 for BC2, BC3 and BC5), `*data_size` is that product. -/
theorem load_compressed_computed_size (mem : List Byte) (out : OutParams) (r : LoadReturn)
    (k d0 W H : Nat) (fmt : r3d_dds_format_t)
    (h : r3d_load_dds_from_memory (some mem) out = some r) (hk : r.ptr = some k)
    (hfmt : r.out.format = some fmt) (hc : r3d_format_is_compressed fmt = true)
    (hL : readU32 mem 20 = some 0)
    (hW : readU32 mem 16 = some W) (hH : readU32 mem 12 = some H)
    (hd : out.data_size = some d0)
    (hfit : ⌈(W : ℚ) / 4⌉₊ * ⌈(H : ℚ) / 4⌉₊ *
      (if fmt = R3D_DDS_FORMAT_BC1 ∨ fmt = R3D_DDS_FORMAT_BC4 then 8 else 16) < 2 ^ 32) :
    r.out.data_size = some (⌈(W : ℚ) / 4⌉₊ * ⌈(H : ℚ) / 4⌉₊ *
      (if fmt = R3D_DDS_FORMAT_BC1 ∨ fmt = R3D_DDS_FORMAT_BC4 then 8 else 16)) := by
  obtain ⟨W2, H2, cc, fmt2, pitch, size, -, -, hW2, hH2, -, hpitch, -, hcalc, -, hout⟩ :=
    load_success_inv h hk
  rw [hout] at hfmt ⊢
  have hf2 : fmt2 = fmt := Option.some.inj hfmt
  subst hf2
  have hp : pitch = 0 := Option.some.inj (hpitch.symm.trans hL)
  have hWW : W2 = W := Option.some.inj (hW2.symm.trans hW)
  have hHH : H2 = H := Option.some.inj (hH2.symm.trans hH)
  subst hp hWW hHH
  rw [ceil_div_four, ceil_div_four] at hfit ⊢
  unfold calculated_data_size at hcalc
  simp only [(compressed_cases fmt2 hc).1, (compressed_cases fmt2 hc).2, gt_iff_lt,
    Nat.lt_irrefl, if_false, Option.map_some'] at hcalc
  have hbs : 8 ≤ (if fmt2 = R3D_DDS_FORMAT_BC1 ∨ fmt2 = R3D_DDS_FORMAT_BC4 then 8 else 16) := by
    split <;> omega
  rw [block_size_exact W2 H2 _ (readU32_lt hW) (readU32_lt hH) hbs hfit] at hcalc
  rw [hd, ← Option.some.inj hcalc]; rfl

/-- C9, instance: a legacy "DXT5" (BC3) file, 10 x 10, no declared size:
`3 * 3 * 16 = 144` bytes. -/
theorem load_compressed_computed_size_witness :
    r3d_load_dds_from_memory
        (some (dds_file 124 10 10 0 ⟨32, 0x4, 0x35545844, 0, 0, 0, 0, 0⟩
          (List.replicate 144 0))) out_zero =
      some ⟨some 128, ⟨some 10, some 10, some R3D_DDS_FORMAT_BC3, some 144⟩⟩ ∧
    (LoadReturn.mk (some 128)
      ⟨some 10, some 10, some R3D_DDS_FORMAT_BC3, some 144⟩).out.data_size =
      some (⌈((10 : Nat) : ℚ) / 4⌉₊ * ⌈((10 : Nat) : ℚ) / 4⌉₊ *
        (if R3D_DDS_FORMAT_BC3 = R3D_DDS_FORMAT_BC1 ∨ R3D_DDS_FORMAT_BC3 = R3D_DDS_FORMAT_BC4
          then 8 else 16)) :=
  ⟨by decide,
   load_compressed_computed_size
    (dds_file 124 10 10 0 ⟨32, 0x4, 0x35545844, 0, 0, 0, 0, 0⟩ (List.replicate 144 0))
    out_zero ⟨some 128, ⟨some 10, some 10, some R3D_DDS_FORMAT_BC3, some 144⟩⟩
    128 0 10 10 R3D_DDS_FORMAT_BC3 (by decide) rfl rfl (by decide) (by decide) (by decide)
    (by decide) rfl (by rw [ceil_div_four]; decide)⟩

/-- C10: on a successful decode `*w` is the `uint32_t` at offset 16, `*h` the
one at offset 12, and the returned pointer is `file_data + 128` (magic and
primary header) when the FourCC (offset 84) is not "DX10"; when it is, the
pointer is `file_data + 148` (the 20-byte extended header is skipped too) and
the format is resolved from the DXGI code, the `uint32_t` at offset 128. -/
theorem load_payload_offset (mem : List Byte) (out : OutParams) (r : LoadReturn) (k : Nat)
    (h : r3d_load_dds_from_memory (some mem) out = some r) (hk : r.ptr = some k) :
    ∃ cc W H, readU32 mem 84 = some cc ∧ readU32 mem 16 = some W ∧ readU32 mem 12 = some H ∧
      r.out.w = some W ∧ r.out.h = some H ∧
      (cc ≠ 0x30315844 → k = 4 + 124) ∧
      (cc = 0x30315844 → k = 4 + 124 + 20 ∧
        ∃ code, readU32 mem 128 = some code ∧
          r.out.format = some (dxgi_to_r3d_format code)) := by
  obtain ⟨W, H, cc, fmt, pitch, size, -, -, hW, hH, hcc, -, -, -, hpath, hout⟩ :=
    load_success_inv h hk
  rw [hout]
  refine ⟨cc, W, H, hcc, hW, hH, rfl, rfl, ?_, ?_⟩
  · intro hne
    rcases hpath with ⟨hdx, -, -⟩ | ⟨-, hk128, -⟩
    · exact absurd hdx hne
    · exact hk128
  · intro heq
    rcases hpath with ⟨-, hk148, code, hcode, hf⟩ | ⟨hndx, -, -⟩
    · exact ⟨hk148, code, hcode, by rw [hf]⟩
    · exact absurd heq hndx

/-- C10, instance: a DX10 file with DXGI code 28 (RGBA8), 2 x 2. -/
theorem load_payload_offset_witness :
    ∃ cc W H,
      readU32 (dds_file 124 2 2 0 ⟨32, 0x4, 0x30315844, 0, 0, 0, 0, 0⟩
        (u32le 28 ++ List.replicate 32 0)) 84 = some cc ∧
      readU32 (dds_file 124 2 2 0 ⟨32, 0x4, 0x30315844, 0, 0, 0, 0, 0⟩
        (u32le 28 ++ List.replicate 32 0)) 16 = some W ∧
      readU32 (dds_file 124 2 2 0 ⟨32, 0x4, 0x30315844, 0, 0, 0, 0, 0⟩
        (u32le 28 ++ List.replicate 32 0)) 12 = some H ∧
      some 2 = some W ∧ some 2 = some H ∧
      (cc ≠ 0x30315844 → 148 = 4 + 124) ∧
      (cc = 0x30315844 → 148 = 4 + 124 + 20 ∧
        ∃ code, readU32 (dds_file 124 2 2 0 ⟨32, 0x4, 0x30315844, 0, 0, 0, 0, 0⟩
            (u32le 28 ++ List.replicate 32 0)) 128 = some code ∧
          some R3D_DDS_FORMAT_R8G8B8A8_UNORM = some (dxgi_to_r3d_format code)) :=
  load_payload_offset
    (dds_file 124 2 2 0 ⟨32, 0x4, 0x30315844, 0, 0, 0, 0, 0⟩ (u32le 28 ++ List.replicate 32 0))
    out_zero ⟨some 148, ⟨some 2, some 2, some R3D_DDS_FORMAT_R8G8B8A8_UNORM, some 16⟩⟩ 148
    (by decide) rfl

/-! ## Buffer length, failure and GPU mapping -/

/-- C11, as stated, fails: a 128-byte buffer that holds only the header of a
2 x 2 RGBA8 image (16 payload bytes are missing) is decoded successfully, with a
view that starts at the end of the buffer. -/
theorem load_truncated_payload_counterexample :
    r3d_load_dds_from_memory
        (some (dds_file 124 2 2 0 ⟨32, 0x41, 0, 32, 0xff, 0xff00, 0xff0000, 0xff000000⟩ []))
        out_zero =
      some ⟨some 128, ⟨some 2, some 2, some R3D_DDS_FORMAT_R8G8B8A8_UNORM, some 16⟩⟩ ∧
    (dds_file 124 2 2 0 ⟨32, 0x41, 0, 32, 0xff, 0xff00, 0xff0000, 0xff000000⟩ []).length <
      128 + 16 :=
  ⟨by decide, by simp [dds_file, u32le]⟩

/-- C11, amended: the decoder receives no buffer length and does not compare
the payload with the buffer. Whenever a call succeeds and returns
`file_data + k`, the call on the buffer cut after its first `k` bytes (the
consumed header bytes, nothing of the payload) succeeds with the same pointer
and the same outputs. -/
theorem load_ignores_payload (mem : List Byte) (out : OutParams) (r : LoadReturn) (k : Nat)
    (h : r3d_load_dds_from_memory (some mem) out = some r) (hk : r.ptr = some k) :
    r3d_load_dds_from_memory (some (mem.take k)) out = some r ∧ (mem.take k).length ≤ k := by
  refine ⟨?_, by rw [List.length_take]; exact Nat.min_le_left _ _⟩
  have hnn : out.w ≠ none ∧ out.h ≠ none ∧ out.format ≠ none := by
    by_cases hnull : out.w = none ∨ out.h = none ∨ out.format = none
    · rw [load_null_out _ out hnull] at h
      rw [← Option.some.inj h] at hk
      exact Option.noConfusion hk
    · exact ⟨fun e => hnull (Or.inl e), fun e => hnull (Or.inr (Or.inl e)),
        fun e => hnull (Or.inr (Or.inr e))⟩
  obtain ⟨W, H, cc, fmt, pitch, size, hmagic, hsize, hW, hH, hcc, hpitch, hunk, hcalc,
    hpath, hout⟩ := load_success_inv h hk
  have hr : r = ⟨some k, ⟨some W, some H, some fmt, out.data_size.map fun _ => size⟩⟩ := by
    rcases r with ⟨p, o⟩
    simp only at hk hout
    rw [hk, hout]
  rcases hpath with ⟨hdx, hk148, code, hcode, hf⟩ | ⟨hndx, hk128, pf, hpf, hf⟩
  · subst hk148 hdx hf
    rw [hr]
    exact load_dx10_ok hnn.1 hnn.2.1 hnn.2.2
      ((readU32_take mem 148 0 (by omega)).trans hmagic)
      ((readU32_take mem 148 4 (by omega)).trans hsize)
      ((readU32_take mem 148 16 (by omega)).trans hW)
      ((readU32_take mem 148 12 (by omega)).trans hH)
      ((readU32_take mem 148 84 (by omega)).trans hcc)
      ((readU32_take mem 148 128 (by omega)).trans hcode) hunk
      ((readU32_take mem 148 20 (by omega)).trans hpitch) hcalc
  · subst hk128 hf
    rw [hr]
    exact load_legacy_ok hnn.1 hnn.2.1 hnn.2.2
      ((readU32_take mem 128 0 (by omega)).trans hmagic)
      ((readU32_take mem 128 4 (by omega)).trans hsize)
      ((readU32_take mem 128 16 (by omega)).trans hW)
      ((readU32_take mem 128 12 (by omega)).trans hH)
      ((readU32_take mem 128 84 (by omega)).trans hcc) hndx
      ((read_dds_pixelformat_take mem 128 76 (by omega)).trans hpf) hunk
      ((readU32_take mem 128 20 (by omega)).trans hpitch) hcalc

/-- C11, instance: a complete 2 x 2 RGBA8 file and the same file without its
payload. -/
theorem load_ignores_payload_witness :
    r3d_load_dds_from_memory
        (some ((dds_file 124 2 2 0 ⟨32, 0x41, 0, 32, 0xff, 0xff00, 0xff0000, 0xff000000⟩
          (List.replicate 16 9)).take 128)) out_zero =
      some ⟨some 128, ⟨some 2, some 2, some R3D_DDS_FORMAT_R8G8B8A8_UNORM, some 16⟩⟩ ∧
    ((dds_file 124 2 2 0 ⟨32, 0x41, 0, 32, 0xff, 0xff00, 0xff0000, 0xff000000⟩
      (List.replicate 16 9)).take 128).length ≤ 128 :=
  load_ignores_payload
    (dds_file 124 2 2 0 ⟨32, 0x41, 0, 32, 0xff, 0xff00, 0xff0000, 0xff000000⟩
      (List.replicate 16 9))
    out_zero ⟨some 128, ⟨some 2, some 2, some R3D_DDS_FORMAT_R8G8B8A8_UNORM, some 16⟩⟩ 128
    (by decide) rfl

/-- C12, as stated, fails: a DX10 file with the unmapped DXGI code 78 makes the
call return `NULL` after it has overwritten `*w`, `*h` and `*format`. -/
theorem load_failure_outputs_counterexample :
    r3d_load_dds_from_memory
        (some (dds_file 124 10 10 0 ⟨32, 0x4, 0x30315844, 0, 0, 0, 0, 0⟩
          (u32le 78 ++ List.replicate 16 0)))
        ⟨some 1, some 1, some R3D_DDS_FORMAT_BC1, some 7⟩ =
      some ⟨none, ⟨some 10, some 10, some R3D_DDS_FORMAT_UNKNOWN, some 7⟩⟩ ∧
    (⟨some 10, some 10, some R3D_DDS_FORMAT_UNKNOWN, some 7⟩ : OutParams) ≠
      ⟨some 1, some 1, some R3D_DDS_FORMAT_BC1, some 7⟩ := by
  decide

/-- C12, amended: when `r3d_load_dds_from_memory` returns `NULL` because of a
`NULL` argument, a wrong magic or a wrong header size, the four outputs are
left as they were; in every other failing call the magic and the size field
are valid, the format is unsupported, `*w` and `*h` hold the width and height
of the header, `*format` holds `R3D_DDS_FORMAT_UNKNOWN` and `*data_size` is
left as it was. -/
theorem load_failure_outputs (file_data : Option (List Byte)) (out : OutParams)
    (r : LoadReturn) (h : r3d_load_dds_from_memory file_data out = some r)
    (hk : r.ptr = none) :
    (r.out = out ∧
      (file_data = none ∨ out.w = none ∨ out.h = none ∨ out.format = none ∨
        ∃ mem, file_data = some mem ∧
          (readU32 mem 0 ≠ some 0x20534444 ∨ readU32 mem 4 ≠ some 124))) ∨
    (∃ mem W H, file_data = some mem ∧
      readU32 mem 0 = some 0x20534444 ∧ readU32 mem 4 = some 124 ∧
      readU32 mem 16 = some W ∧ readU32 mem 12 = some H ∧
      r.out = ⟨some W, some H, some R3D_DDS_FORMAT_UNKNOWN, out.data_size⟩) := by
  cases file_data with
  | none =>
    have : r = ⟨none, out⟩ := (Option.some.inj h).symm
    rw [this]
    exact Or.inl ⟨rfl, Or.inl rfl⟩
  | some mem =>
    rcases load_failure_inv h hk with ⟨h1, h2⟩ | ⟨W, H, h1, h2, h3, h4, h5⟩
    · refine Or.inl ⟨h1, Or.inr ?_⟩
      rcases h2 with h2 | h2 | h2 | h2 | h2
      · exact Or.inl h2
      · exact Or.inr (Or.inl h2)
      · exact Or.inr (Or.inr (Or.inl h2))
      · exact Or.inr (Or.inr (Or.inr ⟨mem, rfl, Or.inl h2⟩))
      · exact Or.inr (Or.inr (Or.inr ⟨mem, rfl, Or.inr h2⟩))
    · exact Or.inr ⟨mem, W, H, rfl, h1, h2, h3, h4, h5⟩

/-- C12, instance: the file of the counterexample, with its outcome. -/
theorem load_failure_outputs_witness :
    ((⟨some 10, some 10, some R3D_DDS_FORMAT_UNKNOWN, some 7⟩ : OutParams) =
        ⟨some 1, some 1, some R3D_DDS_FORMAT_BC1, some 7⟩ ∧
      (some (dds_file 124 10 10 0 ⟨32, 0x4, 0x30315844, 0, 0, 0, 0, 0⟩
          (u32le 78 ++ List.replicate 16 0)) = none ∨
        (some 1 : Option Nat) = none ∨ (some 1 : Option Nat) = none ∨
        some R3D_DDS_FORMAT_BC1 = none ∨
        ∃ mem, some (dds_file 124 10 10 0 ⟨32, 0x4, 0x30315844, 0, 0, 0, 0, 0⟩
            (u32le 78 ++ List.replicate 16 0)) = some mem ∧
          (readU32 mem 0 ≠ some 0x20534444 ∨ readU32 mem 4 ≠ some 124))) ∨
    (∃ mem W H, some (dds_file 124 10 10 0 ⟨32, 0x4, 0x30315844, 0, 0, 0, 0, 0⟩
          (u32le 78 ++ List.replicate 16 0)) = some mem ∧
      readU32 mem 0 = some 0x20534444 ∧ readU32 mem 4 = some 124 ∧
      readU32 mem 16 = some W ∧ readU32 mem 12 = some H ∧
      (⟨some 10, some 10, some R3D_DDS_FORMAT_UNKNOWN, some 7⟩ : OutParams) =
        ⟨some W, some H, some R3D_DDS_FORMAT_UNKNOWN, some 7⟩) :=
  load_failure_outputs
    (some (dds_file 124 10 10 0 ⟨32, 0x4, 0x30315844, 0, 0, 0, 0, 0⟩
      (u32le 78 ++ List.replicate 16 0)))
    ⟨some 1, some 1, some R3D_DDS_FORMAT_BC1, some 7⟩
    ⟨none, ⟨some 10, some 10, some R3D_DDS_FORMAT_UNKNOWN, some 7⟩⟩ (by decide) rfl

/-- C13, the failing input: a DX10 file with DXGI code 6
(`DXGI_FORMAT_R32G32B32_FLOAT`) is decoded successfully to
`R3D_DDS_FORMAT_R32G32B32_FLOAT`, a format that is not block-compressed and for
which `r3d_format_to_gl_format` and `r3d_format_to_gl_type` have a case, but
`r3d_format_to_gl_internal_format` has none and returns 0 whatever the values
of the OpenGL enumerators are: `r3d_load_dds_texture_from_memory` leaves
through its unsupported-format branch. -/
theorem texture_rgb32f_unsupported (gl : GLenums) :
    r3d_load_dds_from_memory
        (some (dds_file 124 1 1 0 ⟨32, 0x4, 0x30315844, 0, 0, 0, 0, 0⟩
          (u32le 6 ++ List.replicate 28 0))) out_zero =
      some ⟨some 148, ⟨some 1, some 1, some R3D_DDS_FORMAT_R32G32B32_FLOAT, some 12⟩⟩ ∧
    r3d_format_is_compressed R3D_DDS_FORMAT_R32G32B32_FLOAT = false ∧
    r3d_format_to_gl_internal_format gl R3D_DDS_FORMAT_R32G32B32_FLOAT = 0 ∧
    r3d_format_to_gl_format gl R3D_DDS_FORMAT_R32G32B32_FLOAT = gl.GL_RGB ∧
    r3d_format_to_gl_type gl R3D_DDS_FORMAT_R32G32B32_FLOAT = gl.GL_FLOAT ∧
    r3d_load_dds_texture_from_memory gl
        (some (dds_file 124 1 1 0 ⟨32, 0x4, 0x30315844, 0, 0, 0, 0, 0⟩
          (u32le 6 ++ List.replicate 28 0)))
        (some 0) (some 0) R3D_DDS_FORMAT_UNKNOWN 0 =
      some TextureLoad.unsupported_format := by
  have hload : r3d_load_dds_from_memory
        (some (dds_file 124 1 1 0 ⟨32, 0x4, 0x30315844, 0, 0, 0, 0, 0⟩
          (u32le 6 ++ List.replicate 28 0))) out_zero =
      some ⟨some 148, ⟨some 1, some 1, some R3D_DDS_FORMAT_R32G32B32_FLOAT, some 12⟩⟩ := by
    decide
  refine ⟨hload, rfl, rfl, rfl, rfl, ?_⟩
  unfold r3d_load_dds_texture_from_memory
  have hload2 : r3d_load_dds_from_memory
        (some (dds_file 124 1 1 0 ⟨32, 0x4, 0x30315844, 0, 0, 0, 0, 0⟩
          (u32le 6 ++ List.replicate 28 0)))
        ⟨some 0, some 0, some R3D_DDS_FORMAT_UNKNOWN, some 0⟩ =
      some ⟨some 148, ⟨some 1, some 1, some R3D_DDS_FORMAT_R32G32B32_FLOAT, some 12⟩⟩ :=
    hload
  rw [hload2]
  rfl

/-- C14: every format other than `R3D_DDS_FORMAT_UNKNOWN` is either linear
(`get_bytes_per_pixel` positive, not compressed, no case in the block-size
switch) or block-compressed (`get_bytes_per_pixel` zero,
`r3d_format_is_compressed`, block size 8 or 16), never both, and the size
calculation never takes its `return NULL` for it; `R3D_DDS_FORMAT_UNKNOWN` is
neither linear nor compressed and has no block size. -/
theorem format_linear_xor_compressed (fmt : r3d_dds_format_t) :
    (fmt ≠ R3D_DDS_FORMAT_UNKNOWN →
      ((0 < get_bytes_per_pixel fmt ∧ r3d_format_is_compressed fmt = false ∧
          block_size_switch fmt = none) ∨
        (get_bytes_per_pixel fmt = 0 ∧ r3d_format_is_compressed fmt = true ∧
          (block_size_switch fmt = some 8 ∨ block_size_switch fmt = some 16))) ∧
      ∀ w h pitch, calculated_data_size w h fmt pitch ≠ none) ∧
    (fmt = R3D_DDS_FORMAT_UNKNOWN →
      get_bytes_per_pixel fmt = 0 ∧ r3d_format_is_compressed fmt = false ∧
        block_size_switch fmt = none) := by
  constructor
  · intro hne
    constructor
    · cases fmt <;> first
        | exact absurd rfl hne
        | exact Or.inl ⟨by decide, rfl, rfl⟩
        | exact Or.inr ⟨rfl, rfl, Or.inl rfl⟩
        | exact Or.inr ⟨rfl, rfl, Or.inr rfl⟩
    · intro w h pitch hnone
      obtain ⟨size, hsize⟩ := calculated_data_size_isSome w h pitch fmt hne
      rw [hsize] at hnone
      exact Option.noConfusion hnone
  · intro he
    subst he
    exact ⟨rfl, rfl, rfl⟩

/-- C14, instance: BC4 is compressed with block size 8 and has no
bytes-per-pixel value. -/
theorem format_linear_xor_compressed_witness :
    ((0 < get_bytes_per_pixel R3D_DDS_FORMAT_BC4 ∧
          r3d_format_is_compressed R3D_DDS_FORMAT_BC4 = false ∧
          block_size_switch R3D_DDS_FORMAT_BC4 = none) ∨
        (get_bytes_per_pixel R3D_DDS_FORMAT_BC4 = 0 ∧
          r3d_format_is_compressed R3D_DDS_FORMAT_BC4 = true ∧
          (block_size_switch R3D_DDS_FORMAT_BC4 = some 8 ∨
            block_size_switch R3D_DDS_FORMAT_BC4 = some 16))) ∧
      ∀ w h pitch, calculated_data_size w h R3D_DDS_FORMAT_BC4 pitch ≠ none :=
  (format_linear_xor_compressed R3D_DDS_FORMAT_BC4).1 (by decide)

/-! ## Image composition -/

/-- C15, as stated, fails: with one 1 x 1 source present and an allocator that
returns `NULL`, the call returns the empty image, of width 0. -/
theorem compose_result_dims_counterexample :
    r3d_compose_images_rgb rl_nomem ![some (gray_image 1 1 [9]), none, none] ⟨5, 0, 5, 255⟩ =
      some Image.zero ∧
    Image.zero.width ≠ (gray_image 1 1 [9]).width ∧ Image.zero.data = none := by
  decide

/-- C15, amended: when at least one source is present, every present source
has a width and a height between 1 and 32767 and a data size
`bpp * width * height` that fits in an `int` (`bpp` not negative), and the
output size `3 * w * h` fits in an `int`, then: if `RL_MALLOC` succeeds the
result is an R8G8B8 image with one mipmap and `3 * w * h` bytes of pixel data
whose width is the largest width and whose height is the largest height of the
present sources (possibly of different sources); if `RL_MALLOC` returns `NULL`
the result is the empty image. -/
theorem compose_result_dims (rl : Raylib) (sources : Fin 3 → Option Image)
    (defaultColor : Color) (hpres : ∃ i, sources i ≠ none)
    (hdim : ∀ i s, sources i = some s →
      1 ≤ s.width ∧ s.width ≤ 32767 ∧ 1 ≤ s.height ∧ s.height ≤ 32767)
    (hbpp : ∀ i s, sources i = some s → 0 ≤ rl.GetPixelDataSize 1 1 s.format ∧
      rl.GetPixelDataSize 1 1 s.format * (s.width * s.height) ≤ 2147483647)
    (hfit : 3 * (compose_dims sources).1 * (compose_dims sources).2 ≤ 2147483647) :
    (rl.malloc_ok (3 * (compose_dims sources).1 * (compose_dims sources).2) = true →
      ∃ img px, r3d_compose_images_rgb rl sources defaultColor = some img ∧
        img.data = some px ∧ (px.length : Int) = 3 * img.width * img.height ∧
        img.format = rl.PIXELFORMAT_UNCOMPRESSED_R8G8B8 ∧ img.mipmaps = 1 ∧
        (∀ i s, sources i = some s → s.width ≤ img.width ∧ s.height ≤ img.height) ∧
        (∃ i s, sources i = some s ∧ s.width = img.width) ∧
        (∃ j t, sources j = some t ∧ t.height = img.height)) ∧
    (rl.malloc_ok (3 * (compose_dims sources).1 * (compose_dims sources).2) = false →
      r3d_compose_images_rgb rl sources defaultColor = some Image.zero) := by
  obtain ⟨hmax, hwex, hhex⟩ := compose_dims_max sources
  have hw1 : 1 ≤ (compose_dims sources).1 ∧ 1 ≤ (compose_dims sources).2 := by
    obtain ⟨i0, hi0⟩ := hpres
    obtain ⟨s0, hs0⟩ := Option.ne_none_iff_exists'.1 hi0
    have := hmax i0 s0 hs0
    have := hdim i0 s0 hs0
    exact ⟨by omega, by omega⟩
  constructor
  · intro hmalloc
    obtain ⟨px, hrun, hlen⟩ :=
      compose_total rl sources defaultColor hpres hdim hbpp hfit hmalloc
    refine ⟨_, px, hrun, rfl, hlen, rfl, rfl, hmax, ?_, ?_⟩
    · rcases hwex with h0 | hex
      · omega
      · exact hex
    · rcases hhex with h0 | hex
      · omega
      · exact hex
  · intro hmalloc
    have hhle : 3 * (compose_dims sources).1 ≤
        3 * (compose_dims sources).1 * (compose_dims sources).2 := by
      have := Int.mul_le_mul_of_nonneg_left hw1.2
        (show (0 : Int) ≤ 3 * (compose_dims sources).1 by omega)
      omega
    unfold r3d_compose_images_rgb
    simp only
    rw [if_neg (by omega), int_result_of_range (by omega) (by omega), Option.some_bind,
      int_result_of_range (by omega) (by omega), Option.some_bind]
    unfold RL_MALLOC
    simp only [hmalloc, Bool.false_eq_true, if_false]

/-- C15, instance: a 4 x 1 R source and a 2 x 2 G source: the result is 4 x 2,
the width of the first and the height of the second. -/
theorem compose_result_dims_witness :
    ∃ img px, r3d_compose_images_rgb rl_gray
        ![some (gray_image 4 1 [1, 2, 3, 4]), some (gray_image 2 2 [10, 20, 30, 40]), none]
        ⟨5, 0, 5, 255⟩ = some img ∧
      img.data = some px ∧ (px.length : Int) = 3 * img.width * img.height ∧
      img.format = rl_gray.PIXELFORMAT_UNCOMPRESSED_R8G8B8 ∧ img.mipmaps = 1 ∧
      (∀ i s, (![some (gray_image 4 1 [1, 2, 3, 4]), some (gray_image 2 2 [10, 20, 30, 40]),
          none] : Fin 3 → Option Image) i = some s →
        s.width ≤ img.width ∧ s.height ≤ img.height) ∧
      (∃ i s, (![some (gray_image 4 1 [1, 2, 3, 4]), some (gray_image 2 2 [10, 20, 30, 40]),
          none] : Fin 3 → Option Image) i = some s ∧ s.width = img.width) ∧
      (∃ j t, (![some (gray_image 4 1 [1, 2, 3, 4]), some (gray_image 2 2 [10, 20, 30, 40]),
          none] : Fin 3 → Option Image) j = some t ∧ t.height = img.height) :=
  (compose_result_dims rl_gray
    ![some (gray_image 4 1 [1, 2, 3, 4]), some (gray_image 2 2 [10, 20, 30, 40]), none]
    ⟨5, 0, 5, 255⟩ ⟨0, by decide⟩
    (by intro i s h; fin_cases i <;> simp at h <;> subst h <;> decide)
    (by intro i s h; fin_cases i <;> simp at h <;> subst h <;> decide)
    (by decide)).1 (by decide)

/-- C16: with all three sources `NULL`, `r3d_compose_images_rgb` returns the
empty image (`{ 0 }`: width 0, height 0, no pixel data) for every default
colour and every raylib, so nothing is allocated or sampled; and a result with
pixel data implies that at least one source is not `NULL`. -/
theorem compose_no_source (rl : Raylib) (defaultColor : Color) :
    (∀ sources : Fin 3 → Option Image, (∀ i, sources i = none) →
      r3d_compose_images_rgb rl sources defaultColor = some Image.zero) ∧
    Image.zero.width = 0 ∧ Image.zero.height = 0 ∧ Image.zero.data = none ∧
    (∀ (sources : Fin 3 → Option Image) (img : Image),
      r3d_compose_images_rgb rl sources defaultColor = some img → img.data ≠ none →
      ∃ i, sources i ≠ none) := by
  refine ⟨fun sources hnone => ?_, rfl, rfl, rfl, fun sources img h hd => ?_⟩
  · unfold r3d_compose_images_rgb
    simp only [compose_dims_of_none sources hnone, true_or, if_true]
  · obtain ⟨px, hpx⟩ := Option.ne_none_iff_exists'.1 hd
    obtain ⟨wn, hn, scale, -, -, -, -, -, -, -, hex, -⟩ := compose_inv h hpx
    exact hex

/-- C16, instance: no source and the default colour (10, 20, 30). -/
theorem compose_no_source_witness :
    r3d_compose_images_rgb rl_gray (fun _ => none) ⟨10, 20, 30, 255⟩ = some Image.zero :=
  (compose_no_source rl_gray ⟨10, 20, 30, 255⟩).1 (fun _ => none) (fun _ => rfl)

/-- C17: when `r3d_compose_images_rgb` returns an image with pixel data, then
for every pixel `(x, y)` of it and every channel `c` whose source is `NULL`,
byte `3 * (y * w + x) + c` of the data is channel `c` of the default colour. -/
theorem compose_absent_channel (rl : Raylib) (sources : Fin 3 → Option Image)
    (defaultColor : Color) (img : Image) (px : List Byte)
    (h : r3d_compose_images_rgb rl sources defaultColor = some img)
    (hd : img.data = some px) (x y : Nat) (hx : (x : Int) < img.width)
    (hy : (y : Int) < img.height) (c : Fin 3) (hc : sources c = none) :
    px[3 * (y * img.width.toNat + x) + c.val]? = some (defaultColor.chan c) := by
  obtain ⟨wn, hn, scale, -, -, -, himg, -, -, -, -, -, hpix⟩ := compose_inv h hd
  subst himg
  simp only [Int.toNat_ofNat] at hx hy ⊢
  exact (hpix x y (by exact_mod_cast hx) (by exact_mod_cast hy) c).1 hc

/-- C17, instance: only the G source, 2 x 2 with the value 200, and the default
colour (5, 0, 5): every output pixel is (5, 200, 5); the red byte of pixel
(1, 1) is the default. -/
theorem compose_absent_channel_witness :
    r3d_compose_images_rgb rl_gray ![none, some (gray_image 2 2 [200, 200, 200, 200]), none]
        ⟨5, 0, 5, 255⟩ =
      some ⟨some [5, 200, 5, 5, 200, 5, 5, 200, 5, 5, 200, 5], 2, 2, 1, 4⟩ ∧
    [5, 200, 5, 5, 200, 5, 5, 200, 5, 5, 200, (5 : Byte)][3 * (1 * (2 : Int).toNat + 1) +
      (0 : Fin 3).val]? = some ((⟨5, 0, 5, 255⟩ : Color).chan 0) :=
  ⟨by decide,
   compose_absent_channel rl_gray ![none, some (gray_image 2 2 [200, 200, 200, 200]), none]
    ⟨5, 0, 5, 255⟩ ⟨some [5, 200, 5, 5, 200, 5, 5, 200, 5, 5, 200, 5], 2, 2, 1, 4⟩
    [5, 200, 5, 5, 200, 5, 5, 200, 5, 5, 200, 5] (by decide) rfl 1 1 (by decide) (by decide)
    0 rfl⟩

/-- C18, as stated, fails: it has no bound on the sizes. With a present R source
of 32768 x 1 pixels (positive dimensions, output of 32768 x 1 pixels, successful
allocation of the 98304 bytes) the shift `32768 << 16` of the "Calculate scales"
loop does not fit in an `int`: the call has undefined behaviour and no output
byte is determined by the formula. -/
theorem compose_present_channel_counterexample :
    r3d_compose_images_rgb rl_gray
        ![some (gray_image 32768 1 (List.replicate 32768 0)), none, none] ⟨5, 0, 5, 255⟩ =
      none ∧
    shl16 (gray_image 32768 1 (List.replicate 32768 0)).width = none ∧
    compose_dims ![some (gray_image 32768 1 (List.replicate 32768 0)), none, none] =
      (32768, 1) ∧
    rl_gray.malloc_ok (3 * 32768 * 1) = true := by
  decide

/-- C18, amended: when every present source has a width and a height between 1
and 32767 and a data size `bpp * width * height` that fits in an `int` (`bpp`
not negative), and the output size `3 * w * h` fits in an `int`, the call
returns an image; that image has pixel data and the dimensions `w x h` when a
source is present and `RL_MALLOC` succeeds; and whenever it has pixel data,
for every pixel `(x, y)` and every channel `c` whose source is present, byte
`3 * (y * w + x) + c` of the data is channel `c` of the colour that
`GetPixelColor` decodes, with the format of that source, at byte offset
`bpp * (srcY * srcWidth + srcX)` of its data, where
`bpp = GetPixelDataSize(1, 1, format)`,
`srcX = min((x * ((srcWidth << 16) / w)) >> 16, srcWidth - 1)` and
`srcY = min((y * ((srcHeight << 16) / h)) >> 16, srcHeight - 1)`. -/
theorem compose_present_channel (rl : Raylib) (sources : Fin 3 → Option Image)
    (defaultColor : Color)
    (hdim : ∀ i s, sources i = some s →
      1 ≤ s.width ∧ s.width ≤ 32767 ∧ 1 ≤ s.height ∧ s.height ≤ 32767)
    (hbpp : ∀ i s, sources i = some s → 0 ≤ rl.GetPixelDataSize 1 1 s.format ∧
      rl.GetPixelDataSize 1 1 s.format * (s.width * s.height) ≤ 2147483647)
    (hfit : 3 * (compose_dims sources).1 * (compose_dims sources).2 ≤ 2147483647) :
    ∃ img, r3d_compose_images_rgb rl sources defaultColor = some img ∧
      ((∃ i, sources i ≠ none) →
        rl.malloc_ok (3 * (compose_dims sources).1 * (compose_dims sources).2) = true →
        (∃ px, img.data = some px) ∧ img.width = (compose_dims sources).1 ∧
          img.height = (compose_dims sources).2) ∧
      ∀ px, img.data = some px →
        ∀ x y : Nat, (x : Int) < img.width → (y : Int) < img.height →
        ∀ (c : Fin 3) (s : Image), sources c = some s →
          px[3 * (y * img.width.toNat + x) + c.val]? =
            some ((rl.GetPixelColor s.data
              (rl.GetPixelDataSize 1 1 s.format *
                (min ((y : Int) * (s.height * 65536 / img.height) / 65536) (s.height - 1) *
                    s.width +
                  min ((x : Int) * (s.width * 65536 / img.width) / 65536) (s.width - 1)))
              s.format).chan c) := by
  obtain ⟨img, himg⟩ := compose_defined rl sources defaultColor hdim hbpp hfit
  refine ⟨img, himg, fun hpres hmalloc => ?_, fun px hd x y hx hy c s hc => ?_⟩
  · obtain ⟨px, hpx, -⟩ := compose_total rl sources defaultColor hpres hdim hbpp hfit hmalloc
    rw [hpx] at himg
    rw [← Option.some.inj himg]
    exact ⟨⟨px, rfl⟩, rfl, rfl⟩
  · obtain ⟨d1, -, d3, -⟩ := hdim c s hc
    exact compose_present_byte himg hd x y hx hy c s hc ⟨by omega, by omega⟩

/-- C18, instance: a 4 x 1 R source and a 2 x 2 G source give a 4 x 2 image;
the green byte of pixel (3, 1) is the byte of G at (1, 1). -/
theorem compose_present_channel_witness :
    r3d_compose_images_rgb rl_gray
        ![some (gray_image 4 1 [1, 2, 3, 4]), some (gray_image 2 2 [10, 20, 30, 40]), none]
        ⟨5, 0, 5, 255⟩ =
      some ⟨some [1, 10, 5, 2, 10, 5, 3, 20, 5, 4, 20, 5, 1, 30, 5, 2, 30, 5, 3, 40, 5,
        4, 40, 5], 4, 2, 1, 4⟩ ∧
    [1, 10, 5, 2, 10, 5, 3, 20, 5, 4, 20, 5, 1, 30, 5, 2, 30, 5, 3, 40, 5, 4, 40,
        (5 : Byte)][3 * (1 * (4 : Int).toNat + 3) + (1 : Fin 3).val]? =
      some ((rl_gray.GetPixelColor (some [10, 20, 30, 40])
        (rl_gray.GetPixelDataSize 1 1 1 *
          (min (((1 : Nat) : Int) * (2 * 65536 / 2) / 65536) (2 - 1) * 2 +
            min (((3 : Nat) : Int) * (2 * 65536 / 4) / 65536) (2 - 1))) 1).chan 1) := by
  have hval : r3d_compose_images_rgb rl_gray
      ![some (gray_image 4 1 [1, 2, 3, 4]), some (gray_image 2 2 [10, 20, 30, 40]), none]
      ⟨5, 0, 5, 255⟩ =
      some ⟨some [1, 10, 5, 2, 10, 5, 3, 20, 5, 4, 20, 5, 1, 30, 5, 2, 30, 5, 3, 40, 5,
        4, 40, 5], 4, 2, 1, 4⟩ := by decide
  obtain ⟨img, himg, -, hpix⟩ := compose_present_channel rl_gray
    ![some (gray_image 4 1 [1, 2, 3, 4]), some (gray_image 2 2 [10, 20, 30, 40]), none]
    ⟨5, 0, 5, 255⟩
    (by intro i s h; fin_cases i <;> simp at h <;> subst h <;> decide)
    (by intro i s h; fin_cases i <;> simp at h <;> subst h <;> decide)
    (by decide)
  rw [hval] at himg
  have e := Option.some.inj himg
  subst e
  exact ⟨hval, hpix _ rfl 3 1 (by decide) (by decide) 1 (gray_image 2 2 [10, 20, 30, 40]) rfl⟩

/-- C19: every source coordinate that `SAMPLE_R`, `SAMPLE_G` and `SAMPLE_B`
compute is at most `dim - 1`; in particular, when `r3d_compose_images_rgb`
returns an image with pixel data, the coordinates `(srcX, srcY)` sampled for a
pixel `(x, y)` from a present source satisfy `srcX <= width - 1` and
`srcY <= height - 1`. -/
theorem compose_sample_upper_bound (rl : Raylib) (sources : Fin 3 → Option Image)
    (defaultColor : Color) (img : Image) (px : List Byte)
    (h : r3d_compose_images_rgb rl sources defaultColor = some img)
    (hd : img.data = some px) (x y : Nat) (hx : (x : Int) < img.width)
    (hy : (y : Int) < img.height) (c : Fin 3) (s : Image) (hc : sources c = some s) :
    (∀ d scale dim v : Int, sample_coord d scale dim = some v → v ≤ dim - 1) ∧
    ∃ scale srcX srcY, compose_scale img.width img.height (some s) = some scale ∧
      sample_coord x scale.1 s.width = some srcX ∧
      sample_coord y scale.2 s.height = some srcY ∧
      srcX ≤ s.width - 1 ∧ srcY ≤ s.height - 1 := by
  have gen : ∀ d scale dim v : Int, sample_coord d scale dim = some v → v ≤ dim - 1 := by
    intro d scale dim v hv
    rw [(sample_coord_inv hv).1]
    exact min_le_right _ _
  refine ⟨gen, ?_⟩
  obtain ⟨wn, hn, scale, -, -, -, himg, -, -, -, -, hscale, hpix⟩ := compose_inv h hd
  subst himg
  simp only at hx hy ⊢
  obtain ⟨src, hsrc, -⟩ :=
    (hpix x y (by exact_mod_cast hx) (by exact_mod_cast hy) c).2 (by rw [hc]; simp)
  rw [hc] at hsrc
  have hsc := hscale c
  rw [hc] at hsc
  obtain ⟨srcX, srcY, hX, hY, -, -⟩ := sample_inv hsrc
  exact ⟨scale c, srcX, srcY, hsc, hX, hY, gen _ _ _ _ hX, gen _ _ _ _ hY⟩

set_option maxRecDepth 100000 in
/-- C19, instance: a 4 x 4 R source and an 8 x 8 G source composed into an
8 x 8 image; the coordinates sampled from the R source for pixel (7, 7). -/
theorem compose_sample_upper_bound_witness :
    (∀ d scale dim v : Int, sample_coord d scale dim = some v → v ≤ dim - 1) ∧
    ∃ scale srcX srcY,
      compose_scale 8 8 (some (gray_image 4 4 (List.replicate 16 7))) = some scale ∧
      sample_coord ((7 : Nat) : Int) scale.1 4 = some srcX ∧
      sample_coord ((7 : Nat) : Int) scale.2 4 = some srcY ∧
      srcX ≤ 4 - 1 ∧ srcY ≤ 4 - 1 :=
  compose_sample_upper_bound rl_gray
    ![some (gray_image 4 4 (List.replicate 16 7)), some (gray_image 8 8 (List.replicate 64 9)),
      none]
    ⟨5, 0, 5, 255⟩ ⟨some (List.replicate 64 [7, 9, 5]).flatten, 8, 8, 1, 4⟩
    (List.replicate 64 [7, 9, 5]).flatten (by decide) rfl 7 7 (by decide) (by decide) 0
    (gray_image 4 4 (List.replicate 16 7)) rfl

/-- C20, the failing input: the R source is a 2 x 2 image and the G source is
present but empty (`{ 0 }`: width 0, height 0, no data). The call returns a
2 x 2 image with pixel data; the scale factors of the G source are 0 (the
guard `width > 0 && height > 0` of the scale loop), so for every pixel
`(x * 0) >> 16 = 0 >= 0` and `SAMPLE_G` takes `srcX = srcY = 0 - 1 = -1`: the
pixel is read at byte offset `bpp * (-1 * 0 + -1) = -bpp`, before the data. -/
theorem compose_empty_source_negative_coord :
    r3d_compose_images_rgb rl_gray ![some (gray_image 2 2 [1, 2, 3, 4]), some Image.zero, none]
        ⟨5, 0, 5, 255⟩ =
      some ⟨some [1, 0, 5, 2, 0, 5, 3, 0, 5, 4, 0, 5], 2, 2, 1, 4⟩ ∧
    compose_scale 2 2 (some Image.zero) = some (0, 0) ∧
    sample_coord 1 0 Image.zero.width = some (-1) ∧
    sample_coord 1 0 Image.zero.height = some (-1) ∧
    sample_offset (compose_bpp rl_gray (some Image.zero)) (-1) (-1) Image.zero.width =
      some (-1) := by
  decide

/-! ## Legacy fall-through and the success condition -/

/-- C22, as stated, fails: a descriptor with the FourCC flag and the RGB flag
set (flags 0x45), FourCC "DXT2", 32 bits and an alpha mask resolves to RGBA8,
and a 2 x 2 file with that descriptor is decoded successfully. -/
theorem legacy_unmatched_fourcc_counterexample :
    legacy_format_to_r3d ⟨32, 0x45, 0x32545844, 32, 0xff, 0xff00, 0xff0000, 0xff000000⟩ =
      R3D_DDS_FORMAT_R8G8B8A8_UNORM ∧
    (0x45 : Nat) &&& 0x4 ≠ 0 ∧
    (0x32545844 : Nat) ∉ [0x31545844, 0x33545844, 0x35545844, 0x31495441, 0x32495441,
      0x30315844] ∧
    r3d_load_dds_from_memory
        (some (dds_file 124 2 2 0
          ⟨32, 0x45, 0x32545844, 32, 0xff, 0xff00, 0xff0000, 0xff000000⟩
          (List.replicate 16 0))) out_zero =
      some ⟨some 128, ⟨some 2, some 2, some R3D_DDS_FORMAT_R8G8B8A8_UNORM, some 16⟩⟩ := by
  decide

/-- C22, amended: when the FourCC flag is set and the FourCC is none of "DXT1",
"DXT3", "DXT5", "ATI1", "ATI2", `legacy_format_to_r3d` goes on to the RGB test:
the format is `R3D_DDS_FORMAT_UNKNOWN` when the RGB flag (0x40) is clear or the
bit count is none of 32, 24, 16, 8, and the linear format of the bit count
otherwise; on the legacy path (FourCC not "DX10") the decode fails exactly when
that format is `R3D_DDS_FORMAT_UNKNOWN`. -/
theorem legacy_unmatched_fourcc (pf : dds_pixelformat_t) (hflag : pf.dwFlags &&& 0x4 ≠ 0)
    (hcc : pf.dwFourCC ∉ [0x31545844, 0x33545844, 0x35545844, 0x31495441, 0x32495441]) :
    (pf.dwFlags &&& 0x40 = 0 → legacy_format_to_r3d pf = R3D_DDS_FORMAT_UNKNOWN) ∧
    (pf.dwFlags &&& 0x40 ≠ 0 →
      (pf.dwRGBBitCount = 32 → pf.dwABitMask ≠ 0 →
        legacy_format_to_r3d pf = R3D_DDS_FORMAT_R8G8B8A8_UNORM) ∧
      (pf.dwRGBBitCount = 32 → pf.dwABitMask = 0 →
        legacy_format_to_r3d pf = R3D_DDS_FORMAT_R8G8B8_UNORM) ∧
      (pf.dwRGBBitCount = 24 → legacy_format_to_r3d pf = R3D_DDS_FORMAT_R8G8B8_UNORM) ∧
      (pf.dwRGBBitCount = 16 → legacy_format_to_r3d pf = R3D_DDS_FORMAT_R8G8_UNORM) ∧
      (pf.dwRGBBitCount = 8 → legacy_format_to_r3d pf = R3D_DDS_FORMAT_R8_UNORM) ∧
      (pf.dwRGBBitCount ∉ [32, 24, 16, 8] →
        legacy_format_to_r3d pf = R3D_DDS_FORMAT_UNKNOWN)) ∧
    (∀ (mem : List Byte) (out : OutParams),
      out.w ≠ none → out.h ≠ none → out.format ≠ none →
      readU32 mem 0 = some 0x20534444 → readU32 mem 4 = some 124 →
      readU32 mem 84 = some pf.dwFourCC → pf.dwFourCC ≠ 0x30315844 →
      read_dds_pixelformat mem 76 = some pf →
      ∃ r, r3d_load_dds_from_memory (some mem) out = some r ∧
        r.out.format = some (legacy_format_to_r3d pf) ∧
        (legacy_format_to_r3d pf = R3D_DDS_FORMAT_UNKNOWN → r.ptr = none) ∧
        (legacy_format_to_r3d pf ≠ R3D_DDS_FORMAT_UNKNOWN → r.ptr = some 128)) := by
  have h1 : pf.dwFlags &&& DDS_FOURCC ≠ 0 := hflag
  simp only [List.mem_cons, List.mem_singleton, List.not_mem_nil, or_false, not_or] at hcc
  have hsw : legacy_fourcc_switch pf.dwFourCC = none := by
    unfold legacy_fourcc_switch
    rw [if_neg hcc.1, if_neg hcc.2.1, if_neg hcc.2.2.1, if_neg hcc.2.2.2.1,
      if_neg hcc.2.2.2.2]
  have key : legacy_format_to_r3d pf =
      match (if pf.dwFlags &&& DDS_RGB ≠ 0 then legacy_rgb_switch pf else none) with
      | some f => f
      | none => R3D_DDS_FORMAT_UNKNOWN := by
    unfold legacy_format_to_r3d
    rw [if_pos h1, hsw]
  refine ⟨fun hno => ?_, fun hrgb => ?_, ?_⟩
  · have h2 : ¬ (pf.dwFlags &&& DDS_RGB ≠ 0) := not_not.2 hno
    rw [key, if_neg h2]
  · have h2 : pf.dwFlags &&& DDS_RGB ≠ 0 := hrgb
    rw [if_pos h2] at key
    refine ⟨?_, ?_, ?_, ?_, ?_, ?_⟩
    · intro hb ha
      rw [key]; unfold legacy_rgb_switch
      rw [if_pos hb, if_pos ha]
    · intro hb ha
      rw [key]; unfold legacy_rgb_switch
      rw [if_pos hb, if_neg (not_not.2 ha)]
    · intro hb
      rw [key]; unfold legacy_rgb_switch
      rw [hb]; rfl
    · intro hb
      rw [key]; unfold legacy_rgb_switch
      rw [hb]; rfl
    · intro hb
      rw [key]; unfold legacy_rgb_switch
      rw [hb]; rfl
    · intro hb
      simp only [List.mem_cons, List.mem_singleton, List.not_mem_nil, or_false, not_or] at hb
      rw [key]; unfold legacy_rgb_switch
      rw [if_neg hb.1, if_neg hb.2.1, if_neg hb.2.2.1, if_neg hb.2.2.2]
  · intro mem out hw hh hf hmagic hsize hfcc hndx hpf
    have hndx2 : pf.dwFourCC ≠ FOURCC_DX10 := hndx
    have hres : (if pf.dwFourCC = FOURCC_DX10 then (readU32 mem 128).map dxgi_to_r3d_format
        else (read_dds_pixelformat mem 76).map legacy_format_to_r3d) =
        some (legacy_format_to_r3d pf) := by
      rw [if_neg hndx2, hpf]
      rfl
    obtain ⟨r, hr, hfmt, hnone, hsome⟩ := load_of_resolved hw hh hf hmagic hsize hfcc hres
    refine ⟨r, hr, hfmt, hnone, fun hne => ?_⟩
    rw [hsome hne, if_neg hndx2]

/-- C22, instance: flags 0x45, FourCC "DXT2", 24 bits: the format is RGB8. -/
theorem legacy_unmatched_fourcc_witness :
    legacy_format_to_r3d ⟨32, 0x45, 0x32545844, 24, 0xff, 0xff00, 0xff0000, 0⟩ =
      R3D_DDS_FORMAT_R8G8B8_UNORM :=
  ((legacy_unmatched_fourcc ⟨32, 0x45, 0x32545844, 24, 0xff, 0xff00, 0xff0000, 0⟩
    (by decide) (by decide)).2.1 (by decide)).2.2.1 rfl

/-- C23: exact success condition. With a buffer and output pointers that are
not `NULL`, `r3d_load_dds_from_memory` succeeds if and only if the magic is
0x20534444, the header size field is 124 and the resolved format (DXGI table
when the FourCC is "DX10", legacy resolver otherwise) is not
`R3D_DDS_FORMAT_UNKNOWN`: nothing else of the buffer (width, height, pitch,
flags of the header, caps, mip count, the other DX10 fields) enters the
condition. A buffer that holds both headers (148 bytes) always gives an
outcome. -/
theorem load_success_iff (mem : List Byte) (out : OutParams)
    (hw : out.w ≠ none) (hh : out.h ≠ none) (hf : out.format ≠ none) :
    ((∃ r k, r3d_load_dds_from_memory (some mem) out = some r ∧ r.ptr = some k) ↔
      (readU32 mem 0 = some 0x20534444 ∧ readU32 mem 4 = some 124 ∧
        ∃ cc fmt, readU32 mem 84 = some cc ∧
          (if cc = 0x30315844 then (readU32 mem 128).map dxgi_to_r3d_format
            else (read_dds_pixelformat mem 76).map legacy_format_to_r3d) = some fmt ∧
          fmt ≠ R3D_DDS_FORMAT_UNKNOWN)) ∧
    (148 ≤ mem.length → ∃ r, r3d_load_dds_from_memory (some mem) out = some r) := by
  constructor
  · constructor
    · rintro ⟨r, k, hr, hk⟩
      obtain ⟨W, H, cc, fmt, pitch, size, hmagic, hsize, -, -, hcc, -, hunk, -, hpath, -⟩ :=
        load_success_inv hr hk
      refine ⟨hmagic, hsize, cc, fmt, hcc, ?_, hunk⟩
      rcases hpath with ⟨hdx, -, code, hcode, hfmt⟩ | ⟨hndx, -, pf, hpf, hfmt⟩
      · have hdx2 : cc = 0x30315844 := hdx
        rw [if_pos hdx2, hcode, hfmt]; rfl
      · have hndx2 : ¬ cc = 0x30315844 := hndx
        rw [if_neg hndx2, hpf, hfmt]; rfl
    · rintro ⟨hmagic, hsize, cc, fmt, hcc, hres, hunk⟩
      obtain ⟨r, hr, -, -, hsome⟩ := load_of_resolved hw hh hf hmagic hsize hcc hres
      exact ⟨r, _, hr, hsome hunk⟩
  · intro hlen
    obtain ⟨magic, hmagic⟩ := readU32_exists_of_le mem 0 (by omega)
    obtain ⟨dwSize, hsize⟩ := readU32_exists_of_le mem 4 (by omega)
    obtain ⟨cc, hcc⟩ := readU32_exists_of_le mem 84 (by omega)
    obtain ⟨code, hcode⟩ := readU32_exists_of_le mem 128 (by omega)
    obtain ⟨pf, hpf, -⟩ := read_dds_pixelformat_of_le mem 76 (by omega)
    by_cases hm : magic = DDS_MAGIC
    · by_cases hs : dwSize = 124
      · subst hm hs
        have hres : (if cc = FOURCC_DX10 then (readU32 mem 128).map dxgi_to_r3d_format
            else (read_dds_pixelformat mem 76).map legacy_format_to_r3d) =
            some (if cc = FOURCC_DX10 then dxgi_to_r3d_format code
              else legacy_format_to_r3d pf) := by
          by_cases hdx : cc = FOURCC_DX10
          · rw [if_pos hdx, if_pos hdx, hcode]; rfl
          · rw [if_neg hdx, if_neg hdx, hpf]; rfl
        obtain ⟨r, hr, -⟩ := load_of_resolved hw hh hf hmagic hsize hcc hres
        exact ⟨r, hr⟩
      · subst hm
        refine ⟨⟨none, out⟩, ?_⟩
        unfold r3d_load_dds_from_memory
        simp [hw, hh, hf, hmagic, sizeof_uint32_t, off_dwSize, hsize, sizeof_dds_header_t, hs]
    · refine ⟨⟨none, out⟩, ?_⟩
      unfold r3d_load_dds_from_memory
      simp [hw, hh, hf, hmagic, hm]

/-- C23, instance: a 0 x 0 BC1 file with every other field zero is decoded
successfully. -/
theorem load_success_iff_witness :
    ∃ r k, r3d_load_dds_from_memory
        (some (dds_file 124 0 0 0 ⟨0, 0x4, 0x31545844, 0, 0, 0, 0, 0⟩ (List.replicate 20 0)))
        out_zero = some r ∧ r.ptr = some k :=
  ((load_success_iff
    (dds_file 124 0 0 0 ⟨0, 0x4, 0x31545844, 0, 0, 0, 0, 0⟩ (List.replicate 20 0)) out_zero
    (by decide) (by decide) (by decide)).1).2
    ⟨by decide, by decide, 0x31545844, R3D_DDS_FORMAT_BC1, by decide, by decide, by decide⟩

/-! ## Empty result, identity resampling, accuracy and overflow freedom -/

/-- C25: fixed-point accuracy. For a source width `ws` and an output width `w`
with `1 <= ws <= w <= 32767`, the shift `ws << 16` does not overflow and for
every output column `0 <= x < w` the sampled column
`(x * ((ws << 16) / w)) >> 16`, clamped to `ws - 1`, is computed without
overflow and is `x * ws / w` rounded down, or one less; the same holds for the
rows; and these scale factors are the ones that the "Calculate scales" loop
stores for a present source whose width and height are both in that range. -/
theorem sample_fixed_point_accuracy (s : Image) (w h : Int) :
    (1 ≤ s.width → s.width ≤ w → w ≤ 32767 →
      shl16 s.width = some (s.width * 65536) ∧
      ∀ x, 0 ≤ x → x < w →
        ∃ srcX, sample_coord x (Int.tdiv (s.width * 65536) w) s.width = some srcX ∧
          x * s.width / w - 1 ≤ srcX ∧ srcX ≤ x * s.width / w) ∧
    (1 ≤ s.height → s.height ≤ h → h ≤ 32767 →
      shl16 s.height = some (s.height * 65536) ∧
      ∀ y, 0 ≤ y → y < h →
        ∃ srcY, sample_coord y (Int.tdiv (s.height * 65536) h) s.height = some srcY ∧
          y * s.height / h - 1 ≤ srcY ∧ srcY ≤ y * s.height / h) ∧
    (1 ≤ s.width → s.width ≤ w → w ≤ 32767 →
      1 ≤ s.height → s.height ≤ h → h ≤ 32767 →
      compose_scale w h (some s) =
        some (Int.tdiv (s.width * 65536) w, Int.tdiv (s.height * 65536) h)) := by
  have axis : ∀ dim w : Int, 1 ≤ dim → dim ≤ w → w ≤ 32767 →
      shl16 dim = some (dim * 65536) ∧
      ∀ d, 0 ≤ d → d < w →
        ∃ v, sample_coord d (Int.tdiv (dim * 65536) w) dim = some v ∧
          d * dim / w - 1 ≤ v ∧ v ≤ d * dim / w := by
    intro dim w h1 h2 h3
    constructor
    · unfold shl16
      rw [if_pos (by omega), int_result_of_range (by omega) (by omega)]
    · intro d hd0 hdw
      obtain ⟨v, hv, -, -⟩ := sample_coord_total d w dim hd0 hdw h1 (by omega)
      obtain ⟨ev, -, -⟩ := sample_coord_inv hv
      obtain ⟨a1, a2, a3⟩ := fixed_point_accuracy d w dim hd0 hdw h1 h3
      rw [Int.tdiv_eq_ediv (by omega) (by omega)]
      refine ⟨v, hv, ?_, ?_⟩
      · rw [ev]
        exact le_min a1 (by omega)
      · rw [ev]
        exact le_trans (min_le_left _ _) a2
  refine ⟨axis s.width w, axis s.height h, fun a1 a2 a3 b1 b2 b3 => ?_⟩
  rw [compose_scale_total w h s (by omega) (by omega) ⟨a1, by omega, b1, by omega⟩,
    Int.tdiv_eq_ediv (by omega) (by omega), Int.tdiv_eq_ediv (by omega) (by omega)]

/-- C25, instance: a source of width 3 in an output of width 7: the scale factor
is 28086 and column 5 samples column 2, which is `5 * 3 / 7` rounded down. -/
theorem sample_fixed_point_accuracy_witness :
    ∃ srcX, sample_coord 5 (Int.tdiv ((gray_image 3 1 [1, 2, 3]).width * 65536) 7)
        (gray_image 3 1 [1, 2, 3]).width = some srcX ∧
      5 * (gray_image 3 1 [1, 2, 3]).width / 7 - 1 ≤ srcX ∧
      srcX ≤ 5 * (gray_image 3 1 [1, 2, 3]).width / 7 :=
  ((sample_fixed_point_accuracy (gray_image 3 1 [1, 2, 3]) 7 1).1
    (by decide) (by decide) (by decide)).2 5 (by decide) (by decide)

/-- C26: overflow freedom of the composer. When every present source has a
width and a height between 1 and 32767 and a data size `bpp * width * height`
of at most `2^31 - 1` (`bpp`, a number of bytes, is not negative) and the output
size `3 * w * h` is at most `2^31 - 1`, the call has no undefined behaviour
(it returns an image), and for every present source the shifts `width << 16`
and `height << 16`, and at every output pixel the products `x * scaleX` and
`y * scaleY` and the source offset `bpp * (srcY * width + srcX)`, are computed
without overflow and lie in `[0, 2^31 - 1]`; the output offsets
`3 * (y * w + x)` to `3 * (y * w + x) + 2` lie in `[0, 2^31 - 1]` and below the
`3 * w * h` allocated bytes. -/
theorem compose_no_overflow (rl : Raylib) (sources : Fin 3 → Option Image)
    (defaultColor : Color)
    (hdim : ∀ i s, sources i = some s →
      1 ≤ s.width ∧ s.width ≤ 32767 ∧ 1 ≤ s.height ∧ s.height ≤ 32767)
    (hbpp : ∀ i s, sources i = some s → 0 ≤ rl.GetPixelDataSize 1 1 s.format ∧
      rl.GetPixelDataSize 1 1 s.format * (s.width * s.height) ≤ 2147483647)
    (hfit : 3 * (compose_dims sources).1 * (compose_dims sources).2 ≤ 2147483647) :
    (∃ img, r3d_compose_images_rgb rl sources defaultColor = some img) ∧
    (∀ i s, sources i = some s →
      shl16 s.width = some (s.width * 65536) ∧ s.width * 65536 ≤ 2147483647 ∧
      shl16 s.height = some (s.height * 65536) ∧ s.height * 65536 ≤ 2147483647 ∧
      ∃ scaleX scaleY,
        compose_scale (compose_dims sources).1 (compose_dims sources).2 (sources i) =
          some (scaleX, scaleY) ∧
        ∀ x y, 0 ≤ x → x < (compose_dims sources).1 →
          0 ≤ y → y < (compose_dims sources).2 →
          0 ≤ x * scaleX ∧ x * scaleX ≤ 2147483647 ∧
          0 ≤ y * scaleY ∧ y * scaleY ≤ 2147483647 ∧
          ∃ srcX srcY off, sample_coord x scaleX s.width = some srcX ∧
            sample_coord y scaleY s.height = some srcY ∧
            sample_offset (compose_bpp rl (sources i)) srcX srcY s.width = some off ∧
            off = rl.GetPixelDataSize 1 1 s.format * (srcY * s.width + srcX) ∧
            0 ≤ off ∧ off ≤ 2147483647) ∧
    (∀ x y, 0 ≤ x → x < (compose_dims sources).1 →
      0 ≤ y → y < (compose_dims sources).2 →
      0 ≤ 3 * (y * (compose_dims sources).1 + x) ∧
      3 * (y * (compose_dims sources).1 + x) + 2 ≤ 2147483647 ∧
      3 * (y * (compose_dims sources).1 + x) + 2 <
        3 * (compose_dims sources).1 * (compose_dims sources).2) := by
  refine ⟨compose_defined rl sources defaultColor hdim hbpp hfit, fun i s hs => ?_,
    fun x y hx0 hxw hy0 hyh => ?_⟩
  · obtain ⟨d1, d2, d3, d4⟩ := hdim i s hs
    obtain ⟨b1, b2⟩ := hbpp i s hs
    have hsl : ∀ v : Int, 1 ≤ v → v ≤ 32767 → shl16 v = some (v * 65536) := by
      intro v v1 v2
      unfold shl16
      rw [if_pos (by omega), int_result_of_range (by omega) (by omega)]
    refine ⟨hsl _ d1 d2, by omega, hsl _ d3 d4, by omega,
      s.width * 65536 / (compose_dims sources).1, s.height * 65536 / (compose_dims sources).2,
      ?_, ?_⟩
    · rw [hs]
      exact compose_scale_total _ _ s
        (lt_of_lt_of_le (by omega) ((compose_dims_max sources).1 i s hs).1)
        (lt_of_lt_of_le (by omega) ((compose_dims_max sources).1 i s hs).2) ⟨d1, d2, d3, d4⟩
    · intro x y hx0 hxw hy0 hyh
      obtain ⟨srcX, hX, hX0, hX1⟩ := sample_coord_total x _ s.width hx0 hxw d1 d2
      obtain ⟨srcY, hY, hY0, hY1⟩ := sample_coord_total y _ s.height hy0 hyh d3 d4
      obtain ⟨-, rx1, rx2⟩ := sample_coord_inv hX
      obtain ⟨-, ry1, ry2⟩ := sample_coord_inv hY
      obtain ⟨off, hoff⟩ := sample_offset_total (rl.GetPixelDataSize 1 1 s.format) srcX srcY
        s.width s.height hX0 hX1 hY0 hY1 b1 b2 d2 d4
      have hoff2 := hoff
      unfold sample_offset at hoff2
      simp only [Option.bind_eq_some] at hoff2
      obtain ⟨a, ha, b, hb, hc⟩ := hoff2
      obtain ⟨ea, -, -⟩ := int_result_eq_some ha
      obtain ⟨eb, -, -⟩ := int_result_eq_some hb
      obtain ⟨ec, -, rc⟩ := int_result_eq_some hc
      have e : off = rl.GetPixelDataSize 1 1 s.format * (srcY * s.width + srcX) := by
        rw [ec, eb, ea]
      have hw0 : 0 < (compose_dims sources).1 := by omega
      have hh0 : 0 < (compose_dims sources).2 := by omega
      have hnn : 0 ≤ srcY * s.width := Int.mul_nonneg hY0 (by omega)
      refine ⟨Int.mul_nonneg hx0 (Int.ediv_nonneg (by omega) (by omega)), rx2,
        Int.mul_nonneg hy0 (Int.ediv_nonneg (by omega) (by omega)), ry2,
        srcX, srcY, off, hX, hY, ?_, e, ?_, by rw [ec]; exact rc⟩
      · rw [hs]
        exact hoff
      · rw [e]
        exact Int.mul_nonneg b1 (by omega)
  · obtain ⟨hw0, hh0⟩ := compose_dims_nonneg sources
    have h1 : y * (compose_dims sources).1 + x + 1 ≤
        (compose_dims sources).1 * (compose_dims sources).2 := by
      have := Int.mul_le_mul_of_nonneg_left (show y + 1 ≤ (compose_dims sources).2 by omega)
        hw0
      have e1 : (compose_dims sources).1 * (y + 1) =
          y * (compose_dims sources).1 + (compose_dims sources).1 := by ring
      omega
    have h2 : 0 ≤ y * (compose_dims sources).1 := Int.mul_nonneg hy0 hw0
    have e2 : 3 * (compose_dims sources).1 * (compose_dims sources).2 =
        3 * ((compose_dims sources).1 * (compose_dims sources).2) := by ring
    refine ⟨by omega, by omega, by omega⟩

/-- C26, instance: a 4 x 1 R source and a 2 x 2 G source (one byte per pixel):
the call returns an image. -/
theorem compose_no_overflow_witness :
    ∃ img, r3d_compose_images_rgb rl_gray
      ![some (gray_image 4 1 [1, 2, 3, 4]), some (gray_image 2 2 [10, 20, 30, 40]), none]
      ⟨5, 0, 5, 255⟩ = some img :=
  (compose_no_overflow rl_gray
    ![some (gray_image 4 1 [1, 2, 3, 4]), some (gray_image 2 2 [10, 20, 30, 40]), none]
    ⟨5, 0, 5, 255⟩
    (by intro i s h; fin_cases i <;> simp at h <;> subst h <;> decide)
    (by intro i s h; fin_cases i <;> simp at h <;> subst h <;> decide)
    (by decide)).1

end R3D
